import Mathlib

/-!
# Worksheet cell-data import (oox/source/xls/sheetdatacontext.cxx)

A shallow embedding of `SheetDataContext` (element format and BIFF12 records) and
`BiffSheetDataContext` (legacy BIFF records).

Conventions of the embedding:

* `sal_Int32` / `sal_Int16` values are carried as `Int`.  Signed overflow is undefined
  behaviour in C++ and is outside the model, so signed arithmetic is exact; unsigned
  fields read from a record are reduced to their width when they are decoded.  The row
  index of a BIFF12 row record, the sum of the row read from the record and 1, is
  reduced to 32 bits as the compiled code delivers it (`wrapSalInt32`).
* A `double` is the rational number it stands for.  The one quotient of doubles of the
  sources, a row height divided by 20.0, is rounded as IEEE 754 binary64 rounds it
  (`divDouble20`); the other doubles come from collaborators or are integers.
* Member references to the sheet data buffer and to the worksheet helper are one log of
  calls, `mrSheetData`, kept in the context state; a call appends one entry.
* Collaborators whose code is not part of the sources (string conversions, the formula
  parser, the address parser, the style table) are fields of `Env`.
* `getCurrentElement()` belongs to the context-handler framework and is passed to the
  handlers as an argument; so is `rStrm.getRecId()` for the legacy records.
* The collaborators of the binary records are fields of `RecordEnv` (formula parser) and
  `ValueEnv` (decoding of doubles and RK values, string readers, text encodings).
* A loop of the sources is a recursion over a bound on its passes that returns the loop
  state at the end; that the loop ended by its own condition is proved for each bound.
* A member that the constructor leaves unassigned is an absent value (`Option`); a
  function that reads it has no result.
-/

namespace Oox

/-! ## Tokens, strings, attributes -/

/-- Element, attribute and attribute-value tokens used by the sheet data context.
Every token the code does not name is `other n`. -/
inductive Token
  | XML_TOKEN_INVALID
  | XLS_sheetData | XLS_row | XLS_c | XLS_is | XLS_v | XLS_f
  | XML_r | XML_t | XML_s | XML_ph | XML_ht | XML_outlineLevel
  | XML_customHeight | XML_customFormat | XML_hidden | XML_collapsed
  | XML_thickTop | XML_thickBot | XML_spans
  | XML_ref | XML_si | XML_r1 | XML_r2 | XML_dt2D | XML_dtr | XML_del1 | XML_del2
  | XML_n | XML_d | XML_b | XML_e | XML_str | XML_inlineStr
  | XML_normal | XML_shared | XML_array | XML_dataTable
  | other (nToken : Nat)
  deriving DecidableEq, Repr

/-- The string class `rtl::OUString`, as its sequence of characters. -/
abbrev OUString := List Char

/-- A value of type `double` is carried as the rational number it stands for. -/
abbrev Double := Rat

/-- Length of a string, `OUString::getLength`. -/
def OUString.getLength (s : OUString) : Int := (s.length : Int)

/-- Position of the first occurrence of a character, or -1: `OUString::indexOf`. -/
def OUString.indexOf : OUString → Char → Int
  | [], _ => -1
  | x :: xs, c =>
    if x = c then 0
    else if OUString.indexOf xs c < 0 then -1 else OUString.indexOf xs c + 1

/-- Tail of a string from a position on, `OUString::copy( beginIndex )`. -/
def OUString.copy (s : OUString) (beginIndex : Int) : OUString :=
  s.drop beginIndex.toNat

/-- Substring `OUString::copy( beginIndex, count )`. -/
def OUString.copyN (s : OUString) (beginIndex count : Int) : OUString :=
  (s.drop beginIndex.toNat).take count.toNat

/-- Token number 0 from a position on, `OUString::getToken( 0, cTok, rnIndex )`: the
characters from `nIndex` up to the next separator (or the end of the string), together
with the new value of the index: the position behind that separator, or -1 when the
string ended.  A negative index gives the empty token and -1. -/
def OUString.getToken (s : OUString) (cTok : Char) (nIndex : Int) : OUString × Int :=
  if nIndex < 0 then ([], -1)
  else
    let rest := s.drop nIndex.toNat
    let tok := rest.takeWhile (fun ch => ch != cTok)
    if tok.length < rest.length then (tok, nIndex + (tok.length : Int) + 1) else (tok, -1)

/-- Typed view of an attribute list (`oox::AttributeList`): every getter of the class
takes the attribute token and a default that is returned when the attribute is
missing. -/
structure AttributeList where
  optString : Token → Option OUString
  optInteger : Token → Option Int
  optToken : Token → Option Token
  optBool : Token → Option Bool
  optDouble : Token → Option Double

/-- Attribute list without any attribute. -/
def AttributeList.empty : AttributeList :=
  { optString := fun _ => none, optInteger := fun _ => none, optToken := fun _ => none,
    optBool := fun _ => none, optDouble := fun _ => none }

def AttributeList.getString (a : AttributeList) (t : Token) (d : OUString) : OUString :=
  (a.optString t).getD d

def AttributeList.getInteger (a : AttributeList) (t : Token) (d : Int) : Int :=
  (a.optInteger t).getD d

def AttributeList.getToken (a : AttributeList) (t : Token) (d : Token) : Token :=
  (a.optToken t).getD d

def AttributeList.getBool (a : AttributeList) (t : Token) (d : Bool) : Bool :=
  (a.optBool t).getD d

def AttributeList.getDouble (a : AttributeList) (t : Token) (d : Double) : Double :=
  (a.optDouble t).getD d

/-! ## Data model -/

/-- Cell address of the document API: `com::sun::star::table::CellAddress`. -/
structure CellAddress where
  Sheet : Int
  Column : Int
  Row : Int
  deriving DecidableEq, Repr

/-- Cell range address of the document API. -/
structure CellRangeAddress where
  Sheet : Int
  StartColumn : Int
  StartRow : Int
  EndColumn : Int
  EndRow : Int
  deriving DecidableEq, Repr

/-- Cell position as stored in binary records. -/
structure BinAddress where
  mnCol : Int
  mnRow : Int
  deriving DecidableEq, Repr

/-- Cell range as stored in binary records. -/
structure BinRange where
  maFirst : BinAddress
  maLast : BinAddress
  deriving DecidableEq, Repr

/-- Closed interval of column indexes. -/
structure ValueRange where
  mnFirst : Int
  mnLast : Int
  deriving DecidableEq, Repr

/-- Formula token sequence produced by the formula parser. -/
abbrev ApiTokenSequence := List Nat

/-- Date and time value of the document API. -/
structure DateTime where
  Year : Nat
  Month : Nat
  Day : Nat
  Hours : Nat
  Minutes : Nat
  Seconds : Nat
  deriving DecidableEq, Repr

/-- Inline rich string; `finalizeImport` marks it as finished. -/
structure RichString where
  maText : OUString
  mbFinalized : Bool
  deriving DecidableEq, Repr

def RichString.new : RichString := { maText := [], mbFinalized := false }

def RichString.finalizeImport (s : RichString) : RichString := { s with mbFinalized := true }

/-- Position, type and formatting of the cell that is being imported. -/
structure CellModel where
  maCellAddr : CellAddress
  mnCellType : Token
  mnXfId : Int
  mbShowPhonetic : Bool
  deriving DecidableEq, Repr

/-- Settings of a cell formula. -/
structure CellFormulaModel where
  maFormulaRef : CellRangeAddress
  mnFormulaType : Token
  mnSharedId : Int
  deriving DecidableEq, Repr

/-- Settings of a table operation. -/
structure DataTableModel where
  maRef1 : OUString
  maRef2 : OUString
  mb2dTable : Bool
  mbRowTable : Bool
  mbRef1Deleted : Bool
  mbRef2Deleted : Bool
  deriving DecidableEq, Repr

/-- Row settings handed to `setRowModel`; `maColSpans` is the set of column spans. -/
structure RowModel where
  mnRow : Int
  maColSpans : List ValueRange
  mfHeight : Double
  mnXfId : Int
  mnLevel : Int
  mbCustomHeight : Bool
  mbCustomFormat : Bool
  mbShowPhonetic : Bool
  mbHidden : Bool
  mbCollapsed : Bool
  mbThickTop : Bool
  mbThickBottom : Bool
  deriving DecidableEq

/-- Modelled from the spec: the default constructor of `RowModel` is declared outside the
sources; the spec gives a format id that may be unset, an outline level from 0 and an
empty list of spans. -/
def RowModel.new : RowModel :=
  { mnRow := -1, maColSpans := [], mfHeight := 0, mnXfId := -1, mnLevel := 0,
    mbCustomHeight := false, mbCustomFormat := false, mbShowPhonetic := false,
    mbHidden := false, mbCollapsed := false, mbThickTop := false, mbThickBottom := false }

/-- Modelled from the spec: `ValueRangeSet::insert` is declared outside the sources; the
spec describes the spans of a row as a list in ascending, non-overlapping column order
whose disjoint union is the set of occupied columns.  A new interval goes to its place
in that order and is united with every interval it overlaps. -/
def ValueRangeSet.insert : List ValueRange → ValueRange → List ValueRange
  | [], r => [r]
  | s :: rest, r =>
    if r.mnLast < s.mnFirst then r :: s :: rest
    else if s.mnLast < r.mnFirst then s :: ValueRangeSet.insert rest r
    else ValueRangeSet.insert rest
      { mnFirst := min s.mnFirst r.mnFirst, mnLast := max s.mnLast r.mnLast }

/-- Modelled from the spec: `RowModel::insertColSpan` is declared outside the sources; a
span is a closed interval of columns (0-based), so a span that is not one (negative
first column, or first column behind the last) adds no column to the row. -/
def RowModel.insertColSpan (m : RowModel) (rColSpan : ValueRange) : RowModel :=
  if 0 ≤ rColSpan.mnFirst ∧ rColSpan.mnFirst ≤ rColSpan.mnLast then
    { m with maColSpans := ValueRangeSet.insert m.maColSpans rColSpan }
  else m

/-- Calls received by the sheet data buffer and the worksheet helper.  Overloads of one
C++ function are separate constructors. -/
inductive SinkCall
  | setRowModel (aModel : RowModel)
  | extendUsedArea (aAddr : CellAddress)
  | setValueCell (aCell : CellModel) (fValue : Double)
  | setDateTimeCell (aCell : CellModel) (aDateTime : DateTime)
  | setBooleanCell (aCell : CellModel) (bValue : Bool)
  | setErrorCell (aCell : CellModel) (aErrorCode : OUString)
  | setErrorCellCode (aCell : CellModel) (nErrorCode : Nat)
  | setStringCell (aCell : CellModel) (aText : OUString)
  | setStringCellId (aCell : CellModel) (nStringId : Int)
  | setStringCellRich (aCell : CellModel) (xString : Option RichString)
  | setFormulaCell (aCell : CellModel) (aTokens : ApiTokenSequence)
  | setFormulaCellShared (aCell : CellModel) (nSharedId : Int)
  | setBlankCell (aCell : CellModel)
  | createSharedFormula (nSharedId : Int) (aTokens : ApiTokenSequence)
  | createSharedFormulaAt (aAddr : CellAddress) (aTokens : ApiTokenSequence)
  | createArrayFormula (aRange : CellRangeAddress) (aTokens : ApiTokenSequence)
  | createTableOperation (aRange : CellRangeAddress) (aModel : DataTableModel)
  | writeBiff2CellFormat (aAddr : CellAddress) (nFlags1 nFlags2 nFlags3 : Nat)
  deriving DecidableEq

/-- The calls that set the content of a cell. -/
def SinkCall.isCellSetter : SinkCall → Bool
  | .setValueCell _ _ => true
  | .setDateTimeCell _ _ => true
  | .setBooleanCell _ _ => true
  | .setErrorCell _ _ => true
  | .setErrorCellCode _ _ => true
  | .setStringCell _ _ => true
  | .setStringCellId _ _ => true
  | .setStringCellRich _ _ => true
  | .setFormulaCell _ _ => true
  | .setFormulaCellShared _ _ => true
  | .setBlankCell _ => true
  | _ => false

def SinkCall.isExtendUsedArea : SinkCall → Bool
  | .extendUsedArea _ => true
  | _ => false

def SinkCall.isCreateSharedFormula : SinkCall → Bool
  | .createSharedFormula _ _ => true
  | .createSharedFormulaAt _ _ => true
  | _ => false

/-! ## Collaborators -/

/-- The address converter of the workbook.  Its code is outside the sources: the largest
address of a sheet and the parsers of address texts are data of the converter. -/
structure AddressConverter where
  maMaxApiPos : CellAddress
  parseOoxAddress2d : OUString → Option (Int × Int)
  convertTextToCellRange : OUString → Int → Option CellRangeAddress
  convertBinToCellRange : BinRange → Int → Option CellRangeAddress

def AddressConverter.getMaxApiAddress (c : AddressConverter) : CellAddress := c.maMaxApiPos

/-- Modelled from the spec: `AddressConverter::checkCellAddress` is declared outside the
sources; the converter enforces the sheet bounds: sheet, column and row lie between 0
and the largest address of a sheet. -/
def AddressConverter.checkCellAddress (c : AddressConverter) (a : CellAddress) : Bool :=
  decide (0 ≤ a.Sheet ∧ a.Sheet ≤ c.maMaxApiPos.Sheet ∧
    0 ≤ a.Column ∧ a.Column ≤ c.maMaxApiPos.Column ∧
    0 ≤ a.Row ∧ a.Row ≤ c.maMaxApiPos.Row)

/-- Modelled from the spec: `AddressConverter::convertToCellAddress` for an address text is
declared outside the sources; the spec gives it as `toCellAddress(raw) -> Address | invalid`
enforcing the sheet bounds.  The parsed column and row are 0-based. -/
def AddressConverter.convertToCellAddress (c : AddressConverter) (rString : OUString)
    (nSheet : Int) : Option CellAddress :=
  match c.parseOoxAddress2d rString with
  | none => none
  | some (nCol, nRow) =>
    if c.checkCellAddress { Sheet := nSheet, Column := nCol, Row := nRow }
    then some { Sheet := nSheet, Column := nCol, Row := nRow } else none

/-- Modelled from the spec: `AddressConverter::convertToCellAddress` for a binary position
is declared outside the sources; `toCellAddress(raw) -> Address | invalid`, enforcing the
sheet bounds. -/
def AddressConverter.convertBinToCellAddress (c : AddressConverter) (rBinAddress : BinAddress)
    (nSheet : Int) : Option CellAddress :=
  if c.checkCellAddress { Sheet := nSheet, Column := rBinAddress.mnCol, Row := rBinAddress.mnRow }
  then some { Sheet := nSheet, Column := rBinAddress.mnCol, Row := rBinAddress.mnRow } else none

/-- Collaborators of the sheet data context whose code is outside the sources:
the address converter, the conversions of `OUString`, the date parser, the formula
parser for formula text, and whether the style table has a cell XF with index 0. -/
structure Env where
  mrAddressConv : AddressConverter
  toInt32 : OUString → Int
  toDouble : OUString → Double
  parseISO8601DateTime : OUString → Option DateTime
  importFormula : CellAddress → OUString → ApiTokenSequence
  mbHasCellXf0 : Bool

/-- Modelled from the spec: `CellFormulaModel::isValidArrayRef` is declared outside the
sources; the spec honours an array formula only if the current cell address equals the
top-left cell of its declared range. -/
def CellFormulaModel.isValidArrayRef (m : CellFormulaModel) (rCellAddr : CellAddress) : Bool :=
  decide (m.maFormulaRef.Sheet = rCellAddr.Sheet ∧
    m.maFormulaRef.StartColumn = rCellAddr.Column ∧
    m.maFormulaRef.StartRow = rCellAddr.Row)

/-- Modelled from the spec: `CellFormulaModel::isValidSharedRef` is declared outside the
sources; the spec registers the token stream of a shared formula if the address of the
cell equals the anchor of the declared range of the group, the anchor being the top-left
cell of the range. -/
def CellFormulaModel.isValidSharedRef (m : CellFormulaModel) (rCellAddr : CellAddress) : Bool :=
  decide (m.maFormulaRef.Sheet = rCellAddr.Sheet ∧
    m.maFormulaRef.StartColumn = rCellAddr.Column ∧
    m.maFormulaRef.StartRow = rCellAddr.Row)

/-! ## The element-format context -/

/-- Members of `SheetDataContext` and of its base `SheetDataContextBase`; `mrSheetData`
is the log of the calls made so far. -/
structure SheetDataContext where
  mrSheetData : List SinkCall
  maCellData : CellModel
  maFmlaData : CellFormulaModel
  maLastCellAddress : CellAddress
  mnSheet : Int
  maCellValue : OUString
  mxInlineStr : Option RichString
  maTokens : ApiTokenSequence
  maTableData : DataTableModel
  maCurrPos : BinAddress
  mbHasFormula : Bool
  mbValidRange : Bool

/-- Result of `onCreateContext`: no context (0), the context itself, or a new
`RichStringContext`. -/
inductive ContextHandlerRef
  | null
  | this
  | richStringContext
  deriving DecidableEq, Repr

/-- The constructors `SheetDataContextBase::SheetDataContextBase` and
`SheetDataContext::SheetDataContext` for the sheet with index `nSheet`.
`SAL_MAX_UINT32` stored in the 32-bit signed row is -1. -/
def SheetDataContext.new (nSheet : Int) : SheetDataContext :=
  { mrSheetData := []
    maCellData := { maCellAddr := { Sheet := 0, Column := 0, Row := 0 },
                    mnCellType := .XML_TOKEN_INVALID, mnXfId := -1, mbShowPhonetic := false }
    maFmlaData := { maFormulaRef := { Sheet := 0, StartColumn := 0, StartRow := 0,
                                      EndColumn := 0, EndRow := 0 },
                    mnFormulaType := .XML_TOKEN_INVALID, mnSharedId := -1 }
    maLastCellAddress := { Sheet := nSheet, Column := 0, Row := -1 }
    mnSheet := nSheet
    maCellValue := []
    mxInlineStr := none
    maTokens := []
    maTableData := { maRef1 := [], maRef2 := [], mb2dTable := false, mbRowTable := false,
                     mbRef1Deleted := false, mbRef2Deleted := false }
    maCurrPos := { mnCol := 0, mnRow := 0 }
    mbHasFormula := false
    mbValidRange := false }

/-- One call on the sheet data buffer or the worksheet helper. -/
def SheetDataContext.call (st : SheetDataContext) (c : SinkCall) : SheetDataContext :=
  { st with mrSheetData := st.mrSheetData ++ [c] }

/-- The while loop of `importRow( const AttributeList& )` that decodes the column spans.
The state of the loop is `nIndex` and the spans handed to `aModel.insertColSpan` so far,
in call order; `fuel` bounds the number of passes. -/
def SheetDataContext.importRowColSpans (env : Env) (aColSpansText : OUString) (nMaxCol : Int) :
    Nat → Int → List ValueRange → Int × List ValueRange
  | 0, nIndex, spans => (nIndex, spans)
  | fuel + 1, nIndex, spans =>
    if nIndex ≥ 0 then
      let aColSpanToken := (aColSpansText.getToken ' ' nIndex).1
      let nIndex1 := (aColSpansText.getToken ' ' nIndex).2
      let nSepPos := aColSpanToken.indexOf ':'
      if 0 < nSepPos ∧ nSepPos + 1 < aColSpanToken.getLength then
        let nLastCol := min (env.toInt32 (aColSpanToken.copy (nSepPos + 1)) - 1) nMaxCol
        SheetDataContext.importRowColSpans env aColSpansText nMaxCol fuel nIndex1
          (spans ++ [{ mnFirst := env.toInt32 (aColSpanToken.copyN 0 nSepPos) - 1,
                       mnLast := nLastCol }])
      else
        SheetDataContext.importRowColSpans env aColSpansText nMaxCol fuel nIndex1 spans
    else (nIndex, spans)

/-- The spans handed to `insertColSpan` by the element-format `importRow`, in call order,
with the final value of `nIndex`.  Every pass of the loop moves `nIndex` behind one more
separator, so one pass per character and one more suffice. -/
def SheetDataContext.decodeColSpans (env : Env) (aColSpansText : OUString) (nMaxCol : Int) :
    Int × List ValueRange :=
  SheetDataContext.importRowColSpans env aColSpansText nMaxCol (aColSpansText.length + 1) 0 []

/-- The row model built by `SheetDataContext::importRow( const AttributeList& )`. -/
def SheetDataContext.importRowModel (env : Env) (st : SheetDataContext)
    (rAttribs : AttributeList) : RowModel :=
  let nRow := rAttribs.getInteger .XML_r (-1)
  let aModel : RowModel :=
    { RowModel.new with
      mnRow := if nRow = -1 then st.maLastCellAddress.Row + 1 else nRow
      mfHeight := rAttribs.getDouble .XML_ht (-1)
      mnXfId := rAttribs.getInteger .XML_s (-1)
      mnLevel := rAttribs.getInteger .XML_outlineLevel 0
      mbCustomHeight := rAttribs.getBool .XML_customHeight false
      mbCustomFormat := rAttribs.getBool .XML_customFormat false
      mbShowPhonetic := rAttribs.getBool .XML_ph false
      mbHidden := rAttribs.getBool .XML_hidden false
      mbCollapsed := rAttribs.getBool .XML_collapsed false
      mbThickTop := rAttribs.getBool .XML_thickTop false
      mbThickBottom := rAttribs.getBool .XML_thickBot false }
  (SheetDataContext.decodeColSpans env (rAttribs.getString .XML_spans [])
    env.mrAddressConv.getMaxApiAddress.Column).2.foldl RowModel.insertColSpan aModel

/-- The function `SheetDataContext::importRow( const AttributeList& )`. -/
def SheetDataContext.importRow (env : Env) (st : SheetDataContext)
    (rAttribs : AttributeList) : SheetDataContext :=
  let nRow := rAttribs.getInteger .XML_r (-1)
  let aModel := SheetDataContext.importRowModel env st rAttribs
  let nLastRow := if nRow = -1 then st.maLastCellAddress.Row + 1 else nRow - 1
  { st with
    maLastCellAddress := { st.maLastCellAddress with Row := nLastRow, Column := -1 }
    mrSheetData := st.mrSheetData ++ [.setRowModel aModel] }

/-- The function `SheetDataContext::importCell`; the result is `bValidAddr`. -/
def SheetDataContext.importCell (env : Env) (st : SheetDataContext)
    (rAttribs : AttributeList) : Bool × SheetDataContext :=
  let r := rAttribs.getString .XML_r []
  let res : Bool × CellAddress :=
    if r.getLength > 0 then
      match env.mrAddressConv.convertToCellAddress (rAttribs.getString .XML_r []) st.mnSheet with
      | some aAddr => (true, aAddr)
      | none => (false, st.maCellData.maCellAddr)
    else
      (true, { Column := st.maLastCellAddress.Column + 1
               Row := st.maLastCellAddress.Row
               Sheet := st.maLastCellAddress.Sheet })
  if res.1 then
    let aCell : CellModel :=
      { maCellAddr := res.2
        mnCellType := rAttribs.getToken .XML_t .XML_n
        mnXfId := rAttribs.getInteger .XML_s (-1)
        mbShowPhonetic := rAttribs.getBool .XML_ph false }
    (true,
     { st with
       maLastCellAddress := { Column := res.2.Column, Row := res.2.Row, Sheet := res.2.Sheet }
       maCellData := aCell
       maCellValue := []
       mxInlineStr := none
       mbHasFormula := false
       mrSheetData := st.mrSheetData ++ [.extendUsedArea res.2] })
  else
    (false, st)

/-- The function `SheetDataContext::importFormula`. -/
def SheetDataContext.importFormula (env : Env) (st : SheetDataContext)
    (rAttribs : AttributeList) : SheetDataContext :=
  let conv := env.mrAddressConv.convertTextToCellRange (rAttribs.getString .XML_ref []) st.mnSheet
  let nFormulaType := rAttribs.getToken .XML_t .XML_normal
  { st with
    mbHasFormula := true
    mbValidRange := conv.isSome
    maFmlaData :=
      { maFormulaRef := conv.getD st.maFmlaData.maFormulaRef
        mnFormulaType := nFormulaType
        mnSharedId := rAttribs.getInteger .XML_si (-1) }
    maTableData :=
      if nFormulaType = .XML_dataTable then
        { maRef1 := rAttribs.getString .XML_r1 []
          maRef2 := rAttribs.getString .XML_r2 []
          mb2dTable := rAttribs.getBool .XML_dt2D false
          mbRowTable := rAttribs.getBool .XML_dtr false
          mbRef1Deleted := rAttribs.getBool .XML_del1 false
          mbRef2Deleted := rAttribs.getBool .XML_del2 false }
      else st.maTableData
    maTokens := [] }

/-- The function `SheetDataContext::onCreateContext`; `nCurrElement` is the value of
`getCurrentElement()`. -/
def SheetDataContext.onCreateContext (env : Env) (st : SheetDataContext)
    (nCurrElement nElement : Token) (rAttribs : AttributeList) :
    ContextHandlerRef × SheetDataContext :=
  match nCurrElement with
  | .XLS_sheetData =>
    if nElement = .XLS_row then (.this, st.importRow env rAttribs) else (.null, st)
  | .XLS_row =>
    if nElement = .XLS_c then
      if (st.importCell env rAttribs).1 then (.this, (st.importCell env rAttribs).2)
      else (.null, (st.importCell env rAttribs).2)
    else (.null, st)
  | .XLS_c =>
    match nElement with
    | .XLS_is => (.richStringContext, { st with mxInlineStr := some RichString.new })
    | .XLS_v => (.this, st)
    | .XLS_f => (.this, st.importFormula env rAttribs)
    | _ => (.null, st)
  | _ => (.null, st)

/-- The function `SheetDataContext::onCharacters`. -/
def SheetDataContext.onCharacters (env : Env) (st : SheetDataContext)
    (nCurrElement : Token) (rChars : OUString) : SheetDataContext :=
  match nCurrElement with
  | .XLS_v => { st with maCellValue := rChars }
  | .XLS_f =>
    if st.maFmlaData.mnFormulaType ≠ .XML_TOKEN_INVALID then
      { st with maTokens := env.importFormula st.maCellData.maCellAddr rChars }
    else st
  | _ => st

/-- First part of `SheetDataContext::onEndElement` for a cell: try to create a formula
cell. -/
def SheetDataContext.endCellFormula (st : SheetDataContext) : SheetDataContext :=
  if st.mbHasFormula then
    match st.maFmlaData.mnFormulaType with
    | .XML_normal => st.call (.setFormulaCell st.maCellData st.maTokens)
    | .XML_shared =>
      if st.maFmlaData.mnSharedId ≥ 0 then
        (if st.mbValidRange && st.maFmlaData.isValidSharedRef st.maCellData.maCellAddr then
            st.call (.createSharedFormula st.maFmlaData.mnSharedId st.maTokens)
          else st).call (.setFormulaCellShared st.maCellData st.maFmlaData.mnSharedId)
      else { st with mbHasFormula := false }
    | .XML_array =>
      (if st.mbValidRange && st.maFmlaData.isValidArrayRef st.maCellData.maCellAddr then
          st.call (.createArrayFormula st.maFmlaData.maFormulaRef st.maTokens)
        else st).call (.setBlankCell st.maCellData)
    | .XML_dataTable =>
      (if st.mbValidRange then
          st.call (.createTableOperation st.maFmlaData.maFormulaRef st.maTableData)
        else st).call (.setBlankCell st.maCellData)
    | _ => { st with mbHasFormula := false }
  else st

/-- Second part of `SheetDataContext::onEndElement` for a cell: no formula was created,
try to set the cell value. -/
def SheetDataContext.endCellValue (env : Env) (st : SheetDataContext) : SheetDataContext :=
  if !st.mbHasFormula then
    if st.maCellValue.getLength > 0 then
      match st.maCellData.mnCellType with
      | .XML_n => st.call (.setValueCell st.maCellData (env.toDouble st.maCellValue))
      | .XML_d =>
        match env.parseISO8601DateTime st.maCellValue with
        | some dateTime => st.call (.setDateTimeCell st.maCellData dateTime)
        | none => st.call (.setErrorCell st.maCellData st.maCellValue)
      | .XML_b => st.call (.setBooleanCell st.maCellData (decide (env.toDouble st.maCellValue ≠ 0)))
      | .XML_e => st.call (.setErrorCell st.maCellData st.maCellValue)
      | .XML_str => st.call (.setStringCell st.maCellData st.maCellValue)
      | .XML_s => st.call (.setStringCellId st.maCellData (env.toInt32 st.maCellValue))
      | _ => st
    else if st.maCellData.mnCellType = .XML_inlineStr ∧ st.mxInlineStr.isSome then
      { st with
        mxInlineStr := st.mxInlineStr.map RichString.finalizeImport
        mrSheetData := st.mrSheetData ++
          [.setStringCellRich st.maCellData (st.mxInlineStr.map RichString.finalizeImport)] }
    else
      { st with
        maCellData := { st.maCellData with mnCellType := .XML_TOKEN_INVALID }
        mrSheetData := st.mrSheetData ++
          [.setBlankCell { st.maCellData with mnCellType := .XML_TOKEN_INVALID }] }
  else st

/-- The function `SheetDataContext::onEndElement`. -/
def SheetDataContext.onEndElement (env : Env) (st : SheetDataContext)
    (nCurrElement : Token) : SheetDataContext :=
  if nCurrElement = .XLS_c then st.endCellFormula.endCellValue env else st

/-! ## Record streams -/

/-- Modelled from the spec: the record streams (`SequenceInputStream`, `BiffInputStream`)
are declared outside the sources; the spec has the walker deliver one record at a time,
read in document order.  A stream is the bytes of the record not yet read and the
end-of-stream flag; a read behind the end sets the flag and delivers zero. -/
structure BinaryInputStream where
  maData : List Nat
  mbEof : Bool
  deriving DecidableEq, Repr

def BinaryInputStream.isEof (s : BinaryInputStream) : Bool := s.mbEof

def BinaryInputStream.getRemaining (s : BinaryInputStream) : Int :=
  if s.mbEof then -1 else (s.maData.length : Int)

/-- Value of a little-endian byte sequence. -/
def leValue : List Nat → Nat
  | [] => 0
  | b :: bs => b % 256 + 256 * leValue bs

/-- Read `n` bytes as one unsigned little-endian value. -/
def BinaryInputStream.readValue (s : BinaryInputStream) (n : Nat) : Nat × BinaryInputStream :=
  if s.mbEof then (0, s)
  else if n ≤ s.maData.length then (leValue (s.maData.take n), { s with maData := s.maData.drop n })
  else (0, { maData := [], mbEof := true })

def BinaryInputStream.skip (s : BinaryInputStream) (n : Nat) : BinaryInputStream :=
  (s.readValue n).2

def BinaryInputStream.readuInt8 (s : BinaryInputStream) : Nat × BinaryInputStream :=
  s.readValue 1

def BinaryInputStream.readuInt16 (s : BinaryInputStream) : Nat × BinaryInputStream :=
  s.readValue 2

def BinaryInputStream.readuInt32 (s : BinaryInputStream) : Nat × BinaryInputStream :=
  s.readValue 4

/-- Value of a 32-bit pattern as `sal_Int32`. -/
def toSalInt32 (n : Nat) : Int :=
  if n % 4294967296 < 2147483648 then (n % 4294967296 : Nat) else (n % 4294967296 : Nat) - 4294967296

def BinaryInputStream.readInt32 (s : BinaryInputStream) : Int × BinaryInputStream :=
  (toSalInt32 (s.readValue 4).1, (s.readValue 4).2)

/-- The helper `extractValue< sal_Int32 >( nBitField, nStartBit, nBitCount )`. -/
def extractValue (nBitField nStartBit nBitCount : Nat) : Int :=
  ((nBitField / 2 ^ nStartBit % 2 ^ nBitCount : Nat) : Int)

/-- The helper `getFlag( nBitField, nMask )`. -/
def getFlag (nBitField nMask : Nat) : Bool := Nat.land nBitField nMask != 0

/-- The largest `e` with `2 ^ e ≤ n`, for `n` below `2 ^ (nDigits + 1)`; 0 for `n = 0`. -/
def floorLog2 : Nat → Nat → Nat
  | 0, _ => 0
  | nDigits + 1, n => if n < 2 then 0 else floorLog2 nDigits (n / 2) + 1

/-- The integer nearest to `n / d`; of two nearest integers the even one. -/
def roundDiv (n d : Nat) : Nat :=
  if d < 2 * (n % d) ∨ (2 * (n % d) = d ∧ n / d % 2 = 1) then n / d + 1 else n / d

/-- The quotient `n / 20.0` for an unsigned 16-bit `n`, as the division of two doubles
delivers it (IEEE 754 binary64, round to nearest, ties to even): `n` and 20 are doubles
exactly, and the quotient is rounded to 53 significant bits.  With `e` the largest
exponent with `2 ^ e ≤ n / 20`, taken from `n * 2 ^ 57 / 20`, which has 53 bits or more,
the result is a multiple of `2 ^ (e - 52)`. -/
def divDouble20 (n : Nat) : Double :=
  if n = 0 then 0
  else
    ((roundDiv (n * 2 ^ (109 - floorLog2 107 (n * 2 ^ 57 / 20))) 20 : Nat) : Rat) /
      2 ^ (109 - floorLog2 107 (n * 2 ^ 57 / 20))

/-- The value of a sum of `sal_Int32` operands that the compiled code delivers: the low
32 bits of the exact sum. -/
def wrapSalInt32 (n : Int) : Int := toSalInt32 (n % 4294967296).toNat

/-! ## Record constants -/

def BIFF12_CELL_SHOWPHONETIC : Nat := 0x01000000
def BIFF12_ROW_THICKTOP : Nat := 0x0001
def BIFF12_ROW_THICKBOTTOM : Nat := 0x0002
def BIFF12_ROW_COLLAPSED : Nat := 0x0800
def BIFF12_ROW_HIDDEN : Nat := 0x1000
def BIFF12_ROW_CUSTOMHEIGHT : Nat := 0x2000
def BIFF12_ROW_CUSTOMFORMAT : Nat := 0x4000
def BIFF12_ROW_SHOWPHONETIC : Nat := 0x01
def BIFF2_ROW_CUSTOMFORMAT : Nat := 0x01
def BIFF_ROW_DEFAULTHEIGHT : Nat := 0x8000
def BIFF_ROW_HEIGHTMASK : Nat := 0x7FFF
def BIFF_ROW_COLLAPSED : Nat := 0x00000010
def BIFF_ROW_HIDDEN : Nat := 0x00000020
def BIFF_ROW_CUSTOMHEIGHT : Nat := 0x00000040
def BIFF_ROW_CUSTOMFORMAT : Nat := 0x00000080
def BIFF_ROW_THICKTOP : Nat := 0x10000000
def BIFF_ROW_THICKBOTTOM : Nat := 0x20000000
def BIFF_ROW_SHOWPHONETIC : Nat := 0x40000000
def BIFF2_CELL_USEIXFE : Int := 63

/-! ## BIFF12 records -/

/-- Kind of a BIFF12 cell record. -/
inductive CellType
  | CELLTYPE_VALUE
  | CELLTYPE_FORMULA
  | CELLTYPE_MULTI
  deriving DecidableEq, Repr

/-- The for loop of `importRow( SequenceInputStream& )` that reads the column spans:
`nCount` is the number of passes still allowed by `nSpanIdx < nSpanCount`; the result is
the stream and the spans handed to `aModel.insertColSpan`, in call order. -/
def SheetDataContext.importRowRecSpans (nMaxCol : Int) :
    Nat → BinaryInputStream → List ValueRange → BinaryInputStream × List ValueRange
  | 0, rStrm, spans => (rStrm, spans)
  | nCount + 1, rStrm, spans =>
    if !rStrm.isEof then
      let nFirstCol := rStrm.readInt32.1
      let nLastCol := rStrm.readInt32.2.readInt32.1
      SheetDataContext.importRowRecSpans nMaxCol nCount rStrm.readInt32.2.readInt32.2
        (spans ++ [{ mnFirst := nFirstCol, mnLast := min nLastCol nMaxCol }])
    else (rStrm, spans)

/-- The fixed fields of a BIFF12 row record, in reading order. -/
structure Biff12RowHeader where
  mnRow : Int
  mnXfId : Int
  nHeight : Nat
  nFlags1 : Nat
  nFlags2 : Nat
  nSpanCount : Int
  rStrm : BinaryInputStream

/-- The statement `rStrm >> maCurrPos.mnRow >> aModel.mnXfId >> nHeight >> nFlags1 >>
nFlags2 >> nSpanCount` of `importRow( SequenceInputStream& )`. -/
def SheetDataContext.readRowHeader (rStrm : BinaryInputStream) : Biff12RowHeader :=
  let r1 := rStrm.readInt32
  let r2 := r1.2.readInt32
  let r3 := r2.2.readuInt16
  let r4 := r3.2.readuInt16
  let r5 := r4.2.readuInt8
  let r6 := r5.2.readInt32
  { mnRow := r1.1, mnXfId := r2.1, nHeight := r3.1, nFlags1 := r4.1, nFlags2 := r5.1,
    nSpanCount := r6.1, rStrm := r6.2 }

/-- The spans handed to `insertColSpan` by `importRow( SequenceInputStream& )`. -/
def SheetDataContext.recColSpans (env : Env) (rStrm : BinaryInputStream) :
    BinaryInputStream × List ValueRange :=
  let h := SheetDataContext.readRowHeader rStrm
  SheetDataContext.importRowRecSpans env.mrAddressConv.getMaxApiAddress.Column
    h.nSpanCount.toNat h.rStrm []

/-- The row model built by `SheetDataContext::importRow( SequenceInputStream& )`. -/
def SheetDataContext.importRowRecModel (env : Env) (rStrm : BinaryInputStream) : RowModel :=
  let h := SheetDataContext.readRowHeader rStrm
  let aModel : RowModel :=
    { RowModel.new with
      mnXfId := h.mnXfId
      mnRow := wrapSalInt32 (h.mnRow + 1)
      mfHeight := divDouble20 h.nHeight
      mnLevel := extractValue h.nFlags1 8 3
      mbCustomHeight := getFlag h.nFlags1 BIFF12_ROW_CUSTOMHEIGHT
      mbCustomFormat := getFlag h.nFlags1 BIFF12_ROW_CUSTOMFORMAT
      mbShowPhonetic := getFlag h.nFlags2 BIFF12_ROW_SHOWPHONETIC
      mbHidden := getFlag h.nFlags1 BIFF12_ROW_HIDDEN
      mbCollapsed := getFlag h.nFlags1 BIFF12_ROW_COLLAPSED
      mbThickTop := getFlag h.nFlags1 BIFF12_ROW_THICKTOP
      mbThickBottom := getFlag h.nFlags1 BIFF12_ROW_THICKBOTTOM }
  (SheetDataContext.recColSpans env rStrm).2.foldl RowModel.insertColSpan aModel

/-- The function `SheetDataContext::importRow( SequenceInputStream& )`. -/
def SheetDataContext.importRowRec (env : Env) (st : SheetDataContext)
    (rStrm : BinaryInputStream) : BinaryInputStream × SheetDataContext :=
  ((SheetDataContext.recColSpans env rStrm).1,
   { st with
     maCurrPos := { mnRow := (SheetDataContext.readRowHeader rStrm).mnRow, mnCol := 0 }
     mrSheetData := st.mrSheetData ++ [.setRowModel (SheetDataContext.importRowRecModel env rStrm)] })

/-- The function `SheetDataContext::readCellHeader`; the first component of the result is
`bValidAddr`. -/
def SheetDataContext.readCellHeader (env : Env) (st : SheetDataContext)
    (rStrm : BinaryInputStream) (eCellType : CellType) :
    Bool × BinaryInputStream × SheetDataContext :=
  let pos : BinaryInputStream × BinAddress :=
    match eCellType with
    | .CELLTYPE_VALUE => (rStrm.readInt32.2, { st.maCurrPos with mnCol := rStrm.readInt32.1 })
    | .CELLTYPE_FORMULA => (rStrm.readInt32.2, { st.maCurrPos with mnCol := rStrm.readInt32.1 })
    | .CELLTYPE_MULTI => (rStrm, { st.maCurrPos with mnCol := st.maCurrPos.mnCol + 1 })
  let nXfId := pos.1.readuInt32.1
  let conv := env.mrAddressConv.convertBinToCellAddress pos.2 st.mnSheet
  let aCell : CellModel :=
    { st.maCellData with
      maCellAddr := conv.getD st.maCellData.maCellAddr
      mnXfId := extractValue nXfId 0 24
      mbShowPhonetic := getFlag nXfId BIFF12_CELL_SHOWPHONETIC }
  let st1 : SheetDataContext := { st with maCurrPos := pos.2, maCellData := aCell }
  if conv.isSome then
    (true, pos.1.readuInt32.2, st1.call (.extendUsedArea aCell.maCellAddr))
  else
    (false, pos.1.readuInt32.2, st1)

/-! ## Legacy BIFF records -/

/-- Version of the legacy binary format. -/
inductive BiffType
  | BIFF2 | BIFF3 | BIFF4 | BIFF5 | BIFF8 | BIFF_UNKNOWN
  deriving DecidableEq, Repr

/-- Members of `BiffSheetDataContext` and of its base `SheetDataContextBase`.  The skip
sizes are absent as long as no value has been assigned to them. -/
structure BiffSheetDataContext where
  mrSheetData : List SinkCall
  maCellData : CellModel
  maFmlaData : CellFormulaModel
  maLastCellAddress : CellAddress
  mnSheet : Int
  meBiff : BiffType
  mnFormulaSkipSize : Option Nat
  mnArraySkipSize : Option Nat
  mobBiff2HasXfs : Option Bool
  mnBiff2XfId : Nat

def BiffSheetDataContext.getBiff (st : BiffSheetDataContext) : BiffType := st.meBiff

def BiffSheetDataContext.call (st : BiffSheetDataContext) (c : SinkCall) : BiffSheetDataContext :=
  { st with mrSheetData := st.mrSheetData ++ [c] }

/-- The constructor `BiffSheetDataContext::BiffSheetDataContext`. -/
def BiffSheetDataContext.new (eBiff : BiffType) (nSheet : Int) : BiffSheetDataContext :=
  { mrSheetData := []
    maCellData := { maCellAddr := { Sheet := 0, Column := 0, Row := 0 },
                    mnCellType := .XML_TOKEN_INVALID, mnXfId := -1, mbShowPhonetic := false }
    maFmlaData := { maFormulaRef := { Sheet := 0, StartColumn := 0, StartRow := 0,
                                      EndColumn := 0, EndRow := 0 },
                    mnFormulaType := .XML_TOKEN_INVALID, mnSharedId := -1 }
    maLastCellAddress := { Sheet := nSheet, Column := 0, Row := -1 }
    mnSheet := nSheet
    meBiff := eBiff
    mnFormulaSkipSize :=
      match eBiff with
      | .BIFF2 => some 9
      | .BIFF3 => some 10
      | .BIFF4 => some 10
      | .BIFF5 => some 14
      | .BIFF8 => some 14
      | .BIFF_UNKNOWN => none
    mnArraySkipSize :=
      match eBiff with
      | .BIFF2 => some 1
      | .BIFF3 => some 2
      | .BIFF4 => some 2
      | .BIFF5 => some 6
      | .BIFF8 => some 6
      | .BIFF_UNKNOWN => none
    mobBiff2HasXfs := none
    mnBiff2XfId := 0 }

/-- The fixed fields of a legacy row record and the row model filled from the fields
behind them. -/
structure BiffRowHeader where
  nRow : Nat
  nFirstUsedCol : Nat
  nFirstFreeCol : Nat
  nHeight : Nat
  aModel : RowModel
  rStrm : BinaryInputStream

/-- The part of `BiffSheetDataContext::importRow` that reads the record. -/
def BiffSheetDataContext.readRowHeader (st : BiffSheetDataContext)
    (rStrm : BinaryInputStream) : BiffRowHeader :=
  let r1 := rStrm.readuInt16
  let r2 := r1.2.readuInt16
  let r3 := r2.2.readuInt16
  let r4 := r3.2.readuInt16
  if st.getBiff = .BIFF2 then
    let s5 := r4.2.skip 2
    let r6 := s5.readuInt8
    if r6.1 = BIFF2_ROW_CUSTOMFORMAT then
      let s7 := r6.2.skip 5
      { nRow := r1.1, nFirstUsedCol := r2.1, nFirstFreeCol := r3.1, nHeight := r4.1,
        aModel := { RowModel.new with mbCustomFormat := true, mnXfId := (s7.readuInt16.1 : Int) },
        rStrm := s7.readuInt16.2 }
    else
      { nRow := r1.1, nFirstUsedCol := r2.1, nFirstFreeCol := r3.1, nHeight := r4.1,
        aModel := { RowModel.new with mbCustomFormat := false }, rStrm := r6.2 }
  else
    let s5 := r4.2.skip 4
    let nFlags := s5.readuInt32.1
    { nRow := r1.1, nFirstUsedCol := r2.1, nFirstFreeCol := r3.1, nHeight := r4.1,
      aModel :=
        { RowModel.new with
          mnXfId := extractValue nFlags 16 12
          mnLevel := extractValue nFlags 0 3
          mbCustomFormat := getFlag nFlags BIFF_ROW_CUSTOMFORMAT
          mbCustomHeight := getFlag nFlags BIFF_ROW_CUSTOMHEIGHT
          mbShowPhonetic := getFlag nFlags BIFF_ROW_SHOWPHONETIC
          mbHidden := getFlag nFlags BIFF_ROW_HIDDEN
          mbCollapsed := getFlag nFlags BIFF_ROW_COLLAPSED
          mbThickTop := getFlag nFlags BIFF_ROW_THICKTOP
          mbThickBottom := getFlag nFlags BIFF_ROW_THICKBOTTOM },
      rStrm := s5.readuInt32.2 }

/-- The spans handed to `insertColSpan` by `BiffSheetDataContext::importRow`. -/
def BiffSheetDataContext.rowColSpans (env : Env) (st : BiffSheetDataContext)
    (rStrm : BinaryInputStream) : List ValueRange :=
  let h := st.readRowHeader rStrm
  if h.nFirstUsedCol < h.nFirstFreeCol then
    [{ mnFirst := (h.nFirstUsedCol : Int),
       mnLast := min ((h.nFirstFreeCol : Int) - 1) env.mrAddressConv.getMaxApiAddress.Column }]
  else []

/-- The row model built by `BiffSheetDataContext::importRow`. -/
def BiffSheetDataContext.importRowModel (env : Env) (st : BiffSheetDataContext)
    (rStrm : BinaryInputStream) : RowModel :=
  let h := st.readRowHeader rStrm
  (st.rowColSpans env rStrm).foldl RowModel.insertColSpan
    { h.aModel with
      mnRow := (h.nRow : Int) + 1
      mfHeight := divDouble20 (Nat.land h.nHeight BIFF_ROW_HEIGHTMASK) }

/-- The function `BiffSheetDataContext::importRow`. -/
def BiffSheetDataContext.importRow (env : Env) (st : BiffSheetDataContext)
    (rStrm : BinaryInputStream) : BinaryInputStream × BiffSheetDataContext :=
  ((st.readRowHeader rStrm).rStrm, st.call (.setRowModel (st.importRowModel env rStrm)))

/-- The function `BiffSheetDataContext::readCellXfId`; the first component of the result
is `bValidAddr`. -/
def BiffSheetDataContext.readCellXfId (env : Env) (st : BiffSheetDataContext)
    (rStrm : BinaryInputStream) (rAddr : BinAddress) (bBiff2 : Bool) :
    Bool × BinaryInputStream × BiffSheetDataContext :=
  match env.mrAddressConv.convertBinToCellAddress rAddr st.mnSheet with
  | some aAddr =>
    let st1 := ({ st with maCellData := { st.maCellData with maCellAddr := aAddr } }).call
      (.extendUsedArea aAddr)
    if bBiff2 then
      let obHasXfs : Bool := st1.mobBiff2HasXfs.getD env.mbHasCellXf0
      let nFlags1 := rStrm.readuInt8.1
      let nFlags2 := rStrm.readuInt8.2.readuInt8.1
      let nFlags3 := rStrm.readuInt8.2.readuInt8.2.readuInt8.1
      let rStrm1 := rStrm.readuInt8.2.readuInt8.2.readuInt8.2
      let st2 := { st1 with mobBiff2HasXfs := some obHasXfs }
      if obHasXfs then
        let nXfId := extractValue nFlags1 0 6
        (true, rStrm1,
         { st2 with
           maCellData :=
             { st2.maCellData with
               mnXfId := if nXfId = BIFF2_CELL_USEIXFE then (st2.mnBiff2XfId : Int) else nXfId } })
      else
        (true, rStrm1, st2.call (.writeBiff2CellFormat st2.maCellData.maCellAddr nFlags1 nFlags2 nFlags3))
    else
      (true, rStrm.readuInt16.2,
       { st1 with maCellData := { st1.maCellData with mnXfId := (rStrm.readuInt16.1 : Int) } })
  | none => (false, rStrm, st)

/-! ## Formula records of the binary formats -/

/-- Kind of formula handed to the formula parser. -/
inductive FormulaType
  | FORMULATYPE_CELL
  | FORMULATYPE_ARRAY
  | FORMULATYPE_SHAREDFORMULA
  deriving DecidableEq, Repr

/-- Collaborators of the record decoders whose code is outside the sources: the formula
parser for binary formulas, which reads the token array from the stream, and the
generator of address texts of `FormulaProcessorBase`. -/
structure RecordEnv where
  importFormula : CellAddress → FormulaType → BinaryInputStream →
    ApiTokenSequence × BinaryInputStream
  generateAddress2dString : BinAddress → Bool → OUString

/-- The default constructor of `DataTableModel`: empty references, all flags off. -/
def DataTableModel.new : DataTableModel :=
  { maRef1 := [], maRef2 := [], mb2dTable := false, mbRowTable := false,
    mbRef1Deleted := false, mbRef2Deleted := false }

def BIFF12_DATATABLE_ROW : Nat := 0x01
def BIFF12_DATATABLE_2D : Nat := 0x02
def BIFF12_DATATABLE_REF1DEL : Nat := 0x04
def BIFF12_DATATABLE_REF2DEL : Nat := 0x08
def BIFF_DATATABLE_ROW : Nat := 0x0004
def BIFF_DATATABLE_2D : Nat := 0x0008
def BIFF_DATATABLE_REF1DEL : Nat := 0x0010
def BIFF_DATATABLE_REF2DEL : Nat := 0x0020

/-- Record identifiers of the table operation records of the legacy format; they are
declared with the other record identifiers outside the sources. -/
def BIFF2_ID_DATATABLE : Nat := 0x0036
def BIFF2_ID_DATATABLE2 : Nat := 0x0037
def BIFF3_ID_DATATABLE : Nat := 0x0236

/-- The statement `rStrm >> aRange` on a BIFF12 stream: first row, last row, first
column, last column, 32 bits each. -/
def BinaryInputStream.readBinRange12 (s : BinaryInputStream) : BinRange × BinaryInputStream :=
  let r1 := s.readInt32
  let r2 := r1.2.readInt32
  let c1 := r2.2.readInt32
  let c2 := c1.2.readInt32
  ({ maFirst := { mnCol := c1.1, mnRow := r1.1 }, maLast := { mnCol := c2.1, mnRow := r2.1 } },
   c2.2)

/-- The statement `rStrm >> aAddr` on a BIFF12 stream: row and column, 32 bits each. -/
def BinaryInputStream.readBinAddress12 (s : BinaryInputStream) :
    BinAddress × BinaryInputStream :=
  ({ mnCol := s.readInt32.2.readInt32.1, mnRow := s.readInt32.1 }, s.readInt32.2.readInt32.2)

/-- The call `aRange.read( rStrm, false )` on a legacy stream: first row, last row (16
bits each), first column, last column (8 bits each). -/
def BinaryInputStream.readBinRangeBiff (s : BinaryInputStream) : BinRange × BinaryInputStream :=
  let r1 := s.readuInt16
  let r2 := r1.2.readuInt16
  let c1 := r2.2.readuInt8
  let c2 := c1.2.readuInt8
  ({ maFirst := { mnCol := (c1.1 : Int), mnRow := (r1.1 : Int) },
     maLast := { mnCol := (c2.1 : Int), mnRow := (r2.1 : Int) } }, c2.2)

/-- The statement `rStrm >> aAddr` on a legacy stream: row and column, 16 bits each. -/
def BinaryInputStream.readBinAddressBiff (s : BinaryInputStream) :
    BinAddress × BinaryInputStream :=
  ({ mnCol := (s.readuInt16.2.readuInt16.1 : Int), mnRow := (s.readuInt16.1 : Int) },
   s.readuInt16.2.readuInt16.2)

/-- The function `SheetDataContext::readFormulaRef`; the first component of the result
is the result of the range conversion. -/
def SheetDataContext.readFormulaRef (env : Env) (st : SheetDataContext)
    (rStrm : BinaryInputStream) : Bool × BinaryInputStream × SheetDataContext :=
  let conv := env.mrAddressConv.convertBinToCellRange rStrm.readBinRange12.1 st.mnSheet
  (conv.isSome, rStrm.readBinRange12.2,
   { st with maFmlaData := { st.maFmlaData with
       maFormulaRef := conv.getD st.maFmlaData.maFormulaRef } })

/-- The function `SheetDataContext::importArray`. -/
def SheetDataContext.importArray (env : Env) (renv : RecordEnv) (st : SheetDataContext)
    (rStrm : BinaryInputStream) : BinaryInputStream × SheetDataContext :=
  let r := st.readFormulaRef env rStrm
  if r.1 && r.2.2.maFmlaData.isValidArrayRef r.2.2.maCellData.maCellAddr then
    let p := renv.importFormula r.2.2.maCellData.maCellAddr .FORMULATYPE_ARRAY (r.2.1.skip 1)
    (p.2, r.2.2.call (.createArrayFormula r.2.2.maFmlaData.maFormulaRef p.1))
  else (r.2.1, r.2.2)

/-- The function `SheetDataContext::importDataTable`. -/
def SheetDataContext.importDataTable (env : Env) (renv : RecordEnv) (st : SheetDataContext)
    (rStrm : BinaryInputStream) : BinaryInputStream × SheetDataContext :=
  let r := st.readFormulaRef env rStrm
  if r.1 then
    let aRef1 := r.2.1.readBinAddress12
    let aRef2 := aRef1.2.readBinAddress12
    let nFlags := aRef2.2.readuInt8
    let aTable : DataTableModel :=
      { maRef1 := renv.generateAddress2dString aRef1.1 false
        maRef2 := renv.generateAddress2dString aRef2.1 false
        mbRowTable := getFlag nFlags.1 BIFF12_DATATABLE_ROW
        mb2dTable := getFlag nFlags.1 BIFF12_DATATABLE_2D
        mbRef1Deleted := getFlag nFlags.1 BIFF12_DATATABLE_REF1DEL
        mbRef2Deleted := getFlag nFlags.1 BIFF12_DATATABLE_REF2DEL }
    (nFlags.2,
     ({ r.2.2 with maTableData := aTable }).call
       (.createTableOperation r.2.2.maFmlaData.maFormulaRef aTable))
  else (r.2.1, r.2.2)

/-- The function `SheetDataContext::importSharedFmla`. -/
def SheetDataContext.importSharedFmla (env : Env) (renv : RecordEnv) (st : SheetDataContext)
    (rStrm : BinaryInputStream) : BinaryInputStream × SheetDataContext :=
  let r := st.readFormulaRef env rStrm
  if r.1 && r.2.2.maFmlaData.isValidSharedRef r.2.2.maCellData.maCellAddr then
    let p := renv.importFormula r.2.2.maCellData.maCellAddr .FORMULATYPE_SHAREDFORMULA r.2.1
    (p.2, r.2.2.call (.createSharedFormulaAt r.2.2.maCellData.maCellAddr p.1))
  else (r.2.1, r.2.2)

/-- The function `BiffSheetDataContext::readFormulaRef`. -/
def BiffSheetDataContext.readFormulaRef (env : Env) (st : BiffSheetDataContext)
    (rStrm : BinaryInputStream) : Bool × BinaryInputStream × BiffSheetDataContext :=
  let conv := env.mrAddressConv.convertBinToCellRange rStrm.readBinRangeBiff.1 st.mnSheet
  (conv.isSome, rStrm.readBinRangeBiff.2,
   { st with maFmlaData := { st.maFmlaData with
       maFormulaRef := conv.getD st.maFmlaData.maFormulaRef } })

/-- The function `BiffSheetDataContext::importArray`.  The result is absent when the
function reads `mnArraySkipSize` although no value was assigned to it. -/
def BiffSheetDataContext.importArray (env : Env) (renv : RecordEnv) (st : BiffSheetDataContext)
    (rStrm : BinaryInputStream) : Option (BinaryInputStream × BiffSheetDataContext) :=
  let r := st.readFormulaRef env rStrm
  if r.1 && r.2.2.maFmlaData.isValidArrayRef r.2.2.maCellData.maCellAddr then
    match r.2.2.mnArraySkipSize with
    | some nArraySkipSize =>
      let p := renv.importFormula r.2.2.maCellData.maCellAddr .FORMULATYPE_ARRAY
        (r.2.1.skip nArraySkipSize)
      some (p.2, r.2.2.call (.createArrayFormula r.2.2.maFmlaData.maFormulaRef p.1))
    | none => none
  else some (r.2.1, r.2.2)

/-- The function `BiffSheetDataContext::importDataTable`; `nRecId` is the value of
`rStrm.getRecId()`. -/
def BiffSheetDataContext.importDataTable (env : Env) (renv : RecordEnv)
    (st : BiffSheetDataContext) (rStrm : BinaryInputStream) (nRecId : Nat) :
    BinaryInputStream × BiffSheetDataContext :=
  let r := st.readFormulaRef env rStrm
  if r.1 then
    let res : DataTableModel × BinAddress × BinAddress × BinaryInputStream :=
      if nRecId = BIFF2_ID_DATATABLE then
        let s1 := r.2.1.skip 1
        let bRow := s1.readuInt8
        let aRef1 := bRow.2.readBinAddressBiff
        ({ DataTableModel.new with mbRowTable := bRow.1 != 0, mb2dTable := false },
         aRef1.1, { mnCol := 0, mnRow := 0 }, aRef1.2)
      else if nRecId = BIFF2_ID_DATATABLE2 then
        let s1 := r.2.1.skip 2
        let aRef1 := s1.readBinAddressBiff
        let aRef2 := aRef1.2.readBinAddressBiff
        ({ DataTableModel.new with mb2dTable := true }, aRef1.1, aRef2.1, aRef2.2)
      else if nRecId = BIFF3_ID_DATATABLE then
        let nFlags := r.2.1.readuInt16
        let aRef1 := nFlags.2.readBinAddressBiff
        let aRef2 := aRef1.2.readBinAddressBiff
        ({ DataTableModel.new with
           mbRowTable := getFlag nFlags.1 BIFF_DATATABLE_ROW
           mb2dTable := getFlag nFlags.1 BIFF_DATATABLE_2D
           mbRef1Deleted := getFlag nFlags.1 BIFF_DATATABLE_REF1DEL
           mbRef2Deleted := getFlag nFlags.1 BIFF_DATATABLE_REF2DEL },
         aRef1.1, aRef2.1, aRef2.2)
      else (DataTableModel.new, { mnCol := 0, mnRow := 0 }, { mnCol := 0, mnRow := 0 }, r.2.1)
    let aModel : DataTableModel :=
      { res.1 with
        maRef1 := renv.generateAddress2dString res.2.1 false
        maRef2 := renv.generateAddress2dString res.2.2.1 false }
    (res.2.2.2, r.2.2.call (.createTableOperation r.2.2.maFmlaData.maFormulaRef aModel))
  else (r.2.1, r.2.2)

/-- The function `BiffSheetDataContext::importSharedFmla`. -/
def BiffSheetDataContext.importSharedFmla (env : Env) (renv : RecordEnv)
    (st : BiffSheetDataContext) (rStrm : BinaryInputStream) :
    BinaryInputStream × BiffSheetDataContext :=
  let r := st.readFormulaRef env rStrm
  if r.1 && r.2.2.maFmlaData.isValidSharedRef r.2.2.maCellData.maCellAddr then
    let p := renv.importFormula r.2.2.maCellData.maCellAddr .FORMULATYPE_SHAREDFORMULA
      (r.2.1.skip 2)
    (p.2, r.2.2.call (.createSharedFormulaAt r.2.2.maCellData.maCellAddr p.1))
  else (r.2.1, r.2.2)

/-! ## Cell records of the binary formats -/

/-- Collaborators of the cell record decoders whose code is outside the sources: the
value of the eight bytes read by `readDouble`, `BiffHelper::calcDoubleFromRk`, the stream
readers of `RichString`, `BiffInputStream::readByteStringUC`, and the text encodings of
the workbook and of the font of a cell format. -/
structure ValueEnv where
  decodeDouble : Nat → Double
  calcDoubleFromRk : Int → Double
  importString : BinaryInputStream → Bool → RichString × BinaryInputStream
  importUniString : BinaryInputStream → RichString × BinaryInputStream
  importByteString : BinaryInputStream → Nat → Bool → RichString × BinaryInputStream
  readByteStringUC : BinaryInputStream → Bool → Nat → OUString × BinaryInputStream
  getTextEncoding : Nat
  getFontEncoding : Int → Option Nat

def BinaryInputStream.readDouble (s : BinaryInputStream) (venv : ValueEnv) :
    Double × BinaryInputStream :=
  (venv.decodeDouble (s.readValue 8).1, (s.readValue 8).2)

/-- Record identifiers of the BIFF12 format on which the context dispatches; they are
declared outside the sources.  Every other identifier is `other`. -/
inductive Biff12RecId
  | BIFF12_ID_SHEETDATA
  | BIFF12_ID_ROW
  | BIFF12_ID_ARRAY
  | BIFF12_ID_CELL_BOOL
  | BIFF12_ID_CELL_BLANK
  | BIFF12_ID_CELL_DOUBLE
  | BIFF12_ID_CELL_ERROR
  | BIFF12_ID_CELL_RK
  | BIFF12_ID_CELL_RSTRING
  | BIFF12_ID_CELL_SI
  | BIFF12_ID_CELL_STRING
  | BIFF12_ID_DATATABLE
  | BIFF12_ID_FORMULA_BOOL
  | BIFF12_ID_FORMULA_DOUBLE
  | BIFF12_ID_FORMULA_ERROR
  | BIFF12_ID_FORMULA_STRING
  | BIFF12_ID_MULTCELL_BOOL
  | BIFF12_ID_MULTCELL_BLANK
  | BIFF12_ID_MULTCELL_DOUBLE
  | BIFF12_ID_MULTCELL_ERROR
  | BIFF12_ID_MULTCELL_RK
  | BIFF12_ID_MULTCELL_RSTRING
  | BIFF12_ID_MULTCELL_SI
  | BIFF12_ID_MULTCELL_STRING
  | BIFF12_ID_SHAREDFMLA
  | other (nRecId : Nat)
  deriving DecidableEq, Repr

/-- The function `SheetDataContext::readCellFormula`. -/
def SheetDataContext.readCellFormula (renv : RecordEnv) (st : SheetDataContext)
    (rStrm : BinaryInputStream) : ApiTokenSequence × BinaryInputStream :=
  renv.importFormula st.maCellData.maCellAddr .FORMULATYPE_CELL (rStrm.skip 2)

/-- The assignment `maCellData.mnCellType = nCellType`. -/
def SheetDataContext.setCellType (st : SheetDataContext) (nCellType : Token) :
    SheetDataContext :=
  { st with maCellData := { st.maCellData with mnCellType := nCellType } }

/-- The function `SheetDataContext::importCellBool`. -/
def SheetDataContext.importCellBool (env : Env) (renv : RecordEnv) (st : SheetDataContext)
    (rStrm : BinaryInputStream) (eCellType : CellType) : BinaryInputStream × SheetDataContext :=
  let h := st.readCellHeader env rStrm eCellType
  if h.1 then
    let st1 := h.2.2.setCellType .XML_b
    let bValue := h.2.1.readuInt8
    if eCellType = .CELLTYPE_FORMULA then
      let f := st1.readCellFormula renv bValue.2
      (f.2, st1.call (.setFormulaCell st1.maCellData f.1))
    else (bValue.2, st1.call (.setBooleanCell st1.maCellData (bValue.1 != 0)))
  else (h.2.1, h.2.2)

/-- The function `SheetDataContext::importCellBlank`. -/
def SheetDataContext.importCellBlank (env : Env) (st : SheetDataContext)
    (rStrm : BinaryInputStream) (eCellType : CellType) : BinaryInputStream × SheetDataContext :=
  let h := st.readCellHeader env rStrm eCellType
  if h.1 then (h.2.1, h.2.2.call (.setBlankCell h.2.2.maCellData))
  else (h.2.1, h.2.2)

/-- The function `SheetDataContext::importCellDouble`. -/
def SheetDataContext.importCellDouble (env : Env) (renv : RecordEnv) (venv : ValueEnv)
    (st : SheetDataContext) (rStrm : BinaryInputStream) (eCellType : CellType) :
    BinaryInputStream × SheetDataContext :=
  let h := st.readCellHeader env rStrm eCellType
  if h.1 then
    let st1 := h.2.2.setCellType .XML_n
    let fValue := h.2.1.readDouble venv
    if eCellType = .CELLTYPE_FORMULA then
      let f := st1.readCellFormula renv fValue.2
      (f.2, st1.call (.setFormulaCell st1.maCellData f.1))
    else (fValue.2, st1.call (.setValueCell st1.maCellData fValue.1))
  else (h.2.1, h.2.2)

/-- The function `SheetDataContext::importCellError`. -/
def SheetDataContext.importCellError (env : Env) (renv : RecordEnv) (st : SheetDataContext)
    (rStrm : BinaryInputStream) (eCellType : CellType) : BinaryInputStream × SheetDataContext :=
  let h := st.readCellHeader env rStrm eCellType
  if h.1 then
    let st1 := h.2.2.setCellType .XML_e
    let nErrorCode := h.2.1.readuInt8
    if eCellType = .CELLTYPE_FORMULA then
      let f := st1.readCellFormula renv nErrorCode.2
      (f.2, st1.call (.setFormulaCell st1.maCellData f.1))
    else (nErrorCode.2, st1.call (.setErrorCellCode st1.maCellData nErrorCode.1))
  else (h.2.1, h.2.2)

/-- The function `SheetDataContext::importCellRk`. -/
def SheetDataContext.importCellRk (env : Env) (venv : ValueEnv) (st : SheetDataContext)
    (rStrm : BinaryInputStream) (eCellType : CellType) : BinaryInputStream × SheetDataContext :=
  let h := st.readCellHeader env rStrm eCellType
  if h.1 then
    let st1 := h.2.2.setCellType .XML_n
    let nRkValue := h.2.1.readInt32
    (nRkValue.2, st1.call (.setValueCell st1.maCellData (venv.calcDoubleFromRk nRkValue.1)))
  else (h.2.1, h.2.2)

/-- The function `SheetDataContext::importCellRString`. -/
def SheetDataContext.importCellRString (env : Env) (venv : ValueEnv) (st : SheetDataContext)
    (rStrm : BinaryInputStream) (eCellType : CellType) : BinaryInputStream × SheetDataContext :=
  let h := st.readCellHeader env rStrm eCellType
  if h.1 then
    let st1 := h.2.2.setCellType .XML_inlineStr
    let xString := venv.importString h.2.1 true
    (xString.2, st1.call (.setStringCellRich st1.maCellData (some xString.1.finalizeImport)))
  else (h.2.1, h.2.2)

/-- The function `SheetDataContext::importCellSi`. -/
def SheetDataContext.importCellSi (env : Env) (st : SheetDataContext)
    (rStrm : BinaryInputStream) (eCellType : CellType) : BinaryInputStream × SheetDataContext :=
  let h := st.readCellHeader env rStrm eCellType
  if h.1 then
    let st1 := h.2.2.setCellType .XML_s
    let nStringId := h.2.1.readInt32
    (nStringId.2, st1.call (.setStringCellId st1.maCellData nStringId.1))
  else (h.2.1, h.2.2)

/-- The function `SheetDataContext::importCellString`. -/
def SheetDataContext.importCellString (env : Env) (renv : RecordEnv) (venv : ValueEnv)
    (st : SheetDataContext) (rStrm : BinaryInputStream) (eCellType : CellType) :
    BinaryInputStream × SheetDataContext :=
  let h := st.readCellHeader env rStrm eCellType
  if h.1 then
    let st1 := h.2.2.setCellType .XML_inlineStr
    let xString := venv.importString h.2.1 false
    if eCellType = .CELLTYPE_FORMULA then
      let f := st1.readCellFormula renv xString.2
      (f.2, st1.call (.setFormulaCell st1.maCellData f.1))
    else (xString.2, st1.call (.setStringCellRich st1.maCellData (some xString.1.finalizeImport)))
  else (h.2.1, h.2.2)

/-- The inner switch of `SheetDataContext::onCreateRecordContext` for the records below a
row record; the result is absent for a record identifier that has no case. -/
def SheetDataContext.importRowChild (env : Env) (renv : RecordEnv) (venv : ValueEnv)
    (st : SheetDataContext) (nRecId : Biff12RecId) (rStrm : BinaryInputStream) :
    Option (BinaryInputStream × SheetDataContext) :=
  match nRecId with
  | .BIFF12_ID_ARRAY => some (st.importArray env renv rStrm)
  | .BIFF12_ID_CELL_BOOL => some (st.importCellBool env renv rStrm .CELLTYPE_VALUE)
  | .BIFF12_ID_CELL_BLANK => some (st.importCellBlank env rStrm .CELLTYPE_VALUE)
  | .BIFF12_ID_CELL_DOUBLE => some (st.importCellDouble env renv venv rStrm .CELLTYPE_VALUE)
  | .BIFF12_ID_CELL_ERROR => some (st.importCellError env renv rStrm .CELLTYPE_VALUE)
  | .BIFF12_ID_CELL_RK => some (st.importCellRk env venv rStrm .CELLTYPE_VALUE)
  | .BIFF12_ID_CELL_RSTRING => some (st.importCellRString env venv rStrm .CELLTYPE_VALUE)
  | .BIFF12_ID_CELL_SI => some (st.importCellSi env rStrm .CELLTYPE_VALUE)
  | .BIFF12_ID_CELL_STRING => some (st.importCellString env renv venv rStrm .CELLTYPE_VALUE)
  | .BIFF12_ID_DATATABLE => some (st.importDataTable env renv rStrm)
  | .BIFF12_ID_FORMULA_BOOL => some (st.importCellBool env renv rStrm .CELLTYPE_FORMULA)
  | .BIFF12_ID_FORMULA_DOUBLE => some (st.importCellDouble env renv venv rStrm .CELLTYPE_FORMULA)
  | .BIFF12_ID_FORMULA_ERROR => some (st.importCellError env renv rStrm .CELLTYPE_FORMULA)
  | .BIFF12_ID_FORMULA_STRING => some (st.importCellString env renv venv rStrm .CELLTYPE_FORMULA)
  | .BIFF12_ID_MULTCELL_BOOL => some (st.importCellBool env renv rStrm .CELLTYPE_MULTI)
  | .BIFF12_ID_MULTCELL_BLANK => some (st.importCellBlank env rStrm .CELLTYPE_MULTI)
  | .BIFF12_ID_MULTCELL_DOUBLE => some (st.importCellDouble env renv venv rStrm .CELLTYPE_MULTI)
  | .BIFF12_ID_MULTCELL_ERROR => some (st.importCellError env renv rStrm .CELLTYPE_MULTI)
  | .BIFF12_ID_MULTCELL_RK => some (st.importCellRk env venv rStrm .CELLTYPE_MULTI)
  | .BIFF12_ID_MULTCELL_RSTRING => some (st.importCellRString env venv rStrm .CELLTYPE_MULTI)
  | .BIFF12_ID_MULTCELL_SI => some (st.importCellSi env rStrm .CELLTYPE_MULTI)
  | .BIFF12_ID_MULTCELL_STRING => some (st.importCellString env renv venv rStrm .CELLTYPE_MULTI)
  | .BIFF12_ID_SHAREDFMLA => some (st.importSharedFmla env renv rStrm)
  | _ => none

/-- The function `SheetDataContext::onCreateRecordContext`; `nCurrRecId` is the value of
`getCurrentElement()`. -/
def SheetDataContext.onCreateRecordContext (env : Env) (renv : RecordEnv) (venv : ValueEnv)
    (st : SheetDataContext) (nCurrRecId nRecId : Biff12RecId) (rStrm : BinaryInputStream) :
    ContextHandlerRef × BinaryInputStream × SheetDataContext :=
  match nCurrRecId with
  | .BIFF12_ID_SHEETDATA =>
    if nRecId = .BIFF12_ID_ROW then
      (.this, (st.importRowRec env rStrm).1, (st.importRowRec env rStrm).2)
    else (.null, rStrm, st)
  | .BIFF12_ID_ROW =>
    match st.importRowChild env renv venv nRecId rStrm with
    | some r => (.null, r.1, r.2)
    | none => (.null, rStrm, st)
  | _ => (.null, rStrm, st)

/-- The records that have a case below a row record in
`SheetDataContext::onCreateRecordContext`. -/
def Biff12RecId.isRowChild : Biff12RecId → Bool
  | .BIFF12_ID_SHEETDATA => false
  | .BIFF12_ID_ROW => false
  | .other _ => false
  | _ => true

/-- Record identifiers of the legacy format on which the context dispatches, and the cell
kinds of a BOOLERR record; they are declared with the other record constants outside the
sources.  The formula record of BIFF5 and BIFF8 has the identifier of the formula record
of BIFF2. -/
def BIFF2_ID_ARRAY : Nat := 0x0021
def BIFF3_ID_ARRAY : Nat := 0x0221
def BIFF2_ID_BLANK : Nat := 0x0001
def BIFF3_ID_BLANK : Nat := 0x0201
def BIFF2_ID_BOOLERR : Nat := 0x0005
def BIFF3_ID_BOOLERR : Nat := 0x0205
def BIFF2_ID_FORMULA : Nat := 0x0006
def BIFF3_ID_FORMULA : Nat := 0x0206
def BIFF4_ID_FORMULA : Nat := 0x0406
def BIFF5_ID_FORMULA : Nat := 0x0006
def BIFF2_ID_INTEGER : Nat := 0x0002
def BIFF_ID_IXFE : Nat := 0x0044
def BIFF2_ID_LABEL : Nat := 0x0004
def BIFF3_ID_LABEL : Nat := 0x0204
def BIFF_ID_LABELSST : Nat := 0x00FD
def BIFF_ID_MULTBLANK : Nat := 0x00BE
def BIFF_ID_MULTRK : Nat := 0x00BD
def BIFF2_ID_NUMBER : Nat := 0x0003
def BIFF3_ID_NUMBER : Nat := 0x0203
def BIFF_ID_RK : Nat := 0x027E
def BIFF2_ID_ROW : Nat := 0x0008
def BIFF3_ID_ROW : Nat := 0x0208
def BIFF_ID_RSTRING : Nat := 0x00D6
def BIFF_ID_SHAREDFMLA : Nat := 0x04BC
def BIFF_BOOLERR_BOOL : Nat := 0
def BIFF_BOOLERR_ERROR : Nat := 1

/-- The assignment `maCellData.mnCellType = nCellType`. -/
def BiffSheetDataContext.setCellType (st : BiffSheetDataContext) (nCellType : Token) :
    BiffSheetDataContext :=
  { st with maCellData := { st.maCellData with mnCellType := nCellType } }

/-- The function `BiffSheetDataContext::readCellHeader`. -/
def BiffSheetDataContext.readCellHeader (env : Env) (st : BiffSheetDataContext)
    (rStrm : BinaryInputStream) (bBiff2 : Bool) :
    Bool × BinaryInputStream × BiffSheetDataContext :=
  st.readCellXfId env rStrm.readBinAddressBiff.2 rStrm.readBinAddressBiff.1 bBiff2

/-- The function `BiffSheetDataContext::importBlank`; `nRecId` is the value of
`rStrm.getRecId()`, here and in the functions below. -/
def BiffSheetDataContext.importBlank (env : Env) (st : BiffSheetDataContext)
    (rStrm : BinaryInputStream) (nRecId : Nat) : BinaryInputStream × BiffSheetDataContext :=
  let h := st.readCellHeader env rStrm (decide (nRecId = BIFF2_ID_BLANK))
  if h.1 then (h.2.1, h.2.2.call (.setBlankCell h.2.2.maCellData))
  else (h.2.1, h.2.2)

/-- The function `BiffSheetDataContext::importBoolErr`. -/
def BiffSheetDataContext.importBoolErr (env : Env) (st : BiffSheetDataContext)
    (rStrm : BinaryInputStream) (nRecId : Nat) : BinaryInputStream × BiffSheetDataContext :=
  let h := st.readCellHeader env rStrm (decide (nRecId = BIFF2_ID_BOOLERR))
  if h.1 then
    let nValue := h.2.1.readuInt8
    let nType := nValue.2.readuInt8
    if nType.1 = BIFF_BOOLERR_BOOL then
      let st1 := h.2.2.setCellType .XML_b
      (nType.2, st1.call (.setBooleanCell st1.maCellData (nValue.1 != 0)))
    else if nType.1 = BIFF_BOOLERR_ERROR then
      let st1 := h.2.2.setCellType .XML_e
      (nType.2, st1.call (.setErrorCellCode st1.maCellData nValue.1))
    else
      let st1 := h.2.2.setCellType .XML_TOKEN_INVALID
      (nType.2, st1.call (.setBlankCell st1.maCellData))
  else (h.2.1, h.2.2)

/-- The function `BiffSheetDataContext::importFormula`.  The result is absent when the
function reads `mnFormulaSkipSize` although no value was assigned to it. -/
def BiffSheetDataContext.importFormula (env : Env) (renv : RecordEnv)
    (st : BiffSheetDataContext) (rStrm : BinaryInputStream) :
    Option (BinaryInputStream × BiffSheetDataContext) :=
  let h := st.readCellHeader env rStrm (decide (st.getBiff = .BIFF2))
  if h.1 then
    let st1 := h.2.2.setCellType .XML_n
    match st1.mnFormulaSkipSize with
    | some nFormulaSkipSize =>
      let p := renv.importFormula st1.maCellData.maCellAddr .FORMULATYPE_CELL
        (h.2.1.skip nFormulaSkipSize)
      some (p.2, st1.call (.setFormulaCell st1.maCellData p.1))
    | none => none
  else some (h.2.1, h.2.2)

/-- The function `BiffSheetDataContext::importInteger`. -/
def BiffSheetDataContext.importInteger (env : Env) (st : BiffSheetDataContext)
    (rStrm : BinaryInputStream) : BinaryInputStream × BiffSheetDataContext :=
  let h := st.readCellHeader env rStrm true
  if h.1 then
    let st1 := h.2.2.setCellType .XML_n
    let nValue := h.2.1.readuInt16
    (nValue.2, st1.call (.setValueCell st1.maCellData (nValue.1 : Rat)))
  else (h.2.1, h.2.2)

/-- The function `BiffSheetDataContext::importLabel`. -/
def BiffSheetDataContext.importLabel (env : Env) (venv : ValueEnv) (st : BiffSheetDataContext)
    (rStrm : BinaryInputStream) (nRecId : Nat) : BinaryInputStream × BiffSheetDataContext :=
  let bBiff2Xf : Bool := decide (nRecId = BIFF2_ID_LABEL)
  let h := st.readCellHeader env rStrm bBiff2Xf
  if h.1 then
    let st1 := h.2.2.setCellType .XML_inlineStr
    if st1.getBiff = .BIFF8 then
      let xString := venv.importUniString h.2.1
      (xString.2, st1.call (.setStringCellRich st1.maCellData (some xString.1.finalizeImport)))
    else
      let eTextEnc : Nat := (venv.getFontEncoding st1.maCellData.mnXfId).getD venv.getTextEncoding
      if nRecId = BIFF_ID_RSTRING then
        let xString := venv.importByteString h.2.1 eTextEnc bBiff2Xf
        (xString.2, st1.call (.setStringCellRich st1.maCellData (some xString.1.finalizeImport)))
      else
        let aText := venv.readByteStringUC h.2.1 (!bBiff2Xf) eTextEnc
        (aText.2, st1.call (.setStringCell st1.maCellData aText.1))
  else (h.2.1, h.2.2)

/-- The function `BiffSheetDataContext::importLabelSst`. -/
def BiffSheetDataContext.importLabelSst (env : Env) (st : BiffSheetDataContext)
    (rStrm : BinaryInputStream) : BinaryInputStream × BiffSheetDataContext :=
  let h := st.readCellHeader env rStrm false
  if h.1 then
    let st1 := h.2.2.setCellType .XML_s
    let nStringId := h.2.1.readInt32
    (nStringId.2, st1.call (.setStringCellId st1.maCellData nStringId.1))
  else (h.2.1, h.2.2)

/-- The for loop of `BiffSheetDataContext::importMultBlank` from its condition on; the
first argument bounds the number of passes, the result is the loop state at the end. -/
def BiffSheetDataContext.importMultBlankLoop (env : Env) :
    Nat → BinAddress → Bool → BinaryInputStream → BiffSheetDataContext →
    Bool × BinaryInputStream × BiffSheetDataContext
  | 0, _, bValidAddr, rStrm, st => (bValidAddr, rStrm, st)
  | nPasses + 1, aAddr, bValidAddr, rStrm, st =>
    if bValidAddr && decide (rStrm.getRemaining > 2) then
      let r := st.readCellXfId env rStrm aAddr false
      BiffSheetDataContext.importMultBlankLoop env nPasses
        { aAddr with mnCol := aAddr.mnCol + 1 } r.1 r.2.1
        (if r.1 then r.2.2.call (.setBlankCell r.2.2.maCellData) else r.2.2)
    else (bValidAddr, rStrm, st)

/-- The function `BiffSheetDataContext::importMultBlank`.  Every pass of the loop but the
last one reads two bytes, so the number of passes is at most the number of bytes behind
the address. -/
def BiffSheetDataContext.importMultBlank (env : Env) (st : BiffSheetDataContext)
    (rStrm : BinaryInputStream) : Bool × BinaryInputStream × BiffSheetDataContext :=
  BiffSheetDataContext.importMultBlankLoop env rStrm.readBinAddressBiff.2.maData.length
    rStrm.readBinAddressBiff.1 true rStrm.readBinAddressBiff.2 st

/-- The for loop of `BiffSheetDataContext::importMultRk` from its condition on; the first
argument bounds the number of passes, the result is the loop state at the end. -/
def BiffSheetDataContext.importMultRkLoop (env : Env) (venv : ValueEnv) :
    Nat → BinAddress → Bool → BinaryInputStream → BiffSheetDataContext →
    Bool × BinaryInputStream × BiffSheetDataContext
  | 0, _, bValidAddr, rStrm, st => (bValidAddr, rStrm, st)
  | nPasses + 1, aAddr, bValidAddr, rStrm, st =>
    if bValidAddr && decide (rStrm.getRemaining > 2) then
      let r := st.readCellXfId env rStrm aAddr false
      if r.1 then
        let st1 := r.2.2.setCellType .XML_n
        let nRkValue := r.2.1.readInt32
        BiffSheetDataContext.importMultRkLoop env venv nPasses
          { aAddr with mnCol := aAddr.mnCol + 1 } true nRkValue.2
          (st1.call (.setValueCell st1.maCellData (venv.calcDoubleFromRk nRkValue.1)))
      else
        BiffSheetDataContext.importMultRkLoop env venv nPasses
          { aAddr with mnCol := aAddr.mnCol + 1 } false r.2.1 r.2.2
    else (bValidAddr, rStrm, st)

/-- The function `BiffSheetDataContext::importMultRk`. -/
def BiffSheetDataContext.importMultRk (env : Env) (venv : ValueEnv) (st : BiffSheetDataContext)
    (rStrm : BinaryInputStream) : Bool × BinaryInputStream × BiffSheetDataContext :=
  BiffSheetDataContext.importMultRkLoop env venv rStrm.readBinAddressBiff.2.maData.length
    rStrm.readBinAddressBiff.1 true rStrm.readBinAddressBiff.2 st

/-- The function `BiffSheetDataContext::importNumber`. -/
def BiffSheetDataContext.importNumber (env : Env) (venv : ValueEnv) (st : BiffSheetDataContext)
    (rStrm : BinaryInputStream) (nRecId : Nat) : BinaryInputStream × BiffSheetDataContext :=
  let h := st.readCellHeader env rStrm (decide (nRecId = BIFF2_ID_NUMBER))
  if h.1 then
    let st1 := h.2.2.setCellType .XML_n
    let fValue := h.2.1.readDouble venv
    (fValue.2, st1.call (.setValueCell st1.maCellData fValue.1))
  else (h.2.1, h.2.2)

/-- The function `BiffSheetDataContext::importRk`. -/
def BiffSheetDataContext.importRk (env : Env) (venv : ValueEnv) (st : BiffSheetDataContext)
    (rStrm : BinaryInputStream) : BinaryInputStream × BiffSheetDataContext :=
  let h := st.readCellHeader env rStrm false
  if h.1 then
    let st1 := h.2.2.setCellType .XML_n
    let nRkValue := h.2.1.readInt32
    (nRkValue.2, st1.call (.setValueCell st1.maCellData (venv.calcDoubleFromRk nRkValue.1)))
  else (h.2.1, h.2.2)

/-- The switch on the record identifier that `BiffSheetDataContext::importRecord` runs for
BIFF5; the formula records are behind the same case there and in BIFF8. -/
def BiffSheetDataContext.importRecord5 (env : Env) (renv : RecordEnv) (venv : ValueEnv)
    (st : BiffSheetDataContext) (nRecId : Nat) (rStrm : BinaryInputStream) :
    Option (BinaryInputStream × BiffSheetDataContext) :=
  if nRecId = BIFF3_ID_DATATABLE then some (st.importDataTable env renv rStrm nRecId)
  else if nRecId = BIFF3_ID_FORMULA ∨ nRecId = BIFF4_ID_FORMULA ∨ nRecId = BIFF5_ID_FORMULA then
    st.importFormula env renv rStrm
  else if nRecId = BIFF_ID_MULTBLANK then
    some ((st.importMultBlank env rStrm).2.1, (st.importMultBlank env rStrm).2.2)
  else if nRecId = BIFF_ID_MULTRK then
    some ((st.importMultRk env venv rStrm).2.1, (st.importMultRk env venv rStrm).2.2)
  else if nRecId = BIFF3_ID_ROW then some (st.importRow env rStrm)
  else if nRecId = BIFF_ID_RSTRING then some (st.importLabel env venv rStrm nRecId)
  else if nRecId = BIFF_ID_SHAREDFMLA then some (st.importSharedFmla env renv rStrm)
  else some (rStrm, st)

/-- The function `BiffSheetDataContext::importRecord`; `nRecId` is the value of
`rStrm.getRecId()`.  The result is absent when the function called for the record reads a
skip size although no value was assigned to it. -/
def BiffSheetDataContext.importRecord (env : Env) (renv : RecordEnv) (venv : ValueEnv)
    (st : BiffSheetDataContext) (nRecId : Nat) (rStrm : BinaryInputStream) :
    Option (BinaryInputStream × BiffSheetDataContext) :=
  if nRecId = BIFF2_ID_ARRAY ∨ nRecId = BIFF3_ID_ARRAY then st.importArray env renv rStrm
  else if nRecId = BIFF2_ID_BLANK ∨ nRecId = BIFF3_ID_BLANK then
    some (st.importBlank env rStrm nRecId)
  else if nRecId = BIFF2_ID_BOOLERR ∨ nRecId = BIFF3_ID_BOOLERR then
    some (st.importBoolErr env rStrm nRecId)
  else if nRecId = BIFF2_ID_INTEGER then some (st.importInteger env rStrm)
  else if nRecId = BIFF_ID_IXFE then
    some (rStrm.readuInt16.2, { st with mnBiff2XfId := rStrm.readuInt16.1 })
  else if nRecId = BIFF2_ID_LABEL ∨ nRecId = BIFF3_ID_LABEL then
    some (st.importLabel env venv rStrm nRecId)
  else if nRecId = BIFF2_ID_NUMBER ∨ nRecId = BIFF3_ID_NUMBER then
    some (st.importNumber env venv rStrm nRecId)
  else if nRecId = BIFF_ID_RK then some (st.importRk env venv rStrm)
  else
    match st.getBiff with
    | .BIFF2 =>
      if nRecId = BIFF2_ID_DATATABLE then some (st.importDataTable env renv rStrm nRecId)
      else if nRecId = BIFF2_ID_DATATABLE2 then some (st.importDataTable env renv rStrm nRecId)
      else if nRecId = BIFF2_ID_FORMULA then st.importFormula env renv rStrm
      else if nRecId = BIFF2_ID_ROW then some (st.importRow env rStrm)
      else some (rStrm, st)
    | .BIFF3 =>
      if nRecId = BIFF3_ID_DATATABLE then some (st.importDataTable env renv rStrm nRecId)
      else if nRecId = BIFF3_ID_FORMULA then st.importFormula env renv rStrm
      else if nRecId = BIFF3_ID_ROW then some (st.importRow env rStrm)
      else some (rStrm, st)
    | .BIFF4 =>
      if nRecId = BIFF3_ID_DATATABLE then some (st.importDataTable env renv rStrm nRecId)
      else if nRecId = BIFF4_ID_FORMULA then st.importFormula env renv rStrm
      else if nRecId = BIFF3_ID_ROW then some (st.importRow env rStrm)
      else some (rStrm, st)
    | .BIFF5 => st.importRecord5 env renv venv nRecId rStrm
    | .BIFF8 =>
      if nRecId = BIFF_ID_LABELSST then some (st.importLabelSst env rStrm)
      else st.importRecord5 env renv venv nRecId rStrm
    | .BIFF_UNKNOWN => some (rStrm, st)

/-! ## The handler calls of the fragment walker -/

/-- One call of the walker on the element-format context. -/
inductive HandlerCall
  | createContext (nCurrElement nElement : Token) (rAttribs : AttributeList)
  | characters (nCurrElement : Token) (rChars : OUString)
  | endElement (nCurrElement : Token)

/-- A call that reaches `importRow`. -/
def HandlerCall.isRowStart : HandlerCall → Bool
  | .createContext .XLS_sheetData .XLS_row _ => true
  | _ => false

/-- A call that reaches `importCell` with an explicit address. -/
def HandlerCall.isAddressedCellStart : HandlerCall → Bool
  | .createContext .XLS_row .XLS_c rAttribs => decide ((rAttribs.getString .XML_r []).getLength > 0)
  | _ => false

/-- A call that reaches `importCell`. -/
def HandlerCall.isCellStart : HandlerCall → Bool
  | .createContext .XLS_row .XLS_c _ => true
  | _ => false

/-- State of the context after one call of the walker. -/
def SheetDataContext.step (env : Env) (st : SheetDataContext) : HandlerCall → SheetDataContext
  | .createContext nCurrElement nElement rAttribs =>
    (st.onCreateContext env nCurrElement nElement rAttribs).2
  | .characters nCurrElement rChars => st.onCharacters env nCurrElement rChars
  | .endElement nCurrElement => st.onEndElement env nCurrElement

/-- State of the context after a sequence of calls of the walker. -/
def SheetDataContext.run (env : Env) (st : SheetDataContext) (calls : List HandlerCall) :
    SheetDataContext :=
  calls.foldl (SheetDataContext.step env) st

/-- Number of cell setter calls in a log. -/
def setterCount (log : List SinkCall) : Nat := (log.filter SinkCall.isCellSetter).length

/-- Attribute list of a row element that has only the index `r`. -/
def rowAttribs (nRow : Int) : AttributeList :=
  { AttributeList.empty with optInteger := fun t => if t = .XML_r then some nRow else none }

/-- Attribute list of a cell element that has only the type `t`. -/
def cellTypeAttribs (nType : Token) : AttributeList :=
  { AttributeList.empty with optToken := fun t => if t = .XML_t then some nType else none }

/-- Attribute list of a cell element that has only the address `r`. -/
def cellAddrAttribs (r : OUString) : AttributeList :=
  { AttributeList.empty with optString := fun t => if t = .XML_r then some r else none }

/-- Attribute list of a shared formula element with group id `si` and range `ref`. -/
def sharedFmlaAttribs (nSharedId : Int) (ref : Option OUString) : AttributeList :=
  { AttributeList.empty with
    optToken := fun t => if t = .XML_t then some .XML_shared else none
    optInteger := fun t => if t = .XML_si then some nSharedId else none
    optString := fun t => if t = .XML_ref then ref else none }

/-! ## Calls issued for a cell -/

/-- The calls that register or set a formula. -/
def SinkCall.isFormulaCall : SinkCall → Bool
  | .setFormulaCell _ _ => true
  | .setFormulaCellShared _ _ => true
  | .createSharedFormula _ _ => true
  | .createSharedFormulaAt _ _ => true
  | .createArrayFormula _ _ => true
  | .createTableOperation _ _ => true
  | _ => false

/-- The call `createSharedFormula( g, tokens )` for the group id `g`. -/
def SinkCall.isCreateSharedFor (g : Int) : SinkCall → Bool
  | .createSharedFormula nSharedId _ => decide (nSharedId = g)
  | _ => false

/-- The call `setFormulaCell( cell, g )` that refers to the group id `g`. -/
def SinkCall.isSharedRefTo (g : Int) : SinkCall → Bool
  | .setFormulaCellShared _ nSharedId => decide (nSharedId = g)
  | _ => false

/-- The address is the top-left cell (anchor) of the range. -/
def CellRangeAddress.hasAnchor (r : CellRangeAddress) (a : CellAddress) : Bool :=
  decide (r.Sheet = a.Sheet ∧ r.StartColumn = a.Column ∧ r.StartRow = a.Row)

/-- The formula kind is one of the four kinds that `onEndElement` knows. -/
def Token.isFormulaKind : Token → Bool
  | .XML_normal => true
  | .XML_shared => true
  | .XML_array => true
  | .XML_dataTable => true
  | _ => false

/-- The calls that the value part of `onEndElement` issues for the cell of a state: the
part run without formula on an empty log. -/
def SheetDataContext.plainValueCalls (env : Env) (st : SheetDataContext) : List SinkCall :=
  (({ st with mbHasFormula := false, mrSheetData := [] }).endCellValue env).mrSheetData

/-- The calls that closing the cell of a state issues: `onEndElement` for a cell element
run on an empty log. -/
def SheetDataContext.closingCalls (env : Env) (st : SheetDataContext) : List SinkCall :=
  (({ st with mrSheetData := [] }).onEndElement env .XLS_c).mrSheetData

/-- The cell of the state is a member of the shared formula group `g`: it has a formula
element of kind shared with the group id `g`. -/
def SheetDataContext.isSharedMember (g : Int) (st : SheetDataContext) : Bool :=
  st.mbHasFormula && decide (st.maFmlaData.mnFormulaType = .XML_shared) &&
    decide (st.maFmlaData.mnSharedId = g)

/-- The cell of the state is a member of the group `g` that carries a range declaration
which was converted and whose anchor the cell is. -/
def SheetDataContext.declaresShared (g : Int) (st : SheetDataContext) : Bool :=
  st.isSharedMember g && st.mbValidRange &&
    st.maFmlaData.maFormulaRef.hasAnchor st.maCellData.maCellAddr

/-- The call closes a cell element. -/
def HandlerCall.isCellEnd : HandlerCall → Bool
  | .endElement .XLS_c => true
  | _ => false

/-- The states in which the walker closes a cell element during a sequence of calls, in
order. -/
def SheetDataContext.cellClosings (env : Env) :
    SheetDataContext → List HandlerCall → List SheetDataContext
  | _, [] => []
  | st, c :: rest =>
    if c.isCellEnd then st :: SheetDataContext.cellClosings env (st.step env c) rest
    else SheetDataContext.cellClosings env (st.step env c) rest

/-- Two states of the context hold the same data of the current cell: log, cell data,
address cursor, sheet, value text, inline string and formula flag are equal, and if the
cell has a formula then also the formula kind, group id, range validity and tokens, the
range if it is valid and the table data if the kind is a table operation. -/
def SheetDataContext.SameCell (a b : SheetDataContext) : Prop :=
  a.mrSheetData = b.mrSheetData ∧ a.maCellData = b.maCellData ∧
  a.maLastCellAddress = b.maLastCellAddress ∧ a.mnSheet = b.mnSheet ∧
  a.maCellValue = b.maCellValue ∧ a.mxInlineStr = b.mxInlineStr ∧
  a.mbHasFormula = b.mbHasFormula ∧
  (a.mbHasFormula = true →
    a.maFmlaData.mnFormulaType = b.maFmlaData.mnFormulaType ∧
    a.maFmlaData.mnSharedId = b.maFmlaData.mnSharedId ∧
    a.mbValidRange = b.mbValidRange ∧ a.maTokens = b.maTokens ∧
    (a.mbValidRange = true → a.maFmlaData.maFormulaRef = b.maFmlaData.maFormulaRef) ∧
    (a.maFmlaData.mnFormulaType = .XML_dataTable → a.maTableData = b.maTableData))

/-- Attribute list of a cell element with address `r` and type `t`. -/
def cellAttribs (r : OUString) (nType : Token) : AttributeList :=
  { AttributeList.empty with
    optString := fun t => if t = .XML_r then some r else none
    optToken := fun t => if t = .XML_t then some nType else none }

/-- Attribute list of a formula element with kind `t`, range `ref` and group id `si`. -/
def fmlaAttribs (nType : Token) (ref : Option OUString) (nSharedId : Option Int) :
    AttributeList :=
  { AttributeList.empty with
    optToken := fun t => if t = .XML_t then some nType else none
    optInteger := fun t => if t = .XML_si then nSharedId else none
    optString := fun t => if t = .XML_ref then ref else none }

/-! ## Reference decoding of the spans attribute -/

/-- The token split at its first colon: the text before it and the text behind it. -/
def splitAtColon : List Char → Option (List Char × List Char)
  | [] => none
  | c :: cs =>
    if c = ':' then some ([], cs)
    else
      match splitAtColon cs with
      | none => none
      | some (a, b) => some (c :: a, b)

/-- A list of spans is in ascending, non-overlapping column order: every span ends before
every later span starts, and every span is a closed interval of columns from 0 on. -/
def SpansAscending (l : List ValueRange) : Prop :=
  l.Pairwise (fun a b => a.mnLast < b.mnFirst) ∧ ∀ a ∈ l, 0 ≤ a.mnFirst ∧ a.mnFirst ≤ a.mnLast

/-! ## Notions for the statements on binary records -/

/-- The stream and the position `maCurrPos` behind the switch statement of
`SheetDataContext::readCellHeader`. -/
def SheetDataContext.readCellPos (st : SheetDataContext) (rStrm : BinaryInputStream)
    (eCellType : CellType) : BinaryInputStream × BinAddress :=
  match eCellType with
  | .CELLTYPE_VALUE => (rStrm.readInt32.2, { st.maCurrPos with mnCol := rStrm.readInt32.1 })
  | .CELLTYPE_FORMULA => (rStrm.readInt32.2, { st.maCurrPos with mnCol := rStrm.readInt32.1 })
  | .CELLTYPE_MULTI => (rStrm, { st.maCurrPos with mnCol := st.maCurrPos.mnCol + 1 })

/-- Number of the members of a row model that come from the flags of a binary row record
(format id, outline level and the seven flags) and differ between `a` and `b`. -/
def RowModel.flagFieldsChanged (a b : RowModel) : Nat :=
  (if a.mnXfId = b.mnXfId then 0 else 1) + (if a.mnLevel = b.mnLevel then 0 else 1) +
    (if a.mbCustomHeight = b.mbCustomHeight then 0 else 1) +
    (if a.mbCustomFormat = b.mbCustomFormat then 0 else 1) +
    (if a.mbShowPhonetic = b.mbShowPhonetic then 0 else 1) +
    (if a.mbHidden = b.mbHidden then 0 else 1) +
    (if a.mbCollapsed = b.mbCollapsed then 0 else 1) +
    (if a.mbThickTop = b.mbThickTop then 0 else 1) +
    (if a.mbThickBottom = b.mbThickBottom then 0 else 1)

/-- The field `nFlags` that `BiffSheetDataContext::importRow` reads from a row record of
BIFF3 to BIFF8. -/
def BiffSheetDataContext.rowFlags (rStrm : BinaryInputStream) : Nat :=
  ((rStrm.readuInt16.2.readuInt16.2.readuInt16.2.readuInt16.2.skip 4).readuInt32).1

/-- The members of the legacy context that are set up with the context, and the answer to
whether the file has cell formats once it is known, are in `b` what they are in `a`. -/
def BiffSheetDataContext.SameSetup (a b : BiffSheetDataContext) : Prop :=
  b.meBiff = a.meBiff ∧ b.mnSheet = a.mnSheet ∧
    b.mnFormulaSkipSize = a.mnFormulaSkipSize ∧ b.mnArraySkipSize = a.mnArraySkipSize ∧
    b.mnBiff2XfId = a.mnBiff2XfId ∧
    ∀ x : Bool, a.mobBiff2HasXfs = some x → b.mobBiff2HasXfs = some x

/-- The two bytes of a 16-bit field, low byte first. -/
def le16 (n : Nat) : List Nat := [n % 256, n / 256 % 256]

/-- The four bytes of a 32-bit field, low byte first. -/
def le32 (n : Nat) : List Nat := [n % 256, n / 256 % 256, n / 65536 % 256, n / 16777216 % 256]

/-- Reference for a MULTBLANK record: one blank cell per format id, in order, from the
column of `aAddr` on; the list ends before the first column whose address is invalid.
Every cell is reported to the used area before it is set. -/
def multBlankCalls (env : Env) (nSheet : Int) (nCellType : Token) (bShowPhonetic : Bool) :
    BinAddress → List Nat → List SinkCall
  | _, [] => []
  | aAddr, nXfId :: rest =>
    match env.mrAddressConv.convertBinToCellAddress aAddr nSheet with
    | some aCellAddr =>
      .extendUsedArea aCellAddr ::
        .setBlankCell { maCellAddr := aCellAddr, mnCellType := nCellType, mnXfId := (nXfId : Int),
                        mbShowPhonetic := bShowPhonetic } ::
        multBlankCalls env nSheet nCellType bShowPhonetic
          { aAddr with mnCol := aAddr.mnCol + 1 } rest
    | none => []

/-- Reference for a MULTRK record: one numeric cell per pair of format id and RK value,
in order, from the column of `aAddr` on; the list ends before the first column whose
address is invalid. -/
def multRkCalls (env : Env) (venv : ValueEnv) (nSheet : Int) (bShowPhonetic : Bool) :
    BinAddress → List (Nat × Nat) → List SinkCall
  | _, [] => []
  | aAddr, entry :: rest =>
    match env.mrAddressConv.convertBinToCellAddress aAddr nSheet with
    | some aCellAddr =>
      .extendUsedArea aCellAddr ::
        .setValueCell { maCellAddr := aCellAddr, mnCellType := .XML_n, mnXfId := (entry.1 : Int),
                        mbShowPhonetic := bShowPhonetic }
          (venv.calcDoubleFromRk (toSalInt32 entry.2)) ::
        multRkCalls env venv nSheet bShowPhonetic { aAddr with mnCol := aAddr.mnCol + 1 } rest
    | none => []

/-- The bytes of a record that starts at row `nRow`, column `nCol`, with the given entries
and the trailing field `aLast`. -/
def multRecord (nRow nCol : Nat) (entries : List (List Nat)) (aLast : List Nat) :
    BinaryInputStream :=
  { maData := le16 nRow ++ le16 nCol ++ entries.flatten ++ aLast, mbEof := false }

/-! ## A concrete environment -/

/-- Decimal value of the leading digits of a text. -/
def sampleDigits : List Char → Int → Int
  | [], acc => acc
  | c :: cs, acc =>
    if '0' ≤ c ∧ c ≤ '9' then sampleDigits cs (acc * 10 + ((c.toNat : Int) - 48)) else acc

/-- Column letters of an address text (1-based value) and the text behind them. -/
def sampleLetters : List Char → Int → Int × List Char
  | [], acc => (acc, [])
  | c :: cs, acc =>
    if 'A' ≤ c ∧ c ≤ 'Z' then sampleLetters cs (acc * 26 + ((c.toNat : Int) - 64))
    else (acc, c :: cs)

/-- Address text such as `B7` to the 0-based column and row. -/
def sampleParseAddress (s : List Char) : Option (Int × Int) :=
  if 0 < (sampleLetters s 0).1 ∧ 0 < sampleDigits (sampleLetters s 0).2 0 then
    some ((sampleLetters s 0).1 - 1, sampleDigits (sampleLetters s 0).2 0 - 1)
  else none

/-- Converter of a sheet with 1024 columns and 65536 rows in a workbook of 256 sheets. -/
def sampleConverter : AddressConverter :=
  { maMaxApiPos := { Sheet := 255, Column := 1023, Row := 65535 }
    parseOoxAddress2d := sampleParseAddress
    convertTextToCellRange := fun s nSheet =>
      match splitAtColon s with
      | none => none
      | some (a, b) =>
        match sampleParseAddress a, sampleParseAddress b with
        | some (c1, r1), some (c2, r2) =>
          some { Sheet := nSheet, StartColumn := c1, StartRow := r1, EndColumn := c2, EndRow := r2 }
        | _, _ => none
    convertBinToCellRange := fun r nSheet =>
      some { Sheet := nSheet, StartColumn := r.maFirst.mnCol, StartRow := r.maFirst.mnRow,
             EndColumn := r.maLast.mnCol, EndRow := r.maLast.mnRow } }

/-- An environment with decimal conversions and the converter above. -/
def sampleEnv : Env :=
  { mrAddressConv := sampleConverter
    toInt32 := fun s => sampleDigits s 0
    toDouble := fun s => ((sampleDigits s 0 : Int) : Rat)
    parseISO8601DateTime := fun _ => none
    importFormula := fun _ s => s.map Char.toNat
    mbHasCellXf0 := true }

/-- The sample context at the end of the formula text of the cell `A1`, which carries a
shared formula of group 7 declared for the range `A1:A3`. -/
def sampleSharedAnchor : SheetDataContext :=
  (SheetDataContext.new 0).run sampleEnv
    [.createContext .XLS_sheetData .XLS_row (rowAttribs 1),
     .createContext .XLS_row .XLS_c (cellAddrAttribs ['A', '1']),
     .createContext .XLS_c .XLS_f (sharedFmlaAttribs 7 (some ['A', '1', ':', 'A', '3'])),
     .characters .XLS_f ['B', '1', '+', '1']]

/-- The sample context at the formula element of the next cell `A2` of the same row,
which refers to group 7 without declaring a range. -/
def sampleSharedMember : SheetDataContext :=
  (sampleSharedAnchor.onEndElement sampleEnv .XLS_c).run sampleEnv
    [.createContext .XLS_row .XLS_c (cellAddrAttribs ['A', '2']),
     .createContext .XLS_c .XLS_f (sharedFmlaAttribs 7 none)]

/-- The sample context after the row element with index 1. -/
def sampleRow : SheetDataContext :=
  (SheetDataContext.new 0).importRow sampleEnv (rowAttribs 1)

/-- The sample context before the end of a cell element of the row with the given
attributes, after the given calls for its children. -/
def sampleCell (rAttribs : AttributeList) (children : List HandlerCall) : SheetDataContext :=
  sampleRow.run sampleEnv (.createContext .XLS_row .XLS_c rAttribs :: children)

/-- The calls for a value element with the given text. -/
def valueCalls (rChars : OUString) : List HandlerCall :=
  [.createContext .XLS_c .XLS_v AttributeList.empty, .characters .XLS_v rChars,
   .endElement .XLS_v]

/-- The calls for a formula element with the given attributes and text. -/
def fmlaCalls (rAttribs : AttributeList) (rChars : OUString) : List HandlerCall :=
  [.createContext .XLS_c .XLS_f rAttribs, .characters .XLS_f rChars, .endElement .XLS_f]

/-- The sample environment with a range converter for binary ranges that rejects a range
whose first cell lies outside the sheet or behind its last cell. -/
def sampleBoundedEnv : Env :=
  { sampleEnv with
    mrAddressConv :=
      { sampleConverter with
        convertBinToCellRange := fun r nSheet =>
          if sampleConverter.checkCellAddress
              { Sheet := nSheet, Column := r.maFirst.mnCol, Row := r.maFirst.mnRow } ∧
              r.maFirst.mnCol ≤ r.maLast.mnCol ∧ r.maFirst.mnRow ≤ r.maLast.mnRow then
            some { Sheet := nSheet, StartColumn := r.maFirst.mnCol, StartRow := r.maFirst.mnRow,
                   EndColumn := r.maLast.mnCol, EndRow := r.maLast.mnRow }
          else none } }

/-- A formula parser for binary formulas that takes the rest of the record as tokens. -/
def sampleRecordEnv : RecordEnv :=
  { importFormula := fun _ _ rStrm => (rStrm.maData, { rStrm with maData := [] })
    generateAddress2dString := fun _ _ => [] }

/-- The sample BIFF12 context whose current cell is `B2` (column 1, row 1). -/
def sampleRecCell : SheetDataContext :=
  (sampleCell (cellAttribs ['B', '2'] .XML_n) []).onEndElement sampleEnv .XLS_c

/-- The sample BIFF5 context whose current cell is `B2` (column 1, row 1). -/
def sampleBiffCell : BiffSheetDataContext :=
  (((BiffSheetDataContext.new .BIFF5 0).readCellXfId sampleEnv
      { maData := [15, 0], mbEof := false } { mnCol := 1, mnRow := 1 } false).2.2)

/-- The numeric cell `A1` with a shared formula element without group id and the value
text `5`, before its end. -/
def sampleNoIdCell : SheetDataContext :=
  sampleCell (cellAttribs ['A', '1'] .XML_n)
    (fmlaCalls (fmlaAttribs .XML_shared none none) ['B', '1'] ++ valueCalls ['5'])

/-- The numeric cell `A1` with the value text `5` and no formula element, before its
end. -/
def samplePlainCell : SheetDataContext :=
  sampleCell (cellAttribs ['A', '1'] .XML_n) (valueCalls ['5'])

/-- The cell `A1` with an array formula declared for the range `A1:B2`, before its end. -/
def sampleArrayCell : SheetDataContext :=
  sampleCell (cellAttribs ['A', '1'] .XML_n)
    (fmlaCalls (fmlaAttribs .XML_array (some ['A', '1', ':', 'B', '2']) none) ['B', '1'])

/-- The cell `B2` with a table operation declared for the range `A1:C3`, before its
end. -/
def sampleTableCell : SheetDataContext :=
  sampleCell (cellAttribs ['B', '2'] .XML_n)
    (fmlaCalls (fmlaAttribs .XML_dataTable (some ['A', '1', ':', 'C', '3']) none) ['B', '1'])

/-- The cell `A1` after the start of a formula element whose kind is the token of the
text `n`, which is no formula kind. -/
def sampleUnknownKindCell : SheetDataContext :=
  sampleCell (cellAttribs ['A', '1'] .XML_n)
    [.createContext .XLS_c .XLS_f (fmlaAttribs .XML_n none none)]

/-- The cell `A1` with an array formula without range declaration, before its end. -/
def sampleBadRangeCell : SheetDataContext :=
  sampleCell (cellAttribs ['A', '1'] .XML_n)
    (fmlaCalls (fmlaAttribs .XML_array none none) ['B', '1'])

/-- The date cell `A1` with the value text `soon`, before its end. -/
def sampleDateCell : SheetDataContext :=
  sampleCell (cellAttribs ['A', '1'] .XML_d) (valueCalls ['s', 'o', 'o', 'n'])

/-- The numeric cell `A1` without children, before its end. -/
def sampleEmptyCell : SheetDataContext :=
  sampleCell (cellAttribs ['A', '1'] .XML_n) []

/-- The calls for a cell element with the address `r` that carries a shared formula of
group 7 with the range declaration `ref`. -/
def sharedCellCalls (r : OUString) (ref : Option OUString) : List HandlerCall :=
  .createContext .XLS_row .XLS_c (cellAttribs r .XML_n) ::
    (fmlaCalls (fmlaAttribs .XML_shared ref (some 7)) ['C', '1'] ++ [.endElement .XLS_c])

/-- Two member cells of group 7, `A1` and `B1`, each with a range declaration that starts
at the cell itself. -/
def sampleTwoDeclarations : List HandlerCall :=
  sharedCellCalls ['A', '1'] (some ['A', '1', ':', 'A', '3']) ++
    sharedCellCalls ['B', '1'] (some ['B', '1', ':', 'B', '3'])

/-- One member cell of group 7, `A2`, without range declaration. -/
def sampleNoDeclaration : List HandlerCall :=
  sharedCellCalls ['A', '2'] none

/-- The sample context after the end of the cell `A1` with the value text `5` and a shared
formula element without group id. -/
def sampleLeftoverA : SheetDataContext := sampleNoIdCell.onEndElement sampleEnv .XLS_c

/-- A context with the log, the cell data and the address cursor of `sampleLeftoverA` and
with another formula, value text and inline string left over. -/
def sampleLeftoverB : SheetDataContext :=
  { sampleLeftoverA with
    maCellValue := ['9']
    mxInlineStr := some RichString.new
    mbHasFormula := true
    mbValidRange := true
    maTokens := [1, 2]
    maFmlaData :=
      { maFormulaRef := { Sheet := 0, StartColumn := 0, StartRow := 0, EndColumn := 5,
                          EndRow := 5 },
        mnFormulaType := .XML_array, mnSharedId := 3 }
    maTableData := { DataTableModel.new with mb2dTable := true } }

/-- The calls for the children and the end of a cell with an array formula without range
declaration and the value text `8`. -/
def sampleNextCellBody : List HandlerCall :=
  fmlaCalls (fmlaAttribs .XML_array none none) ['C', '1'] ++ valueCalls ['8'] ++
    [.endElement .XLS_c]

/-- Attribute list of a row element that has only the outline level `n`. -/
def levelAttribs (nLevel : Int) : AttributeList :=
  { AttributeList.empty with
    optInteger := fun t => if t = .XML_outlineLevel then some nLevel else none }

/-- A conversion of RK values and a reader of doubles that keep the bits as a number. -/
def sampleValueEnv : ValueEnv :=
  { decodeDouble := fun n => (n : Rat)
    calcDoubleFromRk := fun n => (n : Rat)
    importString := fun s _ => (RichString.new, s)
    importUniString := fun s => (RichString.new, s)
    importByteString := fun s _ _ => (RichString.new, s)
    readByteStringUC := fun s _ _ => ([], s)
    getTextEncoding := 0
    getFontEncoding := fun _ => none }

/-- The legacy context of an unknown version after a blank record for the cell `A1`. -/
def sampleUnknownBiff : BiffSheetDataContext :=
  ((BiffSheetDataContext.new .BIFF_UNKNOWN 0).importBlank sampleEnv
    { maData := [0, 0, 0, 0, 15, 0], mbEof := false } BIFF3_ID_BLANK).2

/-- A BIFF12 cell record for column 5000 with the format id 7 and the phonetic flag. -/
def sampleFarCellRecord : BinaryInputStream :=
  { maData := [136, 19, 0, 0, 7, 0, 0, 1, 1], mbEof := false }

/-- A BIFF12 row record for row 0 with the height field 1 and no spans. -/
def sampleLowRowRecord : BinaryInputStream :=
  { maData := [0, 0, 0, 0, 0, 0, 0, 0, 1, 0, 0, 0, 0, 0, 0, 0, 0], mbEof := false }

/-- A BIFF12 row record for row 0x7FFFFFFF with the height field 300 and no spans. -/
def sampleLastRowRecord : BinaryInputStream :=
  { maData := [255, 255, 255, 127, 0, 0, 0, 0, 44, 1, 0, 0, 0, 0, 0, 0, 0], mbEof := false }

/-- A BIFF12 row record for row 4 with the height field 300 and no spans. -/
def sampleRowRecord : BinaryInputStream :=
  { maData := [4, 0, 0, 0, 0, 0, 0, 0, 44, 1, 0, 0, 0, 0, 0, 0, 0], mbEof := false }

/-- A legacy row record for row 4 with the height field 0x812C (300 and the flag for the
default height), first used column 1 and first free column 4. -/
def sampleBiffRowRecord : BinaryInputStream :=
  { maData := [4, 0, 1, 0, 4, 0, 44, 129, 0, 0, 0, 0, 0, 0, 0, 0], mbEof := false }

end Oox

/-! ## Basic facts -/

namespace Oox

theorem foldl_insertColSpan_mnRow (spans : List ValueRange) (m : RowModel) :
    (spans.foldl RowModel.insertColSpan m).mnRow = m.mnRow := by
  induction spans generalizing m with
  | nil => rfl
  | cons s rest ih =>
    rw [List.foldl_cons, ih]
    unfold RowModel.insertColSpan
    split <;> rfl

theorem importRowModel_mnRow (env : Env) (st : SheetDataContext) (rAttribs : AttributeList) :
    (st.importRowModel env rAttribs).mnRow =
      if rAttribs.getInteger .XML_r (-1) = -1 then st.maLastCellAddress.Row + 1
      else rAttribs.getInteger .XML_r (-1) := by
  unfold SheetDataContext.importRowModel
  simp only [foldl_insertColSpan_mnRow]

theorem importRow_lastCell (env : Env) (st : SheetDataContext) (rAttribs : AttributeList) :
    (st.importRow env rAttribs).maLastCellAddress =
      { Sheet := st.maLastCellAddress.Sheet, Column := -1,
        Row := if rAttribs.getInteger .XML_r (-1) = -1 then st.maLastCellAddress.Row + 1
               else rAttribs.getInteger .XML_r (-1) - 1 } := by
  simp [SheetDataContext.importRow]

theorem importCell_implicit (env : Env) (st : SheetDataContext) (rAttribs : AttributeList)
    (hr : (rAttribs.getString .XML_r []).getLength = 0) :
    (st.importCell env rAttribs).1 = true ∧
    (st.importCell env rAttribs).2.maCellData.maCellAddr =
      { Sheet := st.maLastCellAddress.Sheet, Column := st.maLastCellAddress.Column + 1,
        Row := st.maLastCellAddress.Row } ∧
    (st.importCell env rAttribs).2.maLastCellAddress =
      { Sheet := st.maLastCellAddress.Sheet, Column := st.maLastCellAddress.Column + 1,
        Row := st.maLastCellAddress.Row } := by
  simp [SheetDataContext.importCell, hr]

theorem endCellFormula_lastCell (st : SheetDataContext) :
    st.endCellFormula.maLastCellAddress = st.maLastCellAddress := by
  unfold SheetDataContext.endCellFormula SheetDataContext.call
  repeat' split
  all_goals rfl

theorem endCellValue_lastCell (env : Env) (st : SheetDataContext) :
    (st.endCellValue env).maLastCellAddress = st.maLastCellAddress := by
  unfold SheetDataContext.endCellValue SheetDataContext.call
  repeat' split
  all_goals rfl

theorem onEndElement_lastCell (env : Env) (st : SheetDataContext) (nCurr : Token) :
    (st.onEndElement env nCurr).maLastCellAddress = st.maLastCellAddress := by
  unfold SheetDataContext.onEndElement
  split
  · rw [endCellValue_lastCell, endCellFormula_lastCell]
  · rfl

theorem onCharacters_lastCell (env : Env) (st : SheetDataContext) (nCurr : Token)
    (rChars : OUString) :
    (st.onCharacters env nCurr rChars).maLastCellAddress = st.maLastCellAddress := by
  unfold SheetDataContext.onCharacters
  repeat' split
  all_goals rfl

/-- A call of the walker that starts neither a row nor a cell with an explicit address
moves the address cursor one column to the right if it starts a cell, and leaves the
cursor alone otherwise. -/
theorem step_lastCell (env : Env) (st : SheetDataContext) (c : HandlerCall)
    (hrow : c.isRowStart = false) (haddr : c.isAddressedCellStart = false) :
    (st.step env c).maLastCellAddress =
      { Sheet := st.maLastCellAddress.Sheet,
        Column := st.maLastCellAddress.Column + (if c.isCellStart then 1 else 0),
        Row := st.maLastCellAddress.Row } := by
  cases c with
  | characters nCurr rChars =>
    simp [SheetDataContext.step, onCharacters_lastCell, HandlerCall.isCellStart]
  | endElement nCurr =>
    simp [SheetDataContext.step, onEndElement_lastCell, HandlerCall.isCellStart]
  | createContext nCurr nElement rAttribs =>
    cases nCurr <;> cases nElement <;>
      simp_all [SheetDataContext.step, SheetDataContext.onCreateContext,
        HandlerCall.isCellStart, HandlerCall.isRowStart, HandlerCall.isAddressedCellStart,
        SheetDataContext.importFormula]
    have hr : (rAttribs.getString .XML_r []).getLength = 0 := by
      have h0 : 0 ≤ (rAttribs.getString .XML_r []).getLength := by
        simp [OUString.getLength]
      omega
    have h := (importCell_implicit env st rAttribs hr).2.2
    have h1 := (importCell_implicit env st rAttribs hr).1
    simp [h1, h]

theorem run_lastCell (env : Env) (pre : List HandlerCall) (st : SheetDataContext)
    (hrow : ∀ c ∈ pre, c.isRowStart = false)
    (haddr : ∀ c ∈ pre, c.isAddressedCellStart = false) :
    (st.run env pre).maLastCellAddress =
      { Sheet := st.maLastCellAddress.Sheet,
        Column := st.maLastCellAddress.Column + (pre.countP HandlerCall.isCellStart : Nat),
        Row := st.maLastCellAddress.Row } := by
  induction pre generalizing st with
  | nil => simp [SheetDataContext.run]
  | cons c rest ih =>
    have hc := step_lastCell env st c (hrow c (List.mem_cons_self _ _))
      (haddr c (List.mem_cons_self _ _))
    have hrest := ih (st.step env c) (fun x hx => hrow x (List.mem_cons_of_mem _ hx))
      (fun x hx => haddr x (List.mem_cons_of_mem _ hx))
    simp only [SheetDataContext.run, List.foldl_cons] at hrest ⊢
    rw [hrest, hc]
    by_cases hcs : c.isCellStart = true
    · simp [List.countP_cons, hcs]
      omega
    · simp [List.countP_cons, hcs]

/-! ## Column spans -/

theorem importRowColSpans_all (env : Env) (text : OUString) (nMaxCol : Int)
    (P : ValueRange → Prop) (hP : ∀ a b : Int, P { mnFirst := a, mnLast := min b nMaxCol })
    (fuel : Nat) (nIndex : Int) (spans : List ValueRange) (hs : ∀ s ∈ spans, P s) :
    ∀ s ∈ (SheetDataContext.importRowColSpans env text nMaxCol fuel nIndex spans).2, P s := by
  induction fuel generalizing nIndex spans with
  | zero => simpa [SheetDataContext.importRowColSpans] using hs
  | succ n ih =>
    simp only [SheetDataContext.importRowColSpans]
    split
    · split
      · apply ih
        intro s hmem
        rcases List.mem_append.mp hmem with h | h
        · exact hs s h
        · rw [List.mem_singleton.mp h]
          exact hP _ _
      · exact ih _ _ hs
    · simpa using hs

theorem importRowRecSpans_all (nMaxCol : Int)
    (P : ValueRange → Prop) (hP : ∀ a b : Int, P { mnFirst := a, mnLast := min b nMaxCol })
    (nCount : Nat) (rStrm : BinaryInputStream) (spans : List ValueRange)
    (hs : ∀ s ∈ spans, P s) :
    ∀ s ∈ (SheetDataContext.importRowRecSpans nMaxCol nCount rStrm spans).2, P s := by
  induction nCount generalizing rStrm spans with
  | zero => simpa [SheetDataContext.importRowRecSpans] using hs
  | succ n ih =>
    simp only [SheetDataContext.importRowRecSpans]
    split
    · apply ih
      intro s hmem
      rcases List.mem_append.mp hmem with h | h
      · exact hs s h
      · rw [List.mem_singleton.mp h]
        exact hP _ _
    · simpa using hs

theorem insert_lower (b : Int) (l : List ValueRange) :
    ∀ r : ValueRange, b < r.mnFirst → (∀ y ∈ l, b < y.mnFirst) →
      ∀ x ∈ ValueRangeSet.insert l r, b < x.mnFirst := by
  induction l with
  | nil =>
    intro r hr _ x hx
    simp only [ValueRangeSet.insert, List.mem_singleton] at hx
    rw [hx]
    exact hr
  | cons s rest ih =>
    intro r hr hl x hx
    have hs := hl s (List.mem_cons_self _ _)
    have hrest : ∀ y ∈ rest, b < y.mnFirst := fun y hy => hl y (List.mem_cons_of_mem _ hy)
    simp only [ValueRangeSet.insert] at hx
    split at hx
    · rcases List.mem_cons.mp hx with h | h
      · rw [h]; exact hr
      · exact hl x h
    · split at hx
      · rcases List.mem_cons.mp hx with h | h
        · rw [h]; exact hs
        · exact ih r hr hrest x h
      · exact ih _ (lt_min hs hr) hrest x hx

theorem insert_ascending (l : List ValueRange) :
    ∀ r : ValueRange, SpansAscending l → 0 ≤ r.mnFirst → r.mnFirst ≤ r.mnLast →
      SpansAscending (ValueRangeSet.insert l r) := by
  induction l with
  | nil =>
    intro r _ h0 h1
    simp [ValueRangeSet.insert, SpansAscending, h0, h1]
  | cons s rest ih =>
    intro r hl h0 h1
    obtain ⟨hpw, hwf⟩ := hl
    have hs := hwf s (List.mem_cons_self _ _)
    have hrestwf : ∀ a ∈ rest, 0 ≤ a.mnFirst ∧ a.mnFirst ≤ a.mnLast :=
      fun a ha => hwf a (List.mem_cons_of_mem _ ha)
    rw [List.pairwise_cons] at hpw
    have hrest : SpansAscending rest := ⟨hpw.2, hrestwf⟩
    simp only [ValueRangeSet.insert]
    split
    · rename_i hlt
      refine ⟨?_, ?_⟩
      · rw [List.pairwise_cons]
        refine ⟨?_, List.pairwise_cons.mpr hpw⟩
        intro y hy
        rcases List.mem_cons.mp hy with h | h
        · rw [h]; exact hlt
        · have := hpw.1 y h
          omega
      · intro a ha
        rcases List.mem_cons.mp ha with h | h
        · rw [h]; exact ⟨h0, h1⟩
        · exact hwf a h
    · split
      · rename_i hlt
        have hins := ih r hrest h0 h1
        refine ⟨?_, ?_⟩
        · rw [List.pairwise_cons]
          exact ⟨insert_lower s.mnLast rest r hlt hpw.1, hins.1⟩
        · intro a ha
          rcases List.mem_cons.mp ha with h | h
          · rw [h]; exact hs
          · exact hins.2 a h
      · apply ih _ hrest
        · exact le_min hs.1 h0
        · exact le_trans (min_le_left _ _) (le_trans hs.2 (le_max_left _ _))

theorem foldl_insertColSpan_ascending (spans : List ValueRange) :
    ∀ m : RowModel, SpansAscending m.maColSpans →
      SpansAscending (spans.foldl RowModel.insertColSpan m).maColSpans := by
  induction spans with
  | nil => intro m hm; exact hm
  | cons s rest ih =>
    intro m hm
    rw [List.foldl_cons]
    apply ih
    unfold RowModel.insertColSpan
    split
    · rename_i h
      exact insert_ascending _ _ hm h.1 h.2
    · exact hm

theorem spansAscending_nil : SpansAscending [] := by
  simp [SpansAscending]

/-- C1 (the code at the failing input): a cell element without address whose type is
`inlineStr` is accepted by `importCell`; if its value element carries a non-empty text,
closing the cell issues no cell setter call at all. -/
theorem C1_inline_string_cell_with_value_text_has_no_setter (env : Env)
    (st : SheetDataContext) (c : Char) (cs : List Char) :
    (st.importCell env (cellTypeAttribs .XML_inlineStr)).1 = true ∧
    setterCount (st.run env
        [.createContext .XLS_row .XLS_c (cellTypeAttribs .XML_inlineStr),
         .createContext .XLS_c .XLS_v AttributeList.empty,
         .characters .XLS_v (c :: cs),
         .endElement .XLS_c]).mrSheetData = setterCount st.mrSheetData := by
  simp [SheetDataContext.run, SheetDataContext.step, SheetDataContext.onCreateContext,
    SheetDataContext.importCell, SheetDataContext.onCharacters, SheetDataContext.onEndElement,
    SheetDataContext.endCellFormula, SheetDataContext.endCellValue, cellTypeAttribs,
    AttributeList.empty, AttributeList.getString, AttributeList.getToken,
    AttributeList.getInteger, AttributeList.getBool, OUString.getLength, setterCount,
    SinkCall.isCellSetter, List.filter_append]

/-- C2 (the code at the failing inputs): the first row element of a worksheet that
carries no index gets the row index 0 in its row model, and a row element without index
that follows a row with the explicit index 5 gets the row index 5 again. -/
theorem C2_row_without_index_is_one_too_low (env : Env) (st : SheetDataContext)
    (nSheet : Int) :
    ((SheetDataContext.new nSheet).importRowModel env AttributeList.empty).mnRow = 0 ∧
    (st.importRowModel env (rowAttribs 5)).mnRow = 5 ∧
    ((st.importRow env (rowAttribs 5)).importRowModel env AttributeList.empty).mnRow = 5 := by
  simp [importRowModel_mnRow, importRow_lastCell, rowAttribs, AttributeList.empty,
    AttributeList.getInteger, SheetDataContext.new]

/-- C3: after a cell resolved at column C (the address cursor of the state), the N-th
of N consecutive cell elements without explicit address (N - 1 of them among the calls
`pre`, which start no row and no cell with an address) is accepted and resolves to
column C + N on the row and sheet of the cursor; the first cell without address after a
row element resolves to column 0. -/
theorem C3_implicit_cells_take_consecutive_columns (env : Env) (st : SheetDataContext)
    (pre : List HandlerCall) (rAttribs : AttributeList)
    (hrow : ∀ c ∈ pre, c.isRowStart = false)
    (haddr : ∀ c ∈ pre, c.isAddressedCellStart = false)
    (hr : (rAttribs.getString .XML_r []).getLength = 0) :
    ((st.run env pre).onCreateContext env .XLS_row .XLS_c rAttribs).1 = .this ∧
    ((st.run env pre).onCreateContext env .XLS_row .XLS_c rAttribs).2.maCellData.maCellAddr =
      { Sheet := st.maLastCellAddress.Sheet,
        Column := st.maLastCellAddress.Column + ((pre.countP HandlerCall.isCellStart : Nat) + 1),
        Row := st.maLastCellAddress.Row } ∧
    ∀ rRowAttribs : AttributeList,
      (((st.run env pre).onCreateContext env .XLS_sheetData .XLS_row rRowAttribs).2.onCreateContext
        env .XLS_row .XLS_c rAttribs).2.maCellData.maCellAddr.Column = 0 := by
  have hcur := run_lastCell env pre st hrow haddr
  have hcell := importCell_implicit env (st.run env pre) rAttribs hr
  refine ⟨?_, ?_, ?_⟩
  · simp [SheetDataContext.onCreateContext, hcell.1]
  · simp only [SheetDataContext.onCreateContext, hcell.1, if_true]
    rw [hcell.2.1, hcur]
    simp
    omega
  · intro rRowAttribs
    have h2 := importCell_implicit env ((st.run env pre).importRow env rRowAttribs) rAttribs hr
    simp only [SheetDataContext.onCreateContext, h2.1, if_true]
    rw [h2.2.1, importRow_lastCell]
    simp

/-- Witness of C3: in the sample environment a row with the cell `D1` (column 3) is
followed by the end of that cell and a cell element without address, which resolves to
column 4 of row 0. -/
theorem C3_witness :
    ((((SheetDataContext.new 0).run sampleEnv
          [.createContext .XLS_sheetData .XLS_row (rowAttribs 1),
           .createContext .XLS_row .XLS_c (cellAddrAttribs ['D', '1'])]).run sampleEnv
          [.endElement .XLS_c]).onCreateContext sampleEnv .XLS_row .XLS_c
        AttributeList.empty).2.maCellData.maCellAddr = { Sheet := 0, Column := 4, Row := 0 } := by
  have h := (C3_implicit_cells_take_consecutive_columns sampleEnv
    ((SheetDataContext.new 0).run sampleEnv
      [.createContext .XLS_sheetData .XLS_row (rowAttribs 1),
       .createContext .XLS_row .XLS_c (cellAddrAttribs ['D', '1'])])
    [.endElement .XLS_c] AttributeList.empty (by decide) (by decide) (by decide)).2.1
  rw [h]
  decide

/-- C4 (the code at the failing input): after a row element whose explicit index lies
behind the last row of the sheet, a cell element without address is accepted by
`importCell` although the row of its address is greater than the maximum row; and from
any state whose address cursor stands on the maximum column, a cell element without
address is accepted at the column behind the maximum column. -/
theorem C4_implicit_cell_accepted_out_of_range (env : Env) (st : SheetDataContext)
    (nSheet : Int) :
    (((SheetDataContext.new nSheet).run env
        [.createContext .XLS_sheetData .XLS_row
          (rowAttribs ((env.mrAddressConv.getMaxApiAddress.Row.toNat : Int) + 2))]).onCreateContext
        env .XLS_row .XLS_c AttributeList.empty).1 = .this ∧
    env.mrAddressConv.getMaxApiAddress.Row <
      (((SheetDataContext.new nSheet).run env
        [.createContext .XLS_sheetData .XLS_row
          (rowAttribs ((env.mrAddressConv.getMaxApiAddress.Row.toNat : Int) + 2))]).onCreateContext
        env .XLS_row .XLS_c AttributeList.empty).2.maCellData.maCellAddr.Row ∧
    (({ st with maLastCellAddress :=
          { st.maLastCellAddress with
            Column := env.mrAddressConv.getMaxApiAddress.Column } }).importCell env
        AttributeList.empty).1 = true ∧
    (({ st with maLastCellAddress :=
          { st.maLastCellAddress with
            Column := env.mrAddressConv.getMaxApiAddress.Column } }).importCell env
        AttributeList.empty).2.maCellData.maCellAddr.Column =
      env.mrAddressConv.getMaxApiAddress.Column + 1 := by
  have hne : ((env.mrAddressConv.getMaxApiAddress.Row.toNat : Int) + 2 = -1) = False := by
    simp only [eq_iff_iff, iff_false]
    omega
  simp [SheetDataContext.run, SheetDataContext.step, SheetDataContext.onCreateContext,
    SheetDataContext.importCell, SheetDataContext.importRow, rowAttribs,
    AttributeList.empty, AttributeList.getString, AttributeList.getInteger,
    AttributeList.getToken, AttributeList.getBool, OUString.getLength, hne]
  omega

/-- C5: every column span handed to `RowModel::insertColSpan` by the element-format
`importRow`, by the BIFF12 `importRow` and by the legacy BIFF `importRow` has a last
column that is at most the maximum column of the sheet, for every input. -/
theorem C5_span_last_column_at_most_max_column (env : Env) :
    (∀ (text : OUString) (s : ValueRange),
      s ∈ (SheetDataContext.decodeColSpans env text
            env.mrAddressConv.getMaxApiAddress.Column).2 →
        s.mnLast ≤ env.mrAddressConv.getMaxApiAddress.Column) ∧
    (∀ (rStrm : BinaryInputStream) (s : ValueRange),
      s ∈ (SheetDataContext.recColSpans env rStrm).2 →
        s.mnLast ≤ env.mrAddressConv.getMaxApiAddress.Column) ∧
    (∀ (st : BiffSheetDataContext) (rStrm : BinaryInputStream) (s : ValueRange),
      s ∈ st.rowColSpans env rStrm →
        s.mnLast ≤ env.mrAddressConv.getMaxApiAddress.Column) := by
  refine ⟨?_, ?_, ?_⟩
  · intro text s hs
    exact importRowColSpans_all env text _ (fun v => v.mnLast ≤ _)
      (fun _ _ => min_le_right _ _) _ _ [] (by simp) s hs
  · intro rStrm s hs
    exact importRowRecSpans_all _ (fun v => v.mnLast ≤ _)
      (fun _ _ => min_le_right _ _) _ _ [] (by simp) s hs
  · intro st rStrm s hs
    unfold BiffSheetDataContext.rowColSpans at hs
    simp only at hs
    split at hs
    · rw [List.mem_singleton.mp hs]
      exact min_le_right _ _
    · simp at hs

/-- Witness of C5: in the sample environment (maximum column 1023) the spans text
`7:2000` hands the span from 6 to 1023 to `insertColSpan`; a BIFF12 row record with one
span from 2 to 5000 hands over the span from 2 to 1023; a BIFF3 row record with first
used column 1 and first free column 4 hands over the span from 1 to 3. -/
theorem C5_witness :
    (({ mnFirst := 6, mnLast := 1023 } : ValueRange) ∈
        (SheetDataContext.decodeColSpans sampleEnv ['7', ':', '2', '0', '0', '0']
          sampleEnv.mrAddressConv.getMaxApiAddress.Column).2 ∧
      ({ mnFirst := 6, mnLast := 1023 } : ValueRange).mnLast ≤
        sampleEnv.mrAddressConv.getMaxApiAddress.Column) ∧
    (({ mnFirst := 2, mnLast := 1023 } : ValueRange) ∈
        (SheetDataContext.recColSpans sampleEnv
          { maData := [0, 0, 0, 0, 0, 0, 0, 0, 0, 0, 0, 0, 0, 1, 0, 0, 0,
                       2, 0, 0, 0, 136, 19, 0, 0], mbEof := false }).2 ∧
      ({ mnFirst := 2, mnLast := 1023 } : ValueRange).mnLast ≤
        sampleEnv.mrAddressConv.getMaxApiAddress.Column) ∧
    (({ mnFirst := 1, mnLast := 3 } : ValueRange) ∈
        (BiffSheetDataContext.new .BIFF3 0).rowColSpans sampleEnv
          { maData := [0, 0, 1, 0, 4, 0, 0, 0, 0, 0, 0, 0, 0, 0, 0, 0], mbEof := false } ∧
      ({ mnFirst := 1, mnLast := 3 } : ValueRange).mnLast ≤
        sampleEnv.mrAddressConv.getMaxApiAddress.Column) :=
  ⟨⟨by decide,
    (C5_span_last_column_at_most_max_column sampleEnv).1 ['7', ':', '2', '0', '0', '0']
      { mnFirst := 6, mnLast := 1023 } (by decide)⟩,
   ⟨by decide,
    (C5_span_last_column_at_most_max_column sampleEnv).2.1
      { maData := [0, 0, 0, 0, 0, 0, 0, 0, 0, 0, 0, 0, 0, 1, 0, 0, 0,
                   2, 0, 0, 0, 136, 19, 0, 0], mbEof := false }
      { mnFirst := 2, mnLast := 1023 } (by decide)⟩,
   ⟨by decide,
    (C5_span_last_column_at_most_max_column sampleEnv).2.2
      (BiffSheetDataContext.new .BIFF3 0)
      { maData := [0, 0, 1, 0, 4, 0, 0, 0, 0, 0, 0, 0, 0, 0, 0, 0], mbEof := false }
      { mnFirst := 1, mnLast := 3 } (by decide)⟩⟩

/-- C6: the row model handed to `setRowModel` by the element-format `importRow` and by
the BIFF12 `importRow` has its column spans pairwise disjoint and in ascending column
order, for every spans text and every record. -/
theorem C6_row_model_spans_ascending_disjoint (env : Env) (st : SheetDataContext)
    (rAttribs : AttributeList) (rStrm : BinaryInputStream) :
    ((st.importRow env rAttribs).mrSheetData =
        st.mrSheetData ++ [.setRowModel (st.importRowModel env rAttribs)] ∧
      SpansAscending (st.importRowModel env rAttribs).maColSpans) ∧
    ((st.importRowRec env rStrm).2.mrSheetData =
        st.mrSheetData ++ [.setRowModel (SheetDataContext.importRowRecModel env rStrm)] ∧
      SpansAscending (SheetDataContext.importRowRecModel env rStrm).maColSpans) := by
  refine ⟨⟨rfl, ?_⟩, ⟨rfl, ?_⟩⟩
  · unfold SheetDataContext.importRowModel
    exact foldl_insertColSpan_ascending _ _ spansAscending_nil
  · unfold SheetDataContext.importRowRecModel
    exact foldl_insertColSpan_ascending _ _ spansAscending_nil

/-- C8: when the explicit address of a cell element does not convert to a valid address,
`importCell` returns false and leaves the whole context as it was (no call on the sink,
address cursor, cell data, value text, formula flag and inline string unchanged), and
`onCreateContext` returns no context. -/
theorem C8_invalid_address_rejects_cell_without_effect (env : Env) (st : SheetDataContext)
    (rAttribs : AttributeList)
    (hr : (rAttribs.getString .XML_r []).getLength > 0)
    (hinv : env.mrAddressConv.convertToCellAddress (rAttribs.getString .XML_r [])
      st.mnSheet = none) :
    st.importCell env rAttribs = (false, st) ∧
    st.onCreateContext env .XLS_row .XLS_c rAttribs = (.null, st) := by
  have h : st.importCell env rAttribs = (false, st) := by
    simp [SheetDataContext.importCell, hr, hinv]
  exact ⟨h, by simp [SheetDataContext.onCreateContext, h]⟩

/-- Witness of C8: in the sample environment the address `ZZZ7` lies behind the maximum
column 1023, so the cell is rejected and the context after the row element is unchanged. -/
theorem C8_witness :
    ((SheetDataContext.new 0).importRow sampleEnv (rowAttribs 1)).onCreateContext sampleEnv
        .XLS_row .XLS_c (cellAddrAttribs ['Z', 'Z', 'Z', '7']) =
      (.null, (SheetDataContext.new 0).importRow sampleEnv (rowAttribs 1)) :=
  (C8_invalid_address_rejects_cell_without_effect sampleEnv
    ((SheetDataContext.new 0).importRow sampleEnv (rowAttribs 1))
    (cellAddrAttribs ['Z', 'Z', 'Z', '7']) (by decide) (by decide)).2

/-- C9: `importCell`, the BIFF12 `readCellHeader` and the legacy `readCellXfId` call
`extendUsedArea` exactly once, with the resolved cell address, when the address is valid
(result true), and not at all when it is invalid (result false). -/
theorem C9_extendUsedArea_once_iff_valid (env : Env) :
    (∀ (st : SheetDataContext) (rAttribs : AttributeList),
      (st.importCell env rAttribs).2.mrSheetData =
        st.mrSheetData ++
          (if (st.importCell env rAttribs).1 then
            [.extendUsedArea (st.importCell env rAttribs).2.maCellData.maCellAddr] else [])) ∧
    (∀ (st : SheetDataContext) (rStrm : BinaryInputStream) (eCellType : CellType),
      (st.readCellHeader env rStrm eCellType).2.2.mrSheetData =
        st.mrSheetData ++
          (if (st.readCellHeader env rStrm eCellType).1 then
            [.extendUsedArea (st.readCellHeader env rStrm eCellType).2.2.maCellData.maCellAddr]
           else [])) ∧
    (∀ (st : BiffSheetDataContext) (rStrm : BinaryInputStream) (rAddr : BinAddress)
        (bBiff2 : Bool),
      (st.readCellXfId env rStrm rAddr bBiff2).2.2.mrSheetData.filter SinkCall.isExtendUsedArea =
        st.mrSheetData.filter SinkCall.isExtendUsedArea ++
          (if (st.readCellXfId env rStrm rAddr bBiff2).1 then
            [.extendUsedArea (st.readCellXfId env rStrm rAddr bBiff2).2.2.maCellData.maCellAddr]
           else [])) := by
  refine ⟨?_, ?_, ?_⟩
  · intro st rAttribs
    unfold SheetDataContext.importCell
    by_cases hr : (rAttribs.getString .XML_r []).getLength > 0
    · cases hconv : env.mrAddressConv.convertToCellAddress (rAttribs.getString .XML_r [])
        st.mnSheet <;> simp [hr, hconv]
    · simp [hr]
  · intro st rStrm eCellType
    unfold SheetDataContext.readCellHeader SheetDataContext.call
    cases eCellType <;> simp only <;> split <;> simp
  · intro st rStrm rAddr bBiff2
    unfold BiffSheetDataContext.readCellXfId BiffSheetDataContext.call
    cases hconv : env.mrAddressConv.convertBinToCellAddress rAddr st.mnSheet with
    | none => simp
    | some aAddr =>
      cases bBiff2
      · simp [List.filter_append, SinkCall.isExtendUsedArea]
      · by_cases hx : st.mobBiff2HasXfs.getD env.mbHasCellXf0 = true
        · simp [List.filter_append, SinkCall.isExtendUsedArea, hx]
        · simp [List.filter_append, SinkCall.isExtendUsedArea, hx]

/-- C10: closing a cell whose formula is shared with a group id g that is not negative
issues, after at most one `createSharedFormula( g, tokens )`, exactly one
`setFormulaCell( cell, g )` and nothing else; `createSharedFormula` is issued exactly when
the declared range was converted and the address of the cell is the anchor (top-left
cell) of that range.  The formula flag, kind, group id, range and range validity of the
state are those that `importFormula` takes from the formula element. -/
theorem C10_shared_formula_cell (env : Env) (st : SheetDataContext) (g : Int)
    (hFmla : st.mbHasFormula = true)
    (hType : st.maFmlaData.mnFormulaType = .XML_shared)
    (hId : st.maFmlaData.mnSharedId = g) (hg : 0 ≤ g) :
    (st.onEndElement env .XLS_c).mrSheetData =
      st.mrSheetData ++
        (if st.mbValidRange = true ∧
            st.maFmlaData.maFormulaRef.Sheet = st.maCellData.maCellAddr.Sheet ∧
            st.maFmlaData.maFormulaRef.StartColumn = st.maCellData.maCellAddr.Column ∧
            st.maFmlaData.maFormulaRef.StartRow = st.maCellData.maCellAddr.Row
          then [.createSharedFormula g st.maTokens] else []) ++
        [.setFormulaCellShared st.maCellData g] ∧
    ∀ (st0 : SheetDataContext) (rAttribs : AttributeList),
      (st0.importFormula env rAttribs).mbHasFormula = true ∧
      (st0.importFormula env rAttribs).maFmlaData.mnFormulaType =
        rAttribs.getToken .XML_t .XML_normal ∧
      (st0.importFormula env rAttribs).maFmlaData.mnSharedId =
        rAttribs.getInteger .XML_si (-1) ∧
      (st0.importFormula env rAttribs).mbValidRange =
        (env.mrAddressConv.convertTextToCellRange (rAttribs.getString .XML_ref [])
          st0.mnSheet).isSome ∧
      ∀ aRange, env.mrAddressConv.convertTextToCellRange (rAttribs.getString .XML_ref [])
          st0.mnSheet = some aRange →
        (st0.importFormula env rAttribs).maFmlaData.maFormulaRef = aRange := by
  have hge : st.maFmlaData.mnSharedId ≥ 0 := by omega
  refine ⟨?_, fun st0 rAttribs => ⟨rfl, rfl, rfl, rfl, fun aRange h => by
    simp [SheetDataContext.importFormula, h]⟩⟩
  unfold SheetDataContext.onEndElement SheetDataContext.endCellFormula
  simp only [if_true, hFmla, hType, hge]
  split
  · rename_i h
    simp only [Bool.and_eq_true, CellFormulaModel.isValidSharedRef, decide_eq_true_eq] at h
    rw [if_pos h]
    simp [SheetDataContext.endCellValue, SheetDataContext.call, hFmla, hId]
  · rename_i h
    simp only [Bool.and_eq_true, CellFormulaModel.isValidSharedRef, decide_eq_true_eq] at h
    rw [if_neg h]
    simp [SheetDataContext.endCellValue, SheetDataContext.call, hFmla, hId]

/-- Witness of C10 (group 7): closing the cell `A1`, the anchor of the declared range
`A1:A3`, issues one `createSharedFormula( 7, tokens )` and one `setFormulaCell( cell, 7 )`;
closing the later cell `A2`, which declares no range, issues no `createSharedFormula`
and one `setFormulaCell( cell2, 7 )`. -/
theorem C10_witness :
    (sampleSharedAnchor.onEndElement sampleEnv .XLS_c).mrSheetData =
      sampleSharedAnchor.mrSheetData ++
        [.createSharedFormula 7 sampleSharedAnchor.maTokens,
         .setFormulaCellShared sampleSharedAnchor.maCellData 7] ∧
    (sampleSharedMember.onEndElement sampleEnv .XLS_c).mrSheetData =
      sampleSharedMember.mrSheetData ++
        [.setFormulaCellShared sampleSharedMember.maCellData 7] := by
  have h1 := (C10_shared_formula_cell sampleEnv sampleSharedAnchor 7
    (by decide) (by decide) (by decide) (by decide)).1
  have h2 := (C10_shared_formula_cell sampleEnv sampleSharedMember 7
    (by decide) (by decide) (by decide) (by decide)).1
  rw [if_pos (by decide)] at h1
  rw [if_neg (by decide)] at h2
  rw [h1, h2]
  simp


/-! ## Closing a cell -/

/-- The calls of the value part of `onEndElement`, case by case. -/
theorem plainValueCalls_eq (env : Env) (st : SheetDataContext) :
    st.plainValueCalls env =
      if st.maCellValue.getLength > 0 then
        match st.maCellData.mnCellType with
        | .XML_n => [.setValueCell st.maCellData (env.toDouble st.maCellValue)]
        | .XML_d =>
          match env.parseISO8601DateTime st.maCellValue with
          | some dateTime => [.setDateTimeCell st.maCellData dateTime]
          | none => [.setErrorCell st.maCellData st.maCellValue]
        | .XML_b =>
          [.setBooleanCell st.maCellData (decide (env.toDouble st.maCellValue ≠ 0))]
        | .XML_e => [.setErrorCell st.maCellData st.maCellValue]
        | .XML_str => [.setStringCell st.maCellData st.maCellValue]
        | .XML_s => [.setStringCellId st.maCellData (env.toInt32 st.maCellValue)]
        | _ => []
      else if st.maCellData.mnCellType = .XML_inlineStr ∧ st.mxInlineStr.isSome then
        [.setStringCellRich st.maCellData (st.mxInlineStr.map RichString.finalizeImport)]
      else [.setBlankCell { st.maCellData with mnCellType := .XML_TOKEN_INVALID }] := by
  unfold SheetDataContext.plainValueCalls SheetDataContext.endCellValue SheetDataContext.call
  simp only [Bool.not_false, if_true]
  by_cases hv : st.maCellValue.getLength > 0
  · simp only [hv, if_true]
    split
    · rfl
    · split <;> simp_all
    · rfl
    · rfl
    · rfl
    · rfl
    · rfl
  · simp only [hv, if_false]
    split <;> rfl

theorem endCellValue_log (env : Env) (st : SheetDataContext) :
    (st.endCellValue env).mrSheetData =
      st.mrSheetData ++ (if st.mbHasFormula = true then [] else st.plainValueCalls env) := by
  rw [plainValueCalls_eq]
  unfold SheetDataContext.endCellValue SheetDataContext.call
  cases hF : st.mbHasFormula
  · simp only [Bool.not_false, if_true, Bool.false_eq_true, if_false]
    by_cases hv : st.maCellValue.getLength > 0
    · simp only [hv, if_true]
      split
      · rfl
      · split <;> simp_all
      · rfl
      · rfl
      · rfl
      · rfl
      · simp
    · simp only [hv, if_false]
      split <;> rfl
  · simp

theorem plainValueCalls_congr (env : Env) (a b : SheetDataContext)
    (hcell : a.maCellData = b.maCellData) (hval : a.maCellValue = b.maCellValue)
    (hstr : a.mxInlineStr = b.mxInlineStr) :
    a.plainValueCalls env = b.plainValueCalls env := by
  rw [plainValueCalls_eq, plainValueCalls_eq, hcell, hval, hstr]

theorem plainValueCalls_no_formula (env : Env) (st : SheetDataContext) :
    ∀ c ∈ st.plainValueCalls env, c.isFormulaCall = false ∧ c.isCellSetter = true := by
  rw [plainValueCalls_eq]
  split
  · split <;> try simp [SinkCall.isFormulaCall, SinkCall.isCellSetter]
    split <;> simp [SinkCall.isFormulaCall, SinkCall.isCellSetter]
  · split <;> simp [SinkCall.isFormulaCall, SinkCall.isCellSetter]

/-- Closing a cell whose formula flag is off, or whose formula kind is none of the four
known kinds, or whose kind is shared without group id, issues the calls of the value
part and nothing else. -/
theorem onEndElement_value_path (env : Env) (st : SheetDataContext)
    (h : st.mbHasFormula = false ∨ st.maFmlaData.mnFormulaType.isFormulaKind = false ∨
      (st.maFmlaData.mnFormulaType = .XML_shared ∧ st.maFmlaData.mnSharedId < 0)) :
    (st.onEndElement env .XLS_c).mrSheetData = st.mrSheetData ++ st.plainValueCalls env := by
  have key : st.endCellFormula = st ∨ st.endCellFormula = { st with mbHasFormula := false } := by
    unfold SheetDataContext.endCellFormula
    cases hF : st.mbHasFormula
    · simp
    · rcases h with h | h | h
      · simp [hF] at h
      · right
        simp only [if_true]
        split <;> simp_all [Token.isFormulaKind]
      · right
        have hn : ¬ (st.maFmlaData.mnSharedId ≥ 0) := by omega
        simp [h.1, hn]
  unfold SheetDataContext.onEndElement
  simp only [if_true]
  rcases key with hk | hk
  · rw [hk, endCellValue_log]
    cases hF : st.mbHasFormula
    · simp
    · exfalso
      have : st.endCellFormula.mbHasFormula = true := by rw [hk]; exact hF
      unfold SheetDataContext.endCellFormula at hk this
      rcases h with h | h | h
      · simp [hF] at h
      · simp only [hF, if_true] at this
        split at this <;> simp_all [Token.isFormulaKind]
      · have hn : ¬ (st.maFmlaData.mnSharedId ≥ 0) := by omega
        simp [hF, h.1, hn] at this
  · rw [hk, endCellValue_log]
    simp only [Bool.false_eq_true, if_false]
    congr 1

theorem importFormula_fields (env : Env) (st : SheetDataContext) (rAttribs : AttributeList) :
    (st.importFormula env rAttribs).mbHasFormula = true ∧
    (st.importFormula env rAttribs).maFmlaData.mnFormulaType =
      rAttribs.getToken .XML_t .XML_normal ∧
    (st.importFormula env rAttribs).maFmlaData.mnSharedId = rAttribs.getInteger .XML_si (-1) ∧
    (st.importFormula env rAttribs).mbValidRange =
      (env.mrAddressConv.convertTextToCellRange (rAttribs.getString .XML_ref [])
        st.mnSheet).isSome ∧
    (st.importFormula env rAttribs).maTokens = [] ∧
    (st.importFormula env rAttribs).mrSheetData = st.mrSheetData ∧
    (st.importFormula env rAttribs).maCellData = st.maCellData ∧
    (st.importFormula env rAttribs).maCellValue = st.maCellValue ∧
    (st.importFormula env rAttribs).mxInlineStr = st.mxInlineStr :=
  ⟨rfl, rfl, rfl, rfl, rfl, rfl, rfl, rfl, rfl⟩

/-- The log after closing a cell, case by case. -/
theorem onEndElement_log_eq (env : Env) (st : SheetDataContext) :
    (st.onEndElement env .XLS_c).mrSheetData =
      st.mrSheetData ++
        (if st.mbHasFormula = true then
          match st.maFmlaData.mnFormulaType with
          | .XML_normal => [.setFormulaCell st.maCellData st.maTokens]
          | .XML_shared =>
            if st.maFmlaData.mnSharedId ≥ 0 then
              (if (st.mbValidRange && st.maFmlaData.isValidSharedRef st.maCellData.maCellAddr)
                  = true
                then [.createSharedFormula st.maFmlaData.mnSharedId st.maTokens] else []) ++
                [.setFormulaCellShared st.maCellData st.maFmlaData.mnSharedId]
            else st.plainValueCalls env
          | .XML_array =>
            (if (st.mbValidRange && st.maFmlaData.isValidArrayRef st.maCellData.maCellAddr)
                = true
              then [.createArrayFormula st.maFmlaData.maFormulaRef st.maTokens] else []) ++
              [.setBlankCell st.maCellData]
          | .XML_dataTable =>
            (if st.mbValidRange = true
              then [.createTableOperation st.maFmlaData.maFormulaRef st.maTableData]
              else []) ++ [.setBlankCell st.maCellData]
          | _ => st.plainValueCalls env
        else st.plainValueCalls env) := by
  cases hF : st.mbHasFormula
  · simpa using onEndElement_value_path env st (Or.inl hF)
  · simp only [if_true]
    split
    · rename_i hT
      simp [SheetDataContext.onEndElement, SheetDataContext.endCellFormula, hF, hT,
        endCellValue_log, SheetDataContext.call]
    · rename_i hT
      by_cases hId : st.maFmlaData.mnSharedId ≥ 0
      · simp only [hId, if_true]
        cases hc : (st.mbValidRange && st.maFmlaData.isValidSharedRef st.maCellData.maCellAddr)
        · simp only [SheetDataContext.onEndElement, SheetDataContext.endCellFormula, hF, hT,
            hId, hc, if_true]
          simp [endCellValue_log, SheetDataContext.call, hF]
        · simp only [SheetDataContext.onEndElement, SheetDataContext.endCellFormula, hF, hT,
            hId, hc, if_true]
          simp [endCellValue_log, SheetDataContext.call, hF]
      · simp only [hId, if_false]
        exact onEndElement_value_path env st (Or.inr (Or.inr ⟨hT, by omega⟩))
    · rename_i hT
      cases hc : (st.mbValidRange && st.maFmlaData.isValidArrayRef st.maCellData.maCellAddr)
      · simp only [SheetDataContext.onEndElement, SheetDataContext.endCellFormula, hF, hT,
          hc, if_true]
        simp [endCellValue_log, SheetDataContext.call, hF]
      · simp only [SheetDataContext.onEndElement, SheetDataContext.endCellFormula, hF, hT,
          hc, if_true]
        simp [endCellValue_log, SheetDataContext.call, hF]
    · rename_i hT
      cases hc : st.mbValidRange
      · simp only [SheetDataContext.onEndElement, SheetDataContext.endCellFormula, hF, hT,
          hc, if_true]
        simp [endCellValue_log, SheetDataContext.call, hF]
      · simp only [SheetDataContext.onEndElement, SheetDataContext.endCellFormula, hF, hT,
          hc, if_true]
        simp [endCellValue_log, SheetDataContext.call, hF]
    · rename_i h1 h2 h3 h4
      apply onEndElement_value_path env st
      right; left
      cases hT : st.maFmlaData.mnFormulaType <;> simp_all [Token.isFormulaKind]

theorem onEndElement_log (env : Env) (st : SheetDataContext) :
    (st.onEndElement env .XLS_c).mrSheetData = st.mrSheetData ++ st.closingCalls env := by
  have h1 := onEndElement_log_eq env st
  have h2 := onEndElement_log_eq env { st with mrSheetData := [] }
  simp only [List.nil_append, plainValueCalls_eq] at h2
  unfold SheetDataContext.closingCalls
  rw [h1, h2]
  simp only [plainValueCalls_eq]

theorem onEndElement_other (env : Env) (st : SheetDataContext) (nCurr : Token)
    (h : nCurr ≠ .XLS_c) : st.onEndElement env nCurr = st := by
  simp [SheetDataContext.onEndElement, h]

theorem isValidArrayRef_eq (m : CellFormulaModel) (a : CellAddress) :
    m.isValidArrayRef a = m.maFormulaRef.hasAnchor a := rfl

theorem isValidSharedRef_eq (m : CellFormulaModel) (a : CellAddress) :
    m.isValidSharedRef a = m.maFormulaRef.hasAnchor a := rfl

/-! ## Calls over a sequence of handler calls -/

/-- The calls that closing a cell issues, case by case. -/
theorem closingCalls_eq (env : Env) (st : SheetDataContext) :
    st.closingCalls env =
      if st.mbHasFormula = true then
        match st.maFmlaData.mnFormulaType with
        | .XML_normal => [.setFormulaCell st.maCellData st.maTokens]
        | .XML_shared =>
          if st.maFmlaData.mnSharedId ≥ 0 then
            (if (st.mbValidRange && st.maFmlaData.isValidSharedRef st.maCellData.maCellAddr)
                = true
              then [.createSharedFormula st.maFmlaData.mnSharedId st.maTokens] else []) ++
              [.setFormulaCellShared st.maCellData st.maFmlaData.mnSharedId]
          else st.plainValueCalls env
        | .XML_array =>
          (if (st.mbValidRange && st.maFmlaData.isValidArrayRef st.maCellData.maCellAddr)
              = true
            then [.createArrayFormula st.maFmlaData.maFormulaRef st.maTokens] else []) ++
            [.setBlankCell st.maCellData]
        | .XML_dataTable =>
          (if st.mbValidRange = true
            then [.createTableOperation st.maFmlaData.maFormulaRef st.maTableData]
            else []) ++ [.setBlankCell st.maCellData]
        | _ => st.plainValueCalls env
      else st.plainValueCalls env := by
  have h2 := onEndElement_log_eq env { st with mrSheetData := [] }
  simp only [List.nil_append, plainValueCalls_eq] at h2
  unfold SheetDataContext.closingCalls
  rw [h2]
  simp only [plainValueCalls_eq]

theorem plainValueCalls_count_formula (env : Env) (st : SheetDataContext)
    (p : SinkCall → Bool) (hp : ∀ c, p c = true → c.isFormulaCall = true) :
    (st.plainValueCalls env).countP p = 0 := by
  rw [List.countP_eq_zero]
  intro c hc hpc
  have h := (plainValueCalls_no_formula env st c hc).1
  rw [hp c (by simpa using hpc)] at h
  exact absurd h (by decide)

theorem closingCalls_count_create (env : Env) (st : SheetDataContext) (g : Int) (hg : 0 ≤ g) :
    (st.closingCalls env).countP (SinkCall.isCreateSharedFor g) =
      if st.declaresShared g = true then 1 else 0 := by
  have hp : ∀ c, SinkCall.isCreateSharedFor g c = true → c.isFormulaCall = true := by
    intro c
    cases c <;> simp [SinkCall.isCreateSharedFor, SinkCall.isFormulaCall]
  have hpv := plainValueCalls_count_formula env st _ hp
  rw [closingCalls_eq]
  unfold SheetDataContext.declaresShared SheetDataContext.isSharedMember
  cases hF : st.mbHasFormula
  · simp [hpv]
  · simp only [if_true]
    split
    · rename_i hT
      simp [hT, SinkCall.isCreateSharedFor]
    · rename_i hT
      by_cases hId : st.maFmlaData.mnSharedId ≥ 0
      · simp only [hId, if_true, hT, isValidSharedRef_eq]
        cases hv : st.mbValidRange <;>
          by_cases ha : st.maFmlaData.maFormulaRef.hasAnchor st.maCellData.maCellAddr = true <;>
          by_cases hgi : st.maFmlaData.mnSharedId = g <;>
          simp [hgi, ha, SinkCall.isCreateSharedFor]
      · have hne : st.maFmlaData.mnSharedId ≠ g := by omega
        simp [hId, hT, hpv, hne]
    · rename_i hT
      simp only [hT]
      split <;> simp [SinkCall.isCreateSharedFor]
    · rename_i hT
      simp only [hT]
      split <;> simp [SinkCall.isCreateSharedFor]
    · rename_i h1 h2 h3 h4
      have hns : st.maFmlaData.mnFormulaType ≠ .XML_shared := h2
      simp [hpv, hns]

theorem closingCalls_count_ref (env : Env) (st : SheetDataContext) (g : Int) (hg : 0 ≤ g) :
    (st.closingCalls env).countP (SinkCall.isSharedRefTo g) =
      if st.isSharedMember g = true then 1 else 0 := by
  have hp : ∀ c, SinkCall.isSharedRefTo g c = true → c.isFormulaCall = true := by
    intro c
    cases c <;> simp [SinkCall.isSharedRefTo, SinkCall.isFormulaCall]
  have hpv := plainValueCalls_count_formula env st _ hp
  rw [closingCalls_eq]
  unfold SheetDataContext.isSharedMember
  cases hF : st.mbHasFormula
  · simp [hpv]
  · simp only [if_true]
    split
    · rename_i hT
      simp [hT, SinkCall.isSharedRefTo]
    · rename_i hT
      by_cases hId : st.maFmlaData.mnSharedId ≥ 0
      · simp only [hId, if_true, hT]
        by_cases hgi : st.maFmlaData.mnSharedId = g
        · split <;> simp_all [SinkCall.isSharedRefTo]
        · split <;> simp_all [SinkCall.isSharedRefTo]
      · have hne : st.maFmlaData.mnSharedId ≠ g := by omega
        simp [hId, hT, hpv, hne]
    · rename_i hT
      simp only [hT]
      split <;> simp [SinkCall.isSharedRefTo]
    · rename_i hT
      simp only [hT]
      split <;> simp [SinkCall.isSharedRefTo]
    · rename_i h1 h2 h3 h4
      have hns : st.maFmlaData.mnFormulaType ≠ .XML_shared := h2
      simp [hpv, hns]

/-- A call of the walker appends to the log the calls of closing the cell if it closes a
cell element, and otherwise at most a `setRowModel` or an `extendUsedArea` call. -/
theorem step_count (env : Env) (st : SheetDataContext) (c : HandlerCall)
    (p : SinkCall → Bool) (hrow : ∀ m, p (.setRowModel m) = false)
    (hext : ∀ a, p (.extendUsedArea a) = false) :
    (st.step env c).mrSheetData.countP p =
      st.mrSheetData.countP p +
        (if c.isCellEnd = true then (st.closingCalls env).countP p else 0) := by
  cases c with
  | characters nCurr rChars =>
    simp only [SheetDataContext.step, HandlerCall.isCellEnd]
    unfold SheetDataContext.onCharacters
    split
    · simp
    · split <;> simp
    · simp
  | endElement nCurr =>
    by_cases h : nCurr = .XLS_c
    · subst h
      simp [SheetDataContext.step, HandlerCall.isCellEnd, onEndElement_log]
    · have hce : HandlerCall.isCellEnd (.endElement nCurr) = false := by
        cases nCurr <;> simp_all [HandlerCall.isCellEnd]
      simp [SheetDataContext.step, onEndElement_other env st nCurr h, hce]
  | createContext nCurr nElement rAttribs =>
    simp only [SheetDataContext.step, HandlerCall.isCellEnd]
    unfold SheetDataContext.onCreateContext
    split
    · split
      · simp [SheetDataContext.importRow, hrow]
      · simp
    · split
      · have h9 : (st.importCell env rAttribs).2.mrSheetData =
            st.mrSheetData ++
              (if (st.importCell env rAttribs).1 then
                [.extendUsedArea (st.importCell env rAttribs).2.maCellData.maCellAddr]
               else []) := by
          unfold SheetDataContext.importCell
          by_cases hr : (rAttribs.getString .XML_r []).getLength > 0
          · cases hconv : env.mrAddressConv.convertToCellAddress
              (rAttribs.getString .XML_r []) st.mnSheet <;> simp [hr, hconv]
          · simp [hr]
        split <;> (rw [h9]; split <;> simp [hext])
      · simp
    · split
      · simp
      · simp
      · simp [SheetDataContext.importFormula]
      · simp
    · simp

theorem cellClosings_cons (env : Env) (st : SheetDataContext) (c : HandlerCall)
    (rest : List HandlerCall) :
    st.cellClosings env (c :: rest) =
      if c.isCellEnd = true then st :: (st.step env c).cellClosings env rest
      else (st.step env c).cellClosings env rest := by
  rw [SheetDataContext.cellClosings]

theorem run_count (env : Env) (calls : List HandlerCall) (p : SinkCall → Bool)
    (hrow : ∀ m, p (.setRowModel m) = false) (hext : ∀ a, p (.extendUsedArea a) = false)
    (q : SheetDataContext → Bool)
    (hq : ∀ s : SheetDataContext, (s.closingCalls env).countP p = if q s = true then 1 else 0) :
    ∀ st : SheetDataContext,
      (st.run env calls).mrSheetData.countP p =
        st.mrSheetData.countP p + (st.cellClosings env calls).countP q := by
  induction calls with
  | nil => intro st; simp [SheetDataContext.run, SheetDataContext.cellClosings]
  | cons c rest ih =>
    intro st
    have hs := step_count env st c p hrow hext
    have hr := ih (st.step env c)
    simp only [SheetDataContext.run, List.foldl_cons] at hr ⊢
    rw [hr, hs]
    rw [cellClosings_cons]
    by_cases hce : c.isCellEnd = true
    · simp only [hce, if_true, List.countP_cons, hq st]
      omega
    · simp only [hce, if_false]
      simp

/-! ## The data of the current cell -/

theorem onCharacters_sameCell (env : Env) (a b : SheetDataContext) (nCurr : Token)
    (rChars : OUString) (h : a.SameCell b) :
    (a.onCharacters env nCurr rChars).SameCell (b.onCharacters env nCurr rChars) := by
  unfold SheetDataContext.SameCell at h ⊢
  obtain ⟨h1, h2, h3, h4, h5, h6, h7, h8⟩ := h
  unfold SheetDataContext.onCharacters
  split
  · exact ⟨h1, h2, h3, h4, rfl, h6, h7, h8⟩
  · cases hF : a.mbHasFormula
    · have hFb : b.mbHasFormula = false := by rw [← h7, hF]
      split <;> split <;> simp_all
    · obtain ⟨t1, t2, t3, t4, t5, t6⟩ := h8 hF
      have hFb : b.mbHasFormula = true := by rw [← h7, hF]
      split <;> split <;> simp_all
  · exact ⟨h1, h2, h3, h4, h5, h6, h7, h8⟩

theorem endCellFormula_sameCell (a b : SheetDataContext) (h : a.SameCell b) :
    a.endCellFormula.SameCell b.endCellFormula := by
  obtain ⟨la, ca, fa, cura, sha, vala, isa, toka, tda, cpa, hfa, va⟩ := a
  obtain ⟨lb, cb, fb, curb, shb, valb, isb, tokb, tdb, cpb, hfb, vb⟩ := b
  obtain ⟨ra, ta, ida⟩ := fa
  obtain ⟨rb, tb, idb⟩ := fb
  simp only [SheetDataContext.SameCell] at h
  obtain ⟨h1, h2, h3, h4, h5, h6, h7, h8⟩ := h
  subst h1 h2 h3 h4 h5 h6 h7
  cases hfa
  · simp [SheetDataContext.endCellFormula, SheetDataContext.SameCell]
  · obtain ⟨t1, t2, t3, t4, t5, t6⟩ := h8 rfl
    subst t1 t2 t3 t4
    cases va
    · simp only [SheetDataContext.endCellFormula, SheetDataContext.SameCell,
        SheetDataContext.call, if_true, Bool.false_and, Bool.false_eq_true, if_false]
      split <;> try simp_all
      split <;> simp_all
    · have hr := t5 rfl
      subst hr
      by_cases hT : ta = .XML_dataTable
      · have hd := t6 hT
        subst hd
        subst hT
        simp [SheetDataContext.endCellFormula, SheetDataContext.SameCell,
          SheetDataContext.call]
      · simp only [SheetDataContext.endCellFormula, SheetDataContext.SameCell,
          SheetDataContext.call, if_true]
        split <;> try simp_all
        · split <;> simp_all
          split <;> simp_all
        · split <;> simp_all

theorem endCellValue_sameCell (env : Env) (a b : SheetDataContext) (h : a.SameCell b) :
    (a.endCellValue env).SameCell (b.endCellValue env) := by
  obtain ⟨la, ca, fa, cura, sha, vala, isa, toka, tda, cpa, hfa, va⟩ := a
  obtain ⟨lb, cb, fb, curb, shb, valb, isb, tokb, tdb, cpb, hfb, vb⟩ := b
  simp only [SheetDataContext.SameCell] at h
  obtain ⟨h1, h2, h3, h4, h5, h6, h7, h8⟩ := h
  subst h1 h2 h3 h4 h5 h6 h7
  cases hfa
  · simp only [SheetDataContext.endCellValue, SheetDataContext.SameCell,
      SheetDataContext.call, Bool.not_false, if_true]
    split
    · split <;> try simp
      split <;> simp
    · split <;> simp
  · simpa [SheetDataContext.endCellValue, SheetDataContext.SameCell] using h8

theorem importRow_sameCell (env : Env) (a b : SheetDataContext) (rAttribs : AttributeList)
    (h : a.SameCell b) : (a.importRow env rAttribs).SameCell (b.importRow env rAttribs) := by
  obtain ⟨la, ca, fa, cura, sha, vala, isa, toka, tda, cpa, hfa, va⟩ := a
  obtain ⟨lb, cb, fb, curb, shb, valb, isb, tokb, tdb, cpb, hfb, vb⟩ := b
  simp only [SheetDataContext.SameCell] at h
  obtain ⟨h1, h2, h3, h4, h5, h6, h7, h8⟩ := h
  subst h1 h2 h3 h4 h5 h6 h7
  simpa [SheetDataContext.importRow, SheetDataContext.importRowModel,
    SheetDataContext.SameCell] using h8

theorem importFormula_sameCell (env : Env) (a b : SheetDataContext) (rAttribs : AttributeList)
    (h : a.SameCell b) :
    (a.importFormula env rAttribs).SameCell (b.importFormula env rAttribs) := by
  obtain ⟨la, ca, fa, cura, sha, vala, isa, toka, tda, cpa, hfa, va⟩ := a
  obtain ⟨lb, cb, fb, curb, shb, valb, isb, tokb, tdb, cpb, hfb, vb⟩ := b
  simp only [SheetDataContext.SameCell] at h
  obtain ⟨h1, h2, h3, h4, h5, h6, h7, h8⟩ := h
  subst h1 h2 h3 h4 h5 h6 h7
  simp only [SheetDataContext.importFormula, SheetDataContext.SameCell, true_and,
    forall_const]
  refine ⟨?_, ?_⟩
  · intro hv
    cases hconv : env.mrAddressConv.convertTextToCellRange (rAttribs.getString .XML_ref [])
      sha with
    | none => simp [hconv] at hv
    | some r => simp
  · intro hT
    simp [hT]

/-- An accepted cell element brings two states with the same log, address cursor and sheet
to states that hold the same data of the current cell. -/
theorem importCell_sameCell (env : Env) (a b : SheetDataContext) (rAttribs : AttributeList)
    (hlog : a.mrSheetData = b.mrSheetData)
    (hcur : a.maLastCellAddress = b.maLastCellAddress) (hsheet : a.mnSheet = b.mnSheet)
    (hacc : (a.importCell env rAttribs).1 = true) :
    (b.importCell env rAttribs).1 = true ∧
    (a.importCell env rAttribs).2.SameCell (b.importCell env rAttribs).2 := by
  unfold SheetDataContext.importCell at hacc ⊢
  unfold SheetDataContext.SameCell
  by_cases hr : (rAttribs.getString .XML_r []).getLength > 0
  · cases hconv : env.mrAddressConv.convertToCellAddress (rAttribs.getString .XML_r [])
      a.mnSheet with
    | none => simp [hr, hconv] at hacc
    | some aAddr =>
      have hconvb : env.mrAddressConv.convertToCellAddress (rAttribs.getString .XML_r [])
          b.mnSheet = some aAddr := by rw [← hsheet, hconv]
      simp [hr, hconv, hconvb, hlog, hsheet]
  · simp [hr, hlog, hcur, hsheet]

theorem importCell_fst (env : Env) (st : SheetDataContext) (rAttribs : AttributeList) :
    (st.importCell env rAttribs).1 =
      if (rAttribs.getString .XML_r []).getLength > 0 then
        (env.mrAddressConv.convertToCellAddress (rAttribs.getString .XML_r [])
          st.mnSheet).isSome
      else true := by
  unfold SheetDataContext.importCell
  by_cases hr : (rAttribs.getString .XML_r []).getLength > 0
  · cases hconv : env.mrAddressConv.convertToCellAddress (rAttribs.getString .XML_r [])
      st.mnSheet <;> simp [hr, hconv]
  · simp [hr]

theorem importCell_rejected (env : Env) (st : SheetDataContext) (rAttribs : AttributeList)
    (h : (st.importCell env rAttribs).1 = false) : (st.importCell env rAttribs).2 = st := by
  unfold SheetDataContext.importCell at h ⊢
  by_cases hr : (rAttribs.getString .XML_r []).getLength > 0
  · cases hconv : env.mrAddressConv.convertToCellAddress (rAttribs.getString .XML_r [])
      st.mnSheet
    · simp [hr, hconv]
    · simp [hr, hconv] at h
  · simp [hr] at h

theorem importCell_sameCell_any (env : Env) (a b : SheetDataContext) (rAttribs : AttributeList)
    (h : a.SameCell b) :
    (a.importCell env rAttribs).1 = (b.importCell env rAttribs).1 ∧
    (a.importCell env rAttribs).2.SameCell (b.importCell env rAttribs).2 := by
  have h' := h
  unfold SheetDataContext.SameCell at h
  obtain ⟨h1, h2, h3, h4, h5, h6, h7, h8⟩ := h
  have hfst : (a.importCell env rAttribs).1 = (b.importCell env rAttribs).1 := by
    rw [importCell_fst, importCell_fst, h4]
  cases hacc : (a.importCell env rAttribs).1
  · have hb1 : (b.importCell env rAttribs).1 = false := by rw [← hfst, hacc]
    rw [importCell_rejected env a rAttribs hacc, importCell_rejected env b rAttribs hb1, hb1]
    exact ⟨rfl, h'⟩
  · have := importCell_sameCell env a b rAttribs h1 h3 h4 hacc
    exact ⟨this.1.symm, this.2⟩

theorem step_sameCell (env : Env) (a b : SheetDataContext) (c : HandlerCall)
    (h : a.SameCell b) : (a.step env c).SameCell (b.step env c) := by
  cases c with
  | characters nCurr rChars => exact onCharacters_sameCell env a b nCurr rChars h
  | endElement nCurr =>
    simp only [SheetDataContext.step, SheetDataContext.onEndElement]
    split
    · exact endCellValue_sameCell env _ _ (endCellFormula_sameCell a b h)
    · exact h
  | createContext nCurr nElement rAttribs =>
    simp only [SheetDataContext.step]
    unfold SheetDataContext.onCreateContext
    split
    · split
      · exact importRow_sameCell env a b rAttribs h
      · exact h
    · split
      · have hc := importCell_sameCell_any env a b rAttribs h
        rw [← hc.1]
        split <;> exact hc.2
      · exact h
    · split
      · unfold SheetDataContext.SameCell at h ⊢
        obtain ⟨h1, h2, h3, h4, h5, h6, h7, h8⟩ := h
        exact ⟨h1, h2, h3, h4, h5, rfl, h7, h8⟩
      · exact h
      · exact importFormula_sameCell env a b rAttribs h
      · exact h
    · exact h

theorem run_sameCell (env : Env) (calls : List HandlerCall) :
    ∀ a b : SheetDataContext, a.SameCell b → (a.run env calls).SameCell (b.run env calls) := by
  induction calls with
  | nil => intro a b h; exact h
  | cons c rest ih =>
    intro a b h
    simp only [SheetDataContext.run, List.foldl_cons]
    exact ih _ _ (step_sameCell env a b c h)

theorem step_log_prefix (env : Env) (st : SheetDataContext) (c : HandlerCall) :
    ∃ L, (st.step env c).mrSheetData = st.mrSheetData ++ L := by
  cases c with
  | characters nCurr rChars =>
    refine ⟨[], ?_⟩
    simp only [SheetDataContext.step, List.append_nil]
    unfold SheetDataContext.onCharacters
    split
    · rfl
    · split <;> rfl
    · rfl
  | endElement nCurr =>
    by_cases h : nCurr = .XLS_c
    · subst h
      exact ⟨_, onEndElement_log env st⟩
    · exact ⟨[], by simp [SheetDataContext.step, onEndElement_other env st nCurr h]⟩
  | createContext nCurr nElement rAttribs =>
    simp only [SheetDataContext.step]
    unfold SheetDataContext.onCreateContext
    split
    · split
      · exact ⟨_, rfl⟩
      · exact ⟨[], by simp⟩
    · split
      · have h9 : ∃ L, (st.importCell env rAttribs).2.mrSheetData = st.mrSheetData ++ L := by
          unfold SheetDataContext.importCell
          by_cases hr : (rAttribs.getString .XML_r []).getLength > 0
          · cases hconv : env.mrAddressConv.convertToCellAddress
              (rAttribs.getString .XML_r []) st.mnSheet
            · exact ⟨[], by simp [hr, hconv]⟩
            · exact ⟨_, by simp [hr, hconv]; rfl⟩
          · exact ⟨_, by simp [hr]; rfl⟩
        split <;> exact h9
      · exact ⟨[], by simp⟩
    · split
      · exact ⟨[], by simp⟩
      · exact ⟨[], by simp⟩
      · exact ⟨[], by simp [SheetDataContext.importFormula]⟩
      · exact ⟨[], by simp⟩
    · exact ⟨[], by simp⟩

theorem run_log_prefix (env : Env) (calls : List HandlerCall) :
    ∀ st : SheetDataContext, ∃ L, (st.run env calls).mrSheetData = st.mrSheetData ++ L := by
  induction calls with
  | nil => intro st; exact ⟨[], by simp [SheetDataContext.run]⟩
  | cons c rest ih =>
    intro st
    obtain ⟨L1, h1⟩ := step_log_prefix env st c
    obtain ⟨L2, h2⟩ := ih (st.step env c)
    refine ⟨L1 ++ L2, ?_⟩
    simp only [SheetDataContext.run, List.foldl_cons] at h2 ⊢
    rw [h2, h1, List.append_assoc]

/-! ## Claims on formulas, cell values and cell state -/

/-- C11 (counterexample): over the sequence of the two member cells `A1` and `B1` of
group 7, each with a range declaration that starts at the cell itself,
`createSharedFormula( 7, tokens )` is called twice; over the sequence of the single member
cell `A2` without range declaration it is not called at all, although the cell gets its
`setFormulaCell( cell, 7 )`. -/
theorem C11_counterexample :
    (sampleRow.run sampleEnv sampleTwoDeclarations).mrSheetData.countP
        (SinkCall.isCreateSharedFor 7) = 2 ∧
    (sampleRow.run sampleEnv sampleNoDeclaration).mrSheetData.countP
        (SinkCall.isCreateSharedFor 7) = 0 ∧
    (sampleRow.run sampleEnv sampleNoDeclaration).mrSheetData.countP
        (SinkCall.isSharedRefTo 7) = 1 := by
  decide

/-- C11 (amended): over every sequence of handler calls and for every group id g that is
not negative, the number of `createSharedFormula( g, tokens )` calls added to the log is
the number of closed member cells of g that carry a range declaration which was converted
and whose anchor is the cell itself, and the number of `setFormulaCell( cell, g )` calls
added is the number of closed member cells of g. -/
theorem C11_shared_formula_registered_per_declaring_cell (env : Env) (st : SheetDataContext)
    (calls : List HandlerCall) (g : Int) (hg : 0 ≤ g) :
    (st.run env calls).mrSheetData.countP (SinkCall.isCreateSharedFor g) =
      st.mrSheetData.countP (SinkCall.isCreateSharedFor g) +
        (st.cellClosings env calls).countP (SheetDataContext.declaresShared g) ∧
    (st.run env calls).mrSheetData.countP (SinkCall.isSharedRefTo g) =
      st.mrSheetData.countP (SinkCall.isSharedRefTo g) +
        (st.cellClosings env calls).countP (SheetDataContext.isSharedMember g) :=
  ⟨run_count env calls _ (fun _ => rfl) (fun _ => rfl) _
      (fun s => closingCalls_count_create env s g hg) st,
   run_count env calls _ (fun _ => rfl) (fun _ => rfl) _
      (fun s => closingCalls_count_ref env s g hg) st⟩

/-- Witness of C11 (amended): in the sequence of the two declaring member cells of group
7 both closed cells count, and `createSharedFormula( 7, tokens )` is called twice. -/
theorem C11_witness :
    (sampleRow.cellClosings sampleEnv sampleTwoDeclarations).countP
        (SheetDataContext.declaresShared 7) = 2 ∧
    (sampleRow.run sampleEnv sampleTwoDeclarations).mrSheetData.countP
        (SinkCall.isCreateSharedFor 7) =
      sampleRow.mrSheetData.countP (SinkCall.isCreateSharedFor 7) +
        (sampleRow.cellClosings sampleEnv sampleTwoDeclarations).countP
          (SheetDataContext.declaresShared 7) :=
  ⟨by decide,
   (C11_shared_formula_registered_per_declaring_cell sampleEnv sampleRow
      sampleTwoDeclarations 7 (by decide)).1⟩

/-- C12: closing a cell whose formula kind is shared and whose group id is negative
issues the calls of the value part and nothing else: no `setFormulaCell` and no
`createSharedFormula`, and exactly the calls that closing issues for a state `st0` of the
same cell (same cell data, value text and inline string) without formula. -/
theorem C12_shared_without_id_takes_value_path (env : Env) (st st0 : SheetDataContext)
    (hType : st.maFmlaData.mnFormulaType = .XML_shared)
    (hId : st.maFmlaData.mnSharedId < 0)
    (h0 : st0.mbHasFormula = false) (hcell : st0.maCellData = st.maCellData)
    (hval : st0.maCellValue = st.maCellValue) (hstr : st0.mxInlineStr = st.mxInlineStr) :
    (st.onEndElement env .XLS_c).mrSheetData = st.mrSheetData ++ st.plainValueCalls env ∧
    (st0.onEndElement env .XLS_c).mrSheetData = st0.mrSheetData ++ st.plainValueCalls env ∧
    ∀ c ∈ st.plainValueCalls env, c.isFormulaCall = false := by
  refine ⟨onEndElement_value_path env st (Or.inr (Or.inr ⟨hType, hId⟩)), ?_, ?_⟩
  · rw [onEndElement_value_path env st0 (Or.inl h0),
      plainValueCalls_congr env st0 st hcell hval hstr]
  · intro c hc
    exact (plainValueCalls_no_formula env st c hc).1

/-- Witness of C12: the numeric cell `A1` with value text `5` and a shared formula
element without group id, and the same cell without formula element. -/
theorem C12_witness :
    sampleNoIdCell.mbHasFormula = true ∧
    (sampleNoIdCell.onEndElement sampleEnv .XLS_c).mrSheetData =
      sampleNoIdCell.mrSheetData ++ sampleNoIdCell.plainValueCalls sampleEnv ∧
    (samplePlainCell.onEndElement sampleEnv .XLS_c).mrSheetData =
      samplePlainCell.mrSheetData ++ sampleNoIdCell.plainValueCalls sampleEnv :=
  ⟨by decide,
   (C12_shared_without_id_takes_value_path sampleEnv sampleNoIdCell samplePlainCell
      (by decide) (by decide) (by decide) (by decide) (by decide) (by decide)).1,
   (C12_shared_without_id_takes_value_path sampleEnv sampleNoIdCell samplePlainCell
      (by decide) (by decide) (by decide) (by decide) (by decide) (by decide)).2.1⟩

/-- C13: `createArrayFormula( range, tokens )` is called if and only if the declared range
was converted and the address of the current cell is the top-left cell of that range: in
`onEndElement` for a cell with an array formula (followed by `setBlankCell`), in the
BIFF12 `importArray` and in the legacy `importArray`. -/
theorem C13_array_formula_registered_iff_anchor (env : Env) (renv : RecordEnv) :
    (∀ st : SheetDataContext, st.mbHasFormula = true →
      st.maFmlaData.mnFormulaType = .XML_array →
      (st.onEndElement env .XLS_c).mrSheetData =
        st.mrSheetData ++
          (if st.mbValidRange = true ∧
              st.maFmlaData.maFormulaRef.hasAnchor st.maCellData.maCellAddr = true
            then [.createArrayFormula st.maFmlaData.maFormulaRef st.maTokens] else []) ++
          [.setBlankCell st.maCellData]) ∧
    (∀ (st : SheetDataContext) (rStrm : BinaryInputStream),
      (st.importArray env renv rStrm).2.mrSheetData =
        st.mrSheetData ++
          match env.mrAddressConv.convertBinToCellRange rStrm.readBinRange12.1 st.mnSheet with
          | some aRange =>
            if aRange.hasAnchor st.maCellData.maCellAddr = true then
              [.createArrayFormula aRange
                (renv.importFormula st.maCellData.maCellAddr .FORMULATYPE_ARRAY
                  (rStrm.readBinRange12.2.skip 1)).1]
            else []
          | none => []) ∧
    (∀ (st : BiffSheetDataContext) (rStrm : BinaryInputStream) (nArraySkipSize : Nat),
      st.mnArraySkipSize = some nArraySkipSize →
      ∃ res, st.importArray env renv rStrm = some res ∧
        res.2.mrSheetData =
          st.mrSheetData ++
            match env.mrAddressConv.convertBinToCellRange rStrm.readBinRangeBiff.1
                st.mnSheet with
            | some aRange =>
              if aRange.hasAnchor st.maCellData.maCellAddr = true then
                [.createArrayFormula aRange
                  (renv.importFormula st.maCellData.maCellAddr .FORMULATYPE_ARRAY
                    (rStrm.readBinRangeBiff.2.skip nArraySkipSize)).1]
              else []
            | none => []) := by
  refine ⟨?_, ?_, ?_⟩
  · intro st hF hT
    rw [onEndElement_log_eq, hF, hT]
    simp only [if_true, isValidArrayRef_eq, Bool.and_eq_true, List.append_assoc]
  · intro st rStrm
    unfold SheetDataContext.importArray SheetDataContext.readFormulaRef
    cases hconv : env.mrAddressConv.convertBinToCellRange rStrm.readBinRange12.1 st.mnSheet with
    | none => simp
    | some aRange =>
      simp only [Option.isSome_some, Bool.true_and, Option.getD_some, isValidArrayRef_eq]
      split <;> simp_all [SheetDataContext.call]
  · intro st rStrm n hn
    unfold BiffSheetDataContext.importArray BiffSheetDataContext.readFormulaRef
    cases hconv : env.mrAddressConv.convertBinToCellRange rStrm.readBinRangeBiff.1 st.mnSheet with
    | none => simp
    | some aRange =>
      simp only [Option.isSome_some, Bool.true_and, Option.getD_some, isValidArrayRef_eq, hn]
      split <;> simp_all [BiffSheetDataContext.call]

/-- Witness of C13: the cell `A1` with an array formula for `A1:B2` registers the array
formula; an ARRAY record for the range from column 1, row 1 registers it at the current
cell `B2` in BIFF12 and in BIFF5. -/
theorem C13_witness :
    (sampleArrayCell.onEndElement sampleEnv .XLS_c).mrSheetData =
      sampleArrayCell.mrSheetData ++
        [.createArrayFormula sampleArrayCell.maFmlaData.maFormulaRef sampleArrayCell.maTokens,
         .setBlankCell sampleArrayCell.maCellData] ∧
    (∃ res, (BiffSheetDataContext.importArray sampleEnv sampleRecordEnv sampleBiffCell
        { maData := [1, 0, 2, 0, 1, 2, 0, 0, 0, 0, 0, 0, 9], mbEof := false }) = some res ∧
      res.2.mrSheetData = sampleBiffCell.mrSheetData ++
        [.createArrayFormula { Sheet := 0, StartColumn := 1, StartRow := 1, EndColumn := 2,
                               EndRow := 2 } [9]]) := by
  refine ⟨?_, ?_⟩
  · have h := (C13_array_formula_registered_iff_anchor sampleEnv sampleRecordEnv).1
      sampleArrayCell (by decide) (by decide)
    rw [if_pos (by decide)] at h
    rw [h]
    simp
  · obtain ⟨res, h1, h2⟩ := (C13_array_formula_registered_iff_anchor sampleEnv
      sampleRecordEnv).2.2 sampleBiffCell
      { maData := [1, 0, 2, 0, 1, 2, 0, 0, 0, 0, 0, 0, 9], mbEof := false } 6 (by decide)
    refine ⟨res, h1, ?_⟩
    rw [h2]
    decide

/-- C14 (counterexample): the cell `B2` carries a table operation declared for the range
`A1:C3`; the cell is not the top-left cell of the range, and closing it calls
`createTableOperation` all the same. -/
theorem C14_counterexample :
    sampleTableCell.maFmlaData.maFormulaRef.hasAnchor sampleTableCell.maCellData.maCellAddr
      = false ∧
    SinkCall.createTableOperation
        { Sheet := 0, StartColumn := 0, StartRow := 0, EndColumn := 2, EndRow := 2 }
        sampleTableCell.maTableData ∈
      (sampleTableCell.onEndElement sampleEnv .XLS_c).mrSheetData ∧
    SinkCall.createTableOperation
        { Sheet := 0, StartColumn := 0, StartRow := 0, EndColumn := 2, EndRow := 2 }
        sampleTableCell.maTableData ∉ sampleTableCell.mrSheetData := by
  decide

/-- C14 (amended): `createTableOperation( range, tableData )` is called if and only if the
declared range was converted, whatever the address of the current cell: in `onEndElement`
for a cell with a table operation (followed by `setBlankCell`), in the BIFF12
`importDataTable` and in the legacy `importDataTable`. -/
theorem C14_table_operation_registered_iff_range_valid (env : Env) (renv : RecordEnv) :
    (∀ st : SheetDataContext, st.mbHasFormula = true →
      st.maFmlaData.mnFormulaType = .XML_dataTable →
      (st.onEndElement env .XLS_c).mrSheetData =
        st.mrSheetData ++
          (if st.mbValidRange = true
            then [.createTableOperation st.maFmlaData.maFormulaRef st.maTableData] else []) ++
          [.setBlankCell st.maCellData]) ∧
    (∀ (st : SheetDataContext) (rStrm : BinaryInputStream),
      (env.mrAddressConv.convertBinToCellRange rStrm.readBinRange12.1 st.mnSheet = none →
        (st.importDataTable env renv rStrm).2.mrSheetData = st.mrSheetData) ∧
      (∀ aRange,
        env.mrAddressConv.convertBinToCellRange rStrm.readBinRange12.1 st.mnSheet
          = some aRange →
        (st.importDataTable env renv rStrm).2.mrSheetData =
          st.mrSheetData ++
            [.createTableOperation aRange (st.importDataTable env renv rStrm).2.maTableData])) ∧
    (∀ (st : BiffSheetDataContext) (rStrm : BinaryInputStream) (nRecId : Nat),
      (env.mrAddressConv.convertBinToCellRange rStrm.readBinRangeBiff.1 st.mnSheet = none →
        (st.importDataTable env renv rStrm nRecId).2.mrSheetData = st.mrSheetData) ∧
      (∀ aRange,
        env.mrAddressConv.convertBinToCellRange rStrm.readBinRangeBiff.1 st.mnSheet
          = some aRange →
        ∃ aModel, (st.importDataTable env renv rStrm nRecId).2.mrSheetData =
          st.mrSheetData ++ [.createTableOperation aRange aModel])) := by
  refine ⟨?_, ?_, ?_⟩
  · intro st hF hT
    rw [onEndElement_log_eq, hF, hT]
    simp only [if_true, List.append_assoc]
  · intro st rStrm
    unfold SheetDataContext.importDataTable SheetDataContext.readFormulaRef
    refine ⟨fun h => by simp [h], fun aRange h => by simp [h, SheetDataContext.call]⟩
  · intro st rStrm nRecId
    unfold BiffSheetDataContext.importDataTable BiffSheetDataContext.readFormulaRef
    refine ⟨fun h => by simp [h], fun aRange h => ?_⟩
    simp only [h, Option.isSome_some, if_true, Option.getD_some, BiffSheetDataContext.call]
    exact ⟨_, rfl⟩

/-- Witness of C14 (amended): closing the cell `B2` with a table operation for `A1:C3`
calls `createTableOperation` and `setBlankCell`; a DATATABLE record for the range from
column 0, row 0 is registered at the current cell `B2` in BIFF12 and in BIFF5. -/
theorem C14_witness :
    (sampleTableCell.onEndElement sampleEnv .XLS_c).mrSheetData =
      sampleTableCell.mrSheetData ++
        [.createTableOperation sampleTableCell.maFmlaData.maFormulaRef
            sampleTableCell.maTableData,
         .setBlankCell sampleTableCell.maCellData] ∧
    (sampleRecCell.importDataTable sampleBoundedEnv sampleRecordEnv
        { maData := [0, 0, 0, 0, 2, 0, 0, 0, 0, 0, 0, 0, 2, 0, 0, 0], mbEof := false }).2.mrSheetData =
      sampleRecCell.mrSheetData ++
        [.createTableOperation
          { Sheet := 0, StartColumn := 0, StartRow := 0, EndColumn := 2, EndRow := 2 }
          (sampleRecCell.importDataTable sampleBoundedEnv sampleRecordEnv
            { maData := [0, 0, 0, 0, 2, 0, 0, 0, 0, 0, 0, 0, 2, 0, 0, 0],
              mbEof := false }).2.maTableData] ∧
    (∃ aModel, (sampleBiffCell.importDataTable sampleBoundedEnv sampleRecordEnv
        { maData := [0, 0, 2, 0, 0, 2], mbEof := false } BIFF3_ID_DATATABLE).2.mrSheetData =
      sampleBiffCell.mrSheetData ++
        [.createTableOperation
          { Sheet := 0, StartColumn := 0, StartRow := 0, EndColumn := 2, EndRow := 2 }
          aModel]) := by
  refine ⟨?_, ?_, ?_⟩
  · have h := (C14_table_operation_registered_iff_range_valid sampleEnv sampleRecordEnv).1
      sampleTableCell (by decide) (by decide)
    rw [if_pos (by decide)] at h
    rw [h]
    simp
  · exact ((C14_table_operation_registered_iff_range_valid sampleBoundedEnv
      sampleRecordEnv).2.1 sampleRecCell _).2 _ (by decide)
  · exact ((C14_table_operation_registered_iff_range_valid sampleBoundedEnv
      sampleRecordEnv).2.2 sampleBiffCell _ BIFF3_ID_DATATABLE).2 _ (by decide)

/-- C15: closing a cell whose formula kind is array or table operation adds exactly one
cell setter call to the log, the call `setBlankCell` for the cell, whatever the cell
type, the value text and the inline string. -/
theorem C15_array_and_table_cells_get_one_blank (env : Env) (st : SheetDataContext)
    (hFmla : st.mbHasFormula = true)
    (hType : st.maFmlaData.mnFormulaType = .XML_array ∨
      st.maFmlaData.mnFormulaType = .XML_dataTable) :
    (st.onEndElement env .XLS_c).mrSheetData.filter SinkCall.isCellSetter =
      st.mrSheetData.filter SinkCall.isCellSetter ++ [.setBlankCell st.maCellData] := by
  rw [onEndElement_log_eq, hFmla]
  rcases hType with hT | hT
  · rw [hT]
    simp only [if_true]
    split <;> simp [List.filter_append, SinkCall.isCellSetter]
  · rw [hT]
    simp only [if_true]
    split <;> simp [List.filter_append, SinkCall.isCellSetter]

/-- Witness of C15: the cell `A1` with an array formula, a value text and the type `n`
gets `setBlankCell` as its only setter call. -/
theorem C15_witness :
    (sampleArrayCell.onEndElement sampleEnv .XLS_c).mrSheetData.filter SinkCall.isCellSetter =
      sampleArrayCell.mrSheetData.filter SinkCall.isCellSetter ++
        [.setBlankCell sampleArrayCell.maCellData] ∧
    (sampleTableCell.onEndElement sampleEnv .XLS_c).mrSheetData.filter SinkCall.isCellSetter =
      sampleTableCell.mrSheetData.filter SinkCall.isCellSetter ++
        [.setBlankCell sampleTableCell.maCellData] :=
  ⟨C15_array_and_table_cells_get_one_blank sampleEnv sampleArrayCell (by decide)
      (Or.inl (by decide)),
   C15_array_and_table_cells_get_one_blank sampleEnv sampleTableCell (by decide)
      (Or.inr (by decide))⟩

/-- C16 (counterexample): the formula element of the cell `A1` has the kind `n`, which is
no formula kind; its text is handed to the formula parser all the same, and the tokens
of the parser replace the empty token sequence. -/
theorem C16_counterexample :
    sampleUnknownKindCell.mbHasFormula = true ∧
    sampleUnknownKindCell.maFmlaData.mnFormulaType.isFormulaKind = false ∧
    sampleUnknownKindCell.maTokens = [] ∧
    (sampleUnknownKindCell.onCharacters sampleEnv .XLS_f ['B', '1']).maTokens =
      sampleEnv.importFormula sampleUnknownKindCell.maCellData.maCellAddr ['B', '1'] ∧
    (sampleUnknownKindCell.onCharacters sampleEnv .XLS_f ['B', '1']).maTokens = [66, 49] := by
  decide

/-- C16 (amended): for a formula element whose kind is none of normal, shared, array and
table operation, the text is not handed to the formula parser if the kind is the invalid
token (the context stays as it is), and is handed to it otherwise; in both cases closing
the cell issues no formula call but the calls of the value part, the same as for a state
`st0` of the same cell without formula. -/
theorem C16_unknown_formula_kind_takes_value_path (env : Env) (st st0 : SheetDataContext)
    (rChars : OUString)
    (hKind : st.maFmlaData.mnFormulaType.isFormulaKind = false)
    (h0 : st0.mbHasFormula = false) (hcell : st0.maCellData = st.maCellData)
    (hval : st0.maCellValue = st.maCellValue) (hstr : st0.mxInlineStr = st.mxInlineStr) :
    (st.maFmlaData.mnFormulaType = .XML_TOKEN_INVALID →
      st.onCharacters env .XLS_f rChars = st) ∧
    (st.maFmlaData.mnFormulaType ≠ .XML_TOKEN_INVALID →
      (st.onCharacters env .XLS_f rChars).maTokens =
        env.importFormula st.maCellData.maCellAddr rChars) ∧
    ((st.onCharacters env .XLS_f rChars).onEndElement env .XLS_c).mrSheetData =
      st.mrSheetData ++ st.plainValueCalls env ∧
    (st0.onEndElement env .XLS_c).mrSheetData = st0.mrSheetData ++ st.plainValueCalls env ∧
    ∀ c ∈ st.plainValueCalls env, c.isFormulaCall = false := by
  refine ⟨?_, ?_, ?_, ?_, ?_⟩
  · intro h
    simp [SheetDataContext.onCharacters, h]
  · intro h
    simp [SheetDataContext.onCharacters, h]
  · have hk : (st.onCharacters env .XLS_f rChars).maFmlaData.mnFormulaType.isFormulaKind
        = false := by
      unfold SheetDataContext.onCharacters
      simp only
      split <;> exact hKind
    rw [onEndElement_value_path env _ (Or.inr (Or.inl hk))]
    have hc : (st.onCharacters env .XLS_f rChars).plainValueCalls env =
        st.plainValueCalls env := by
      apply plainValueCalls_congr <;>
        (unfold SheetDataContext.onCharacters; simp only; split <;> rfl)
    have hl : (st.onCharacters env .XLS_f rChars).mrSheetData = st.mrSheetData := by
      unfold SheetDataContext.onCharacters
      simp only
      split <;> rfl
    rw [hc, hl]
  · rw [onEndElement_value_path env st0 (Or.inl h0),
      plainValueCalls_congr env st0 st hcell hval hstr]
  · intro c hc
    exact (plainValueCalls_no_formula env st c hc).1

/-- Witness of C16 (amended): the cell `A1` with a formula element of the kind `n` and
the text `B1`, and the same cell without formula element. -/
theorem C16_witness :
    ((sampleUnknownKindCell.onCharacters sampleEnv .XLS_f ['B', '1']).onEndElement sampleEnv
        .XLS_c).mrSheetData =
      sampleUnknownKindCell.mrSheetData ++ sampleUnknownKindCell.plainValueCalls sampleEnv ∧
    (sampleEmptyCell.onEndElement sampleEnv .XLS_c).mrSheetData =
      sampleEmptyCell.mrSheetData ++ sampleUnknownKindCell.plainValueCalls sampleEnv :=
  ⟨(C16_unknown_formula_kind_takes_value_path sampleEnv sampleUnknownKindCell sampleEmptyCell
      ['B', '1'] (by decide) (by decide) (by decide) (by decide) (by decide)).2.2.1,
   (C16_unknown_formula_kind_takes_value_path sampleEnv sampleUnknownKindCell sampleEmptyCell
      ['B', '1'] (by decide) (by decide) (by decide) (by decide) (by decide)).2.2.2.1⟩

/-- C17: a formula whose declared range does not convert registers nothing and does not
stop the import.  In the element format `importFormula` clears the range validity, and
closing the cell issues only its setter call: `setFormulaCell` with the group id for a
shared formula with a group id, `setBlankCell` for an array formula or a table
operation.  In the binary formats `importArray`, `importSharedFmla` and
`importDataTable` return with the context as it was. -/
theorem C17_invalid_range_registers_nothing (env : Env) (renv : RecordEnv) :
    (∀ (st : SheetDataContext) (rAttribs : AttributeList),
      env.mrAddressConv.convertTextToCellRange (rAttribs.getString .XML_ref []) st.mnSheet
        = none →
      (st.importFormula env rAttribs).mbValidRange = false ∧
      (st.importFormula env rAttribs).mbHasFormula = true) ∧
    (∀ st : SheetDataContext, st.mbHasFormula = true → st.mbValidRange = false →
      (st.maFmlaData.mnFormulaType = .XML_shared → st.maFmlaData.mnSharedId ≥ 0 →
        (st.onEndElement env .XLS_c).mrSheetData =
          st.mrSheetData ++ [.setFormulaCellShared st.maCellData st.maFmlaData.mnSharedId]) ∧
      (st.maFmlaData.mnFormulaType = .XML_array ∨
          st.maFmlaData.mnFormulaType = .XML_dataTable →
        (st.onEndElement env .XLS_c).mrSheetData =
          st.mrSheetData ++ [.setBlankCell st.maCellData])) ∧
    (∀ (st : SheetDataContext) (rStrm : BinaryInputStream),
      env.mrAddressConv.convertBinToCellRange rStrm.readBinRange12.1 st.mnSheet = none →
      st.importArray env renv rStrm = (rStrm.readBinRange12.2, st) ∧
      st.importSharedFmla env renv rStrm = (rStrm.readBinRange12.2, st) ∧
      st.importDataTable env renv rStrm = (rStrm.readBinRange12.2, st)) ∧
    (∀ (st : BiffSheetDataContext) (rStrm : BinaryInputStream) (nRecId : Nat),
      env.mrAddressConv.convertBinToCellRange rStrm.readBinRangeBiff.1 st.mnSheet = none →
      st.importArray env renv rStrm = some (rStrm.readBinRangeBiff.2, st) ∧
      st.importSharedFmla env renv rStrm = (rStrm.readBinRangeBiff.2, st) ∧
      st.importDataTable env renv rStrm nRecId = (rStrm.readBinRangeBiff.2, st)) := by
  refine ⟨?_, ?_, ?_, ?_⟩
  · intro st rAttribs h
    simp [SheetDataContext.importFormula, h]
  · intro st hF hV
    refine ⟨fun hT hId => ?_, fun hT => ?_⟩
    · rw [onEndElement_log_eq, hF, hT]
      simp [hId, hV]
    · rw [onEndElement_log_eq, hF]
      rcases hT with hT | hT <;> rw [hT] <;> simp [hV]
  · intro st rStrm h
    simp [SheetDataContext.importArray, SheetDataContext.importSharedFmla,
      SheetDataContext.importDataTable, SheetDataContext.readFormulaRef, h]
  · intro st rStrm nRecId h
    simp [BiffSheetDataContext.importArray, BiffSheetDataContext.importSharedFmla,
      BiffSheetDataContext.importDataTable, BiffSheetDataContext.readFormulaRef, h]

/-- Witness of C17: the cell `A1` with an array formula without range gets `setBlankCell`
only; a BIFF12 ARRAY record whose range starts at column 2000 and a BIFF5 SHAREDFMLA
record whose range runs from row 2 back to row 1 leave the context as it was. -/
theorem C17_witness :
    (sampleBadRangeCell.onEndElement sampleEnv .XLS_c).mrSheetData =
      sampleBadRangeCell.mrSheetData ++ [.setBlankCell sampleBadRangeCell.maCellData] ∧
    sampleRecCell.importArray sampleBoundedEnv sampleRecordEnv
        { maData := [0, 0, 0, 0, 2, 0, 0, 0, 208, 7, 0, 0, 209, 7, 0, 0, 5], mbEof := false } =
      ({ maData := [5], mbEof := false }, sampleRecCell) ∧
    sampleBiffCell.importSharedFmla sampleBoundedEnv sampleRecordEnv
        { maData := [2, 0, 1, 0, 1, 2, 5], mbEof := false } =
      ({ maData := [5], mbEof := false }, sampleBiffCell) := by
  refine ⟨?_, ?_, ?_⟩
  · exact ((C17_invalid_range_registers_nothing sampleEnv sampleRecordEnv).2.1
      sampleBadRangeCell (by decide) (by decide)).2 (Or.inl (by decide))
  · exact ((C17_invalid_range_registers_nothing sampleBoundedEnv sampleRecordEnv).2.2.1
      sampleRecCell _ (by decide)).1
  · exact ((C17_invalid_range_registers_nothing sampleBoundedEnv sampleRecordEnv).2.2.2
      sampleBiffCell { maData := [2, 0, 1, 0, 1, 2, 5], mbEof := false } 0
      (by decide)).2.1

/-- C18: closing a cell of the date type without formula and with a value text that is
not empty issues exactly one call: `setDateTimeCell` with the parsed date if the text
parses as a date, and `setErrorCell` with the unchanged text if it does not. -/
theorem C18_date_cell (env : Env) (st : SheetDataContext)
    (hFmla : st.mbHasFormula = false) (hType : st.maCellData.mnCellType = .XML_d)
    (hVal : st.maCellValue.getLength > 0) :
    (st.onEndElement env .XLS_c).mrSheetData =
      st.mrSheetData ++
        [match env.parseISO8601DateTime st.maCellValue with
         | some dateTime => .setDateTimeCell st.maCellData dateTime
         | none => .setErrorCell st.maCellData st.maCellValue] := by
  rw [onEndElement_log_eq, hFmla, plainValueCalls_eq, hType]
  simp only [Bool.false_eq_true, if_false, hVal, if_true]
  cases env.parseISO8601DateTime st.maCellValue <;> rfl

/-- Witness of C18: the date cell `A1` with the text `soon`, which the sample date parser
does not accept, gets one `setErrorCell` with that text. -/
theorem C18_witness :
    (sampleDateCell.onEndElement sampleEnv .XLS_c).mrSheetData =
      sampleDateCell.mrSheetData ++
        [.setErrorCell sampleDateCell.maCellData ['s', 'o', 'o', 'n']] := by
  have h := C18_date_cell sampleEnv sampleDateCell (by decide) (by decide) (by decide)
  rw [h]
  decide

/-- C19: closing a cell without formula, with an empty value text and with a type other
than inline string issues exactly one call, `setBlankCell` with the cell type reset to
the invalid token, and the cell data of the context has that type afterwards. -/
theorem C19_empty_value_is_blank (env : Env) (st : SheetDataContext)
    (hFmla : st.mbHasFormula = false) (hVal : st.maCellValue = [])
    (hType : st.maCellData.mnCellType ≠ .XML_inlineStr) :
    (st.onEndElement env .XLS_c).mrSheetData =
      st.mrSheetData ++
        [.setBlankCell { st.maCellData with mnCellType := .XML_TOKEN_INVALID }] ∧
    (st.onEndElement env .XLS_c).maCellData =
      { st.maCellData with mnCellType := .XML_TOKEN_INVALID } := by
  refine ⟨?_, ?_⟩
  · rw [onEndElement_log_eq, hFmla, plainValueCalls_eq, hVal]
    simp [OUString.getLength, hType]
  · simp [SheetDataContext.onEndElement, SheetDataContext.endCellFormula,
      SheetDataContext.endCellValue, hFmla, hVal, OUString.getLength, hType]

/-- Witness of C19: the numeric cell `A1` without value element gets one `setBlankCell`
with the type reset. -/
theorem C19_witness :
    (sampleEmptyCell.onEndElement sampleEnv .XLS_c).mrSheetData =
      sampleEmptyCell.mrSheetData ++
        [.setBlankCell { sampleEmptyCell.maCellData with mnCellType := .XML_TOKEN_INVALID }] :=
  (C19_empty_value_is_blank sampleEnv sampleEmptyCell (by decide) (by decide) (by decide)).1

/-- C20: two states of the context with the same log, address cursor and sheet, whatever
formula kind, group id, range, range validity, tokens, table data, value text, formula
flag and inline string they hold from earlier cells, accept the same cell element, and
the calls issued from the start of an accepted cell element over any sequence of further
handler calls (its children and its end) are the same list for both. -/
theorem C20_cell_calls_independent_of_leftover_state (env : Env) (s1 s2 : SheetDataContext)
    (rAttribs : AttributeList) (body : List HandlerCall)
    (hlog : s1.mrSheetData = s2.mrSheetData)
    (hcur : s1.maLastCellAddress = s2.maLastCellAddress) (hsheet : s1.mnSheet = s2.mnSheet)
    (hacc : (s1.importCell env rAttribs).1 = true) :
    (s2.importCell env rAttribs).1 = true ∧
    ∃ L, (s1.run env (.createContext .XLS_row .XLS_c rAttribs :: body)).mrSheetData =
          s1.mrSheetData ++ L ∧
        (s2.run env (.createContext .XLS_row .XLS_c rAttribs :: body)).mrSheetData =
          s2.mrSheetData ++ L := by
  have hc := importCell_sameCell env s1 s2 rAttribs hlog hcur hsheet hacc
  have hstep : ∀ s : SheetDataContext,
      s.run env (.createContext .XLS_row .XLS_c rAttribs :: body) =
        (s.importCell env rAttribs).2.run env body := by
    intro s
    by_cases h1 : (s.importCell env rAttribs).1 = true <;>
      simp [SheetDataContext.run, SheetDataContext.step, SheetDataContext.onCreateContext, h1]
  have hrun := run_sameCell env body _ _ hc.2
  obtain ⟨L, hL⟩ := run_log_prefix env (.createContext .XLS_row .XLS_c rAttribs :: body) s1
  refine ⟨hc.1, L, hL, ?_⟩
  rw [hstep s2, ← hrun.1, ← hstep s1, hL, hlog]

/-- Witness of C20: the next cell element of the row, without address and with an array
formula and a value text, issues the same calls from the state left by the cell `A1` and
from a state with another formula, value text and inline string left over. -/
theorem C20_witness :
    (sampleLeftoverA.maCellValue ≠ sampleLeftoverB.maCellValue ∧
      sampleLeftoverA.mbHasFormula ≠ sampleLeftoverB.mbHasFormula) ∧
    (sampleLeftoverB.importCell sampleEnv AttributeList.empty).1 = true ∧
    ∃ L, (sampleLeftoverA.run sampleEnv
            (.createContext .XLS_row .XLS_c AttributeList.empty ::
              sampleNextCellBody)).mrSheetData = sampleLeftoverA.mrSheetData ++ L ∧
        (sampleLeftoverB.run sampleEnv
            (.createContext .XLS_row .XLS_c AttributeList.empty ::
              sampleNextCellBody)).mrSheetData = sampleLeftoverB.mrSheetData ++ L :=
  ⟨by decide,
   C20_cell_calls_independent_of_leftover_state sampleEnv sampleLeftoverA sampleLeftoverB
     AttributeList.empty sampleNextCellBody (by decide) (by decide) (by decide) (by decide)⟩

/-! ## Row records of the binary formats -/

theorem foldl_insertColSpan_inv {α : Type} (f : RowModel → α)
    (hf : ∀ (m : RowModel) (s : ValueRange), f (m.insertColSpan s) = f m)
    (spans : List ValueRange) (m : RowModel) :
    f (spans.foldl RowModel.insertColSpan m) = f m := by
  induction spans generalizing m with
  | nil => rfl
  | cons s rest ih => rw [List.foldl_cons, ih, hf]

theorem insertColSpan_mfHeight (m : RowModel) (s : ValueRange) :
    (m.insertColSpan s).mfHeight = m.mfHeight := by
  unfold RowModel.insertColSpan
  split <;> rfl

theorem insertColSpan_mnLevel (m : RowModel) (s : ValueRange) :
    (m.insertColSpan s).mnLevel = m.mnLevel := by
  unfold RowModel.insertColSpan
  split <;> rfl

theorem leValue_lt (l : List Nat) : leValue l < 256 ^ l.length := by
  induction l with
  | nil => simp [leValue]
  | cons b bs ih =>
    simp only [leValue, List.length_cons, pow_succ]
    have hb : b % 256 < 256 := Nat.mod_lt _ (by decide)
    omega

theorem readValue_lt (s : BinaryInputStream) (n : Nat) : (s.readValue n).1 < 256 ^ n := by
  unfold BinaryInputStream.readValue
  split
  · positivity
  · split
    · rename_i h
      have := leValue_lt (s.maData.take n)
      rwa [List.length_take, Nat.min_eq_left h] at this
    · positivity

theorem extractValue_bounds (n s c : Nat) :
    0 ≤ extractValue n s c ∧ extractValue n s c < 2 ^ c := by
  unfold extractValue
  have h : n / 2 ^ s % 2 ^ c < 2 ^ c := Nat.mod_lt _ (by positivity)
  exact ⟨Int.ofNat_nonneg _, by exact_mod_cast h⟩

theorem readRowHeader_mnLevel (st : BiffSheetDataContext) (rStrm : BinaryInputStream) :
    0 ≤ (st.readRowHeader rStrm).aModel.mnLevel ∧ (st.readRowHeader rStrm).aModel.mnLevel ≤ 7 := by
  have h := extractValue_bounds
    ((rStrm.readuInt16.2.readuInt16.2.readuInt16.2.readuInt16.2.skip 4).readuInt32.1) 0 3
  simp only [BiffSheetDataContext.readRowHeader]
  split
  · split <;> simp [RowModel.new]
  · simp only at h ⊢
    omega

/-! ## Heights and row indexes of the binary row records -/

theorem floorLog2_le (nDigits n : Nat) : floorLog2 nDigits n ≤ nDigits := by
  induction nDigits generalizing n with
  | zero => simp [floorLog2]
  | succ f ih =>
    rw [floorLog2]
    split
    · omega
    · have := ih (n / 2)
      omega

theorem floorLog2_lt (nDigits : Nat) :
    ∀ n j : Nat, n < 2 ^ (j + 1) → floorLog2 nDigits n ≤ j := by
  induction nDigits with
  | zero => intro n j _; simp [floorLog2]
  | succ f ih =>
    intro n j h
    rw [floorLog2]
    split
    · omega
    · rename_i h2
      cases j with
      | zero => simp at h; omega
      | succ j =>
        have h3 : n / 2 < 2 ^ (j + 1) := by
          rw [pow_succ] at h
          omega
        have := ih (n / 2) j h3
        omega

theorem roundDiv20_near (n : Nat) : 20 * roundDiv n 20 ≤ n + 10 ∧ n ≤ 20 * roundDiv n 20 + 10 := by
  unfold roundDiv
  split <;> omega

theorem roundDiv20_exact (n : Nat) : 20 * roundDiv n 20 = n ↔ 20 ∣ n := by
  unfold roundDiv
  constructor
  · intro h
    split at h <;> omega
  · intro h
    split <;> omega

/-- The exponent of the scaling of `divDouble20` is 41 or more for a 16-bit value. -/
theorem divDouble20_shift (n : Nat) (hn : n < 65536) :
    41 ≤ 109 - floorLog2 107 (n * 2 ^ 57 / 20) := by
  have h1 : n * 2 ^ 57 / 20 < 2 ^ (68 + 1) := by
    apply Nat.div_lt_of_lt_mul
    have : n * 2 ^ 57 < 65536 * 2 ^ 57 := Nat.mul_lt_mul_of_pos_right hn (by positivity)
    calc n * 2 ^ 57 < 65536 * 2 ^ 57 := this
      _ ≤ 20 * 2 ^ (68 + 1) := by norm_num
  have := floorLog2_lt 107 _ 68 h1
  omega

theorem divDouble20_nonneg (n : Nat) : 0 ≤ divDouble20 n := by
  unfold divDouble20
  split
  · exact le_refl _
  · positivity

/-- The double `n / 20.0` times 20 is `n` exactly when `n` is a multiple of 5. -/
theorem divDouble20_exact (n : Nat) : divDouble20 n * 20 = (n : Rat) ↔ 5 ∣ n := by
  by_cases h0 : n = 0
  · subst h0
    simp [divDouble20]
  have hk : 2 ≤ 109 - floorLog2 107 (n * 2 ^ 57 / 20) := by
    have := floorLog2_le 107 (n * 2 ^ 57 / 20)
    omega
  unfold divDouble20
  rw [if_neg h0]
  generalize 109 - floorLog2 107 (n * 2 ^ 57 / 20) = k at hk
  have hpos : (0 : Rat) < 2 ^ k := by positivity
  have hiff : ((roundDiv (n * 2 ^ k) 20 : Nat) : Rat) / 2 ^ k * 20 = (n : Rat) ↔
      20 * roundDiv (n * 2 ^ k) 20 = n * 2 ^ k := by
    rw [div_mul_eq_mul_div, div_eq_iff hpos.ne']
    constructor
    · intro h
      have h2 : ((20 * roundDiv (n * 2 ^ k) 20 : Nat) : Rat) = ((n * 2 ^ k : Nat) : Rat) := by
        push_cast
        linarith
      exact_mod_cast h2
    · intro h
      have h2 : ((20 * roundDiv (n * 2 ^ k) 20 : Nat) : Rat) = ((n * 2 ^ k : Nat) : Rat) := by
        rw [h]
      push_cast at h2
      linarith
  rw [hiff, roundDiv20_exact]
  obtain ⟨j, rfl⟩ : ∃ j, k = j + 2 := ⟨k - 2, by omega⟩
  constructor
  · intro h
    have h5 : 5 ∣ n * 2 ^ (j + 2) := Dvd.dvd.trans (by norm_num) h
    have hc : Nat.Coprime 5 (2 ^ (j + 2)) := Nat.Coprime.pow_right _ (by decide)
    exact hc.dvd_of_dvd_mul_right h5
  · rintro ⟨m, rfl⟩
    exact ⟨m * 2 ^ j, by ring⟩

/-- The double `n / 20.0` of a 16-bit `n` is off `n / 20` by at most half a unit of
`2 ^ -41`. -/
theorem divDouble20_near (n : Nat) (hn : n < 65536) :
    |divDouble20 n * 20 - (n : Rat)| ≤ 10 / 2 ^ 41 := by
  by_cases h0 : n = 0
  · subst h0
    simp only [divDouble20, if_true, zero_mul, Nat.cast_zero, sub_zero, abs_zero]
    positivity
  have hk := divDouble20_shift n hn
  unfold divDouble20
  rw [if_neg h0]
  generalize 109 - floorLog2 107 (n * 2 ^ 57 / 20) = k at hk
  have hpos : (0 : Rat) < 2 ^ k := by positivity
  obtain ⟨h1, h2⟩ := roundDiv20_near (n * 2 ^ k)
  have h1' : (20 : Rat) * (roundDiv (n * 2 ^ k) 20 : Nat) ≤ (n : Rat) * 2 ^ k + 10 := by
    exact_mod_cast h1
  have h2' : (n : Rat) * 2 ^ k ≤ (20 : Rat) * (roundDiv (n * 2 ^ k) 20 : Nat) + 10 := by
    exact_mod_cast h2
  have hpk : (2 : Rat) ^ 41 ≤ 2 ^ k := pow_le_pow_right₀ (by norm_num) hk
  have e : ((roundDiv (n * 2 ^ k) 20 : Nat) : Rat) / 2 ^ k * 20 - (n : Rat) =
      (20 * (roundDiv (n * 2 ^ k) 20 : Nat) - (n : Rat) * 2 ^ k) / 2 ^ k := by
    field_simp
    ring
  rw [e, abs_div, abs_of_pos hpos]
  have habs : |(20 : Rat) * (roundDiv (n * 2 ^ k) 20 : Nat) - (n : Rat) * 2 ^ k| ≤ 10 := by
    rw [abs_le]
    constructor <;> linarith
  calc |(20 : Rat) * (roundDiv (n * 2 ^ k) 20 : Nat) - (n : Rat) * 2 ^ k| / 2 ^ k
      ≤ 10 / 2 ^ k := div_le_div_of_nonneg_right habs hpos.le
    _ ≤ 10 / 2 ^ 41 := div_le_div_of_nonneg_left (by norm_num) (by positivity) hpk

theorem toSalInt32_readInt32 (s : BinaryInputStream) :
    -2147483648 ≤ s.readInt32.1 ∧ s.readInt32.1 < 2147483648 := by
  unfold BinaryInputStream.readInt32 toSalInt32
  simp only
  split <;> omega

theorem wrapSalInt32_succ (n : Int) (h1 : -2147483648 ≤ n) (h2 : n < 2147483648) :
    wrapSalInt32 (n + 1) = if n = 2147483647 then -2147483648 else n + 1 := by
  unfold wrapSalInt32 toSalInt32
  split <;> split <;> omega

theorem importRowRecModel_mfHeight (env : Env) (rStrm : BinaryInputStream) :
    (SheetDataContext.importRowRecModel env rStrm).mfHeight =
      divDouble20 (SheetDataContext.readRowHeader rStrm).nHeight := by
  unfold SheetDataContext.importRowRecModel
  exact foldl_insertColSpan_inv (fun m => m.mfHeight) insertColSpan_mfHeight _ _

theorem biff_importRowModel_mfHeight (env : Env) (st : BiffSheetDataContext)
    (rStrm : BinaryInputStream) :
    (st.importRowModel env rStrm).mfHeight =
      divDouble20 (Nat.land (st.readRowHeader rStrm).nHeight BIFF_ROW_HEIGHTMASK) := by
  unfold BiffSheetDataContext.importRowModel
  exact foldl_insertColSpan_inv (fun m => m.mfHeight) insertColSpan_mfHeight _ _

theorem land_heightMask_lt (n : Nat) : Nat.land n BIFF_ROW_HEIGHTMASK < 65536 := by
  have h : Nat.land n BIFF_ROW_HEIGHTMASK ≤ BIFF_ROW_HEIGHTMASK := Nat.and_le_right
  have h2 : BIFF_ROW_HEIGHTMASK = 32767 := rfl
  omega

/-- C25, counterexample: for a BIFF12 row record with the height field 1 the height of
the row model is the double nearest to 1/20, which is 3602879701896397 / 2 ^ 56, and 20
times it is not 1; for a BIFF12 row record with the stored row 0x7FFFFFFF the row index
of the model is -2147483648, not the stored row plus 1. -/
theorem C25_counterexample :
    ((SheetDataContext.readRowHeader sampleLowRowRecord).nHeight = 1 ∧
      (SheetDataContext.importRowRecModel sampleEnv sampleLowRowRecord).mfHeight =
        3602879701896397 / 72057594037927936 ∧
      ¬ ((SheetDataContext.importRowRecModel sampleEnv sampleLowRowRecord).mfHeight * 20 =
        ((SheetDataContext.readRowHeader sampleLowRowRecord).nHeight : Rat))) ∧
    ((SheetDataContext.readRowHeader sampleLastRowRecord).mnRow = 2147483647 ∧
      (SheetDataContext.importRowRecModel sampleEnv sampleLastRowRecord).mnRow = -2147483648 ∧
      ¬ ((SheetDataContext.importRowRecModel sampleEnv sampleLastRowRecord).mnRow =
        (SheetDataContext.readRowHeader sampleLastRowRecord).mnRow + 1)) := by
  have hh : (SheetDataContext.readRowHeader sampleLowRowRecord).nHeight = 1 := by decide
  have hm := importRowRecModel_mfHeight sampleEnv sampleLowRowRecord
  rw [hh] at hm
  have hv : divDouble20 1 = 3602879701896397 / 72057594037927936 := by
    have hk : 109 - floorLog2 107 (1 * 2 ^ 57 / 20) = 57 := by decide
    have hr : roundDiv (1 * 2 ^ 57) 20 = 7205759403792794 := by decide
    rw [divDouble20, if_neg (by decide), hk, hr]
    norm_num
  refine ⟨⟨hh, by rw [hm, hv], ?_⟩, by decide, by decide, by decide⟩
  rw [hm, hh, hv]
  norm_num

/-- C25, amended: for binary row records the height of the row model handed to
`setRowModel` is the double nearest to the height field divided by 20, where the height
field is the raw 16-bit field (BIFF12) or the raw field AND 0x7FFF (legacy BIFF).  It is
never negative, 20 times it is the height field exactly when the height field is a
multiple of 5, and it is off the exact quotient by at most `10 / 2 ^ 41` twentieths.  The
row index of the model is the stored row plus 1 in legacy BIFF, and in BIFF12 unless the
stored row is 0x7FFFFFFF, for which the 32-bit sum is -2147483648. -/
theorem C25_binary_row_height_is_nearest_double (env : Env) (st12 : SheetDataContext)
    (st : BiffSheetDataContext) (rStrm : BinaryInputStream) :
    ((st12.importRowRec env rStrm).2.mrSheetData =
        st12.mrSheetData ++ [.setRowModel (SheetDataContext.importRowRecModel env rStrm)] ∧
      (SheetDataContext.importRowRecModel env rStrm).mfHeight =
        divDouble20 (SheetDataContext.readRowHeader rStrm).nHeight ∧
      (SheetDataContext.readRowHeader rStrm).nHeight < 65536 ∧
      0 ≤ (SheetDataContext.importRowRecModel env rStrm).mfHeight ∧
      ((SheetDataContext.importRowRecModel env rStrm).mfHeight * 20 =
          ((SheetDataContext.readRowHeader rStrm).nHeight : Rat) ↔
        5 ∣ (SheetDataContext.readRowHeader rStrm).nHeight) ∧
      |(SheetDataContext.importRowRecModel env rStrm).mfHeight * 20 -
          ((SheetDataContext.readRowHeader rStrm).nHeight : Rat)| ≤ 10 / 2 ^ 41 ∧
      ((SheetDataContext.readRowHeader rStrm).mnRow ≠ 2147483647 →
        (SheetDataContext.importRowRecModel env rStrm).mnRow =
          (SheetDataContext.readRowHeader rStrm).mnRow + 1) ∧
      ((SheetDataContext.readRowHeader rStrm).mnRow = 2147483647 →
        (SheetDataContext.importRowRecModel env rStrm).mnRow = -2147483648)) ∧
    ((st.importRow env rStrm).2.mrSheetData =
        st.mrSheetData ++ [.setRowModel (st.importRowModel env rStrm)] ∧
      (st.importRowModel env rStrm).mfHeight =
        divDouble20 (Nat.land (st.readRowHeader rStrm).nHeight 0x7FFF) ∧
      0 ≤ (st.importRowModel env rStrm).mfHeight ∧
      ((st.importRowModel env rStrm).mfHeight * 20 =
          ((Nat.land (st.readRowHeader rStrm).nHeight 0x7FFF : Nat) : Rat) ↔
        5 ∣ Nat.land (st.readRowHeader rStrm).nHeight 0x7FFF) ∧
      |(st.importRowModel env rStrm).mfHeight * 20 -
          ((Nat.land (st.readRowHeader rStrm).nHeight 0x7FFF : Nat) : Rat)| ≤ 10 / 2 ^ 41 ∧
      (st.importRowModel env rStrm).mnRow = ((st.readRowHeader rStrm).nRow : Int) + 1 ∧
      (st.readRowHeader rStrm).nRow < 65536) := by
  have h12 := importRowRecModel_mfHeight env rStrm
  have hb : (st.importRowModel env rStrm).mfHeight =
      divDouble20 (Nat.land (st.readRowHeader rStrm).nHeight 0x7FFF) :=
    biff_importRowModel_mfHeight env st rStrm
  have hlt : (SheetDataContext.readRowHeader rStrm).nHeight < 65536 := readValue_lt _ 2
  have hrow : (SheetDataContext.importRowRecModel env rStrm).mnRow =
      wrapSalInt32 ((SheetDataContext.readRowHeader rStrm).mnRow + 1) := by
    unfold SheetDataContext.importRowRecModel
    rw [foldl_insertColSpan_mnRow]
  have hrange := toSalInt32_readInt32 rStrm
  have hwrap := wrapSalInt32_succ (SheetDataContext.readRowHeader rStrm).mnRow hrange.1 hrange.2
  refine ⟨⟨rfl, h12, hlt, ?_, ?_, ?_, ?_, ?_⟩, ⟨rfl, hb, ?_, ?_, ?_, ?_, ?_⟩⟩
  · rw [h12]; exact divDouble20_nonneg _
  · rw [h12]; exact divDouble20_exact _
  · rw [h12]; exact divDouble20_near _ hlt
  · intro hne
    rw [hrow, hwrap, if_neg hne]
  · intro he
    rw [hrow, hwrap, if_pos he]
  · rw [hb]; exact divDouble20_nonneg _
  · rw [hb]; exact divDouble20_exact _
  · rw [hb]; exact divDouble20_near _ (land_heightMask_lt _)
  · unfold BiffSheetDataContext.importRowModel
    rw [foldl_insertColSpan_mnRow]
  · have h : (st.readRowHeader rStrm).nRow = rStrm.readuInt16.1 := by
      simp only [BiffSheetDataContext.readRowHeader]
      split
      · split <;> rfl
      · rfl
    rw [h]
    exact readValue_lt _ 2

/-- C25, the amended statement on a BIFF12 row record for row 4 with the height field
300: the row index is 5. -/
theorem C25_witness :
    (SheetDataContext.readRowHeader sampleRowRecord).mnRow ≠ 2147483647 ∧
    (SheetDataContext.importRowRecModel sampleEnv sampleRowRecord).mnRow =
      (SheetDataContext.readRowHeader sampleRowRecord).mnRow + 1 ∧
    (SheetDataContext.readRowHeader sampleRowRecord).mnRow + 1 = 5 ∧
    ((SheetDataContext.importRowRecModel sampleEnv sampleRowRecord).mfHeight * 20 =
        ((SheetDataContext.readRowHeader sampleRowRecord).nHeight : Rat) ↔
      5 ∣ (SheetDataContext.readRowHeader sampleRowRecord).nHeight) ∧
    (SheetDataContext.readRowHeader sampleRowRecord).nHeight = 300 ∧
    ((BiffSheetDataContext.new .BIFF5 0).importRowModel sampleEnv sampleBiffRowRecord).mnRow =
      (((BiffSheetDataContext.new .BIFF5 0).readRowHeader sampleBiffRowRecord).nRow : Int) + 1 ∧
    Nat.land ((BiffSheetDataContext.new .BIFF5 0).readRowHeader sampleBiffRowRecord).nHeight
      0x7FFF = 300 :=
  ⟨by decide,
   (C25_binary_row_height_is_nearest_double sampleEnv (SheetDataContext.new 0)
      (BiffSheetDataContext.new .BIFF5 0) sampleRowRecord).1.2.2.2.2.2.2.1 (by decide),
   by decide,
   (C25_binary_row_height_is_nearest_double sampleEnv (SheetDataContext.new 0)
      (BiffSheetDataContext.new .BIFF5 0) sampleRowRecord).1.2.2.2.2.1,
   by decide,
   (C25_binary_row_height_is_nearest_double sampleEnv (SheetDataContext.new 0)
      (BiffSheetDataContext.new .BIFF5 0) sampleBiffRowRecord).2.2.2.2.2.2.1,
   by decide⟩

/-- C26, counterexample: a row element with the attribute `outlineLevel="9"` hands a row
model with outline level 9 to `setRowModel`. -/
theorem C26_counterexample :
    ((SheetDataContext.new 0).importRow sampleEnv (levelAttribs 9)).mrSheetData =
        [.setRowModel ((SheetDataContext.new 0).importRowModel sampleEnv (levelAttribs 9))] ∧
      ((SheetDataContext.new 0).importRowModel sampleEnv (levelAttribs 9)).mnLevel = 9 ∧
      ¬ ((SheetDataContext.new 0).importRowModel sampleEnv (levelAttribs 9)).mnLevel ≤ 7 := by
  decide

/-- C26, amended: for every row record of the two binary formats the outline level of the
row model handed to `setRowModel` is between 0 and 7; for a row element it is the value
of the attribute `outlineLevel` as given, and 0 without the attribute. -/
theorem C26_outline_level_bounded_in_binary_formats (env : Env) (st : SheetDataContext)
    (stb : BiffSheetDataContext) (rAttribs : AttributeList) (rStrm : BinaryInputStream) :
    (0 ≤ (SheetDataContext.importRowRecModel env rStrm).mnLevel ∧
      (SheetDataContext.importRowRecModel env rStrm).mnLevel ≤ 7) ∧
    (0 ≤ (stb.importRowModel env rStrm).mnLevel ∧ (stb.importRowModel env rStrm).mnLevel ≤ 7) ∧
    (st.importRowModel env rAttribs).mnLevel = rAttribs.getInteger .XML_outlineLevel 0 := by
  refine ⟨?_, ?_, ?_⟩
  · have h : (SheetDataContext.importRowRecModel env rStrm).mnLevel =
        extractValue (SheetDataContext.readRowHeader rStrm).nFlags1 8 3 := by
      unfold SheetDataContext.importRowRecModel
      exact foldl_insertColSpan_inv (fun m => m.mnLevel) insertColSpan_mnLevel _ _
    have hb := extractValue_bounds (SheetDataContext.readRowHeader rStrm).nFlags1 8 3
    rw [h]
    omega
  · have h : (stb.importRowModel env rStrm).mnLevel = (stb.readRowHeader rStrm).aModel.mnLevel := by
      unfold BiffSheetDataContext.importRowModel
      exact foldl_insertColSpan_inv (fun m => m.mnLevel) insertColSpan_mnLevel _ _
    rw [h]
    exact readRowHeader_mnLevel stb rStrm
  · unfold SheetDataContext.importRowModel
    exact foldl_insertColSpan_inv (fun m => m.mnLevel) insertColSpan_mnLevel _ _

theorem readRowHeader_colSpans (st : BiffSheetDataContext) (rStrm : BinaryInputStream) :
    (st.readRowHeader rStrm).aModel.maColSpans = [] := by
  simp only [BiffSheetDataContext.readRowHeader]
  split
  · split <;> rfl
  · rfl

theorem biff_importRowModel_ascending (env : Env) (st : BiffSheetDataContext)
    (rStrm : BinaryInputStream) : SpansAscending (st.importRowModel env rStrm).maColSpans := by
  unfold BiffSheetDataContext.importRowModel
  apply foldl_insertColSpan_ascending
  have h := readRowHeader_colSpans st rStrm
  simp only [h]
  exact spansAscending_nil

/-- C28, counterexample: a legacy row record with first used column 2000 and first free
column 2001 in a sheet with maximum column 1023 hands the span from 2000 to 1023 to
`insertColSpan`, and a row element with the spans attribute `0:5` hands the span from -1
to 4. -/
theorem C28_counterexample :
    (({ mnFirst := 2000, mnLast := 1023 } : ValueRange) ∈
        (BiffSheetDataContext.new .BIFF5 0).rowColSpans sampleEnv
          { maData := [0, 0, 208, 7, 209, 7, 0, 0, 0, 0, 0, 0, 0, 0, 0, 0], mbEof := false } ∧
      ¬ (({ mnFirst := 2000, mnLast := 1023 } : ValueRange).mnFirst ≤
          ({ mnFirst := 2000, mnLast := 1023 } : ValueRange).mnLast)) ∧
    (({ mnFirst := -1, mnLast := 4 } : ValueRange) ∈
        (SheetDataContext.decodeColSpans sampleEnv ['0', ':', '5']
          sampleEnv.mrAddressConv.getMaxApiAddress.Column).2 ∧
      ¬ (0 ≤ ({ mnFirst := -1, mnLast := 4 } : ValueRange).mnFirst)) := by
  decide

/-- C28, amended: the spans that a row model keeps are closed intervals of columns from 0
on, in all three formats; a span handed to `insertColSpan` by the legacy decoder starts
at a column from 0 on, and its first column is at most its last column exactly when the
first column is at most the maximum column of the sheet. -/
theorem C28_kept_spans_are_well_formed (env : Env) (st : SheetDataContext)
    (stb : BiffSheetDataContext) (rAttribs : AttributeList) (rStrm : BinaryInputStream) :
    (∀ s ∈ (st.importRowModel env rAttribs).maColSpans, 0 ≤ s.mnFirst ∧ s.mnFirst ≤ s.mnLast) ∧
    (∀ s ∈ (SheetDataContext.importRowRecModel env rStrm).maColSpans,
      0 ≤ s.mnFirst ∧ s.mnFirst ≤ s.mnLast) ∧
    (∀ s ∈ (stb.importRowModel env rStrm).maColSpans, 0 ≤ s.mnFirst ∧ s.mnFirst ≤ s.mnLast) ∧
    (∀ s ∈ stb.rowColSpans env rStrm,
      0 ≤ s.mnFirst ∧
        (s.mnFirst ≤ s.mnLast ↔ s.mnFirst ≤ env.mrAddressConv.getMaxApiAddress.Column)) := by
  refine ⟨?_, ?_, ?_, ?_⟩
  · have h : SpansAscending (st.importRowModel env rAttribs).maColSpans := by
      unfold SheetDataContext.importRowModel
      exact foldl_insertColSpan_ascending _ _ spansAscending_nil
    exact h.2
  · have h : SpansAscending (SheetDataContext.importRowRecModel env rStrm).maColSpans := by
      unfold SheetDataContext.importRowRecModel
      exact foldl_insertColSpan_ascending _ _ spansAscending_nil
    exact h.2
  · exact (biff_importRowModel_ascending env stb rStrm).2
  · intro s hs
    unfold BiffSheetDataContext.rowColSpans at hs
    simp only at hs
    split at hs
    · rename_i hlt
      simp only [List.mem_singleton] at hs
      subst hs
      simp only
      constructor
      · exact Int.ofNat_nonneg _
      · constructor
        · intro h
          exact le_trans h (min_le_right _ _)
        · intro h
          apply le_min _ h
          omega
    · simp at hs

/-- C28, the amended statement on a row element with the spans attribute `3:5`, on the
BIFF12 row record with the span from 2 to 5000 and on the legacy row record with first
used column 1 and first free column 4. -/
theorem C28_witness :
    ((({ mnFirst := 2, mnLast := 4 } : ValueRange) ∈
        ((SheetDataContext.new 0).importRowModel sampleEnv
          { AttributeList.empty with
            optString := fun t => if t = .XML_spans then some ['3', ':', '5'] else none }).maColSpans) ∧
      0 ≤ ({ mnFirst := 2, mnLast := 4 } : ValueRange).mnFirst ∧
      ({ mnFirst := 2, mnLast := 4 } : ValueRange).mnFirst ≤
        ({ mnFirst := 2, mnLast := 4 } : ValueRange).mnLast) ∧
    ((({ mnFirst := 2, mnLast := 1023 } : ValueRange) ∈
        (SheetDataContext.importRowRecModel sampleEnv
          { maData := [0, 0, 0, 0, 0, 0, 0, 0, 0, 0, 0, 0, 0, 1, 0, 0, 0,
                       2, 0, 0, 0, 136, 19, 0, 0], mbEof := false }).maColSpans) ∧
      0 ≤ ({ mnFirst := 2, mnLast := 1023 } : ValueRange).mnFirst ∧
      ({ mnFirst := 2, mnLast := 1023 } : ValueRange).mnFirst ≤
        ({ mnFirst := 2, mnLast := 1023 } : ValueRange).mnLast) ∧
    ((({ mnFirst := 1, mnLast := 3 } : ValueRange) ∈
        ((BiffSheetDataContext.new .BIFF5 0).importRowModel sampleEnv
          { maData := [0, 0, 1, 0, 4, 0, 0, 0, 0, 0, 0, 0, 0, 0, 0, 0], mbEof := false }).maColSpans) ∧
      0 ≤ ({ mnFirst := 1, mnLast := 3 } : ValueRange).mnFirst ∧
      ({ mnFirst := 1, mnLast := 3 } : ValueRange).mnFirst ≤
        ({ mnFirst := 1, mnLast := 3 } : ValueRange).mnLast) ∧
    ((({ mnFirst := 2000, mnLast := 1023 } : ValueRange) ∈
        (BiffSheetDataContext.new .BIFF5 0).rowColSpans sampleEnv
          { maData := [0, 0, 208, 7, 209, 7, 0, 0, 0, 0, 0, 0, 0, 0, 0, 0], mbEof := false }) ∧
      0 ≤ ({ mnFirst := 2000, mnLast := 1023 } : ValueRange).mnFirst ∧
      (({ mnFirst := 2000, mnLast := 1023 } : ValueRange).mnFirst ≤
          ({ mnFirst := 2000, mnLast := 1023 } : ValueRange).mnLast ↔
        ({ mnFirst := 2000, mnLast := 1023 } : ValueRange).mnFirst ≤
          sampleEnv.mrAddressConv.getMaxApiAddress.Column)) :=
  ⟨⟨by decide,
    (C28_kept_spans_are_well_formed sampleEnv (SheetDataContext.new 0)
      (BiffSheetDataContext.new .BIFF5 0)
      { AttributeList.empty with
        optString := fun t => if t = .XML_spans then some ['3', ':', '5'] else none }
      { maData := [], mbEof := false }).1 _ (by decide)⟩,
   ⟨by decide,
    (C28_kept_spans_are_well_formed sampleEnv (SheetDataContext.new 0)
      (BiffSheetDataContext.new .BIFF5 0) AttributeList.empty
      { maData := [0, 0, 0, 0, 0, 0, 0, 0, 0, 0, 0, 0, 0, 1, 0, 0, 0,
                   2, 0, 0, 0, 136, 19, 0, 0], mbEof := false }).2.1 _ (by decide)⟩,
   ⟨by decide,
    (C28_kept_spans_are_well_formed sampleEnv (SheetDataContext.new 0)
      (BiffSheetDataContext.new .BIFF5 0) AttributeList.empty
      { maData := [0, 0, 1, 0, 4, 0, 0, 0, 0, 0, 0, 0, 0, 0, 0, 0], mbEof := false }).2.2.1 _
      (by decide)⟩,
   ⟨by decide,
    (C28_kept_spans_are_well_formed sampleEnv (SheetDataContext.new 0)
      (BiffSheetDataContext.new .BIFF5 0) AttributeList.empty
      { maData := [0, 0, 208, 7, 209, 7, 0, 0, 0, 0, 0, 0, 0, 0, 0, 0], mbEof := false }).2.2.2 _
      (by decide)⟩⟩

/-! ## Dispatch of elements and records -/

theorem importRowChild_isSome (env : Env) (renv : RecordEnv) (venv : ValueEnv)
    (st : SheetDataContext) (nRecId : Biff12RecId) (rStrm : BinaryInputStream) :
    (st.importRowChild env renv venv nRecId rStrm).isSome = nRecId.isRowChild := by
  cases nRecId <;> rfl

/-- C21: for every pair of current element and child element other than `sheetData` with
`row`, `row` with `c`, and `c` with `is`, `v` or `f`, `onCreateContext` returns no context
and leaves the context, with its log of sink calls, as it was; for every pair of current
record and child record other than the sheet data record with a row record and a row
record with one of the records that have a case below it, `onCreateRecordContext` returns
no context and leaves the stream and the context as they were.  The records with a case
below a row record are exactly those for which an import function is called. -/
theorem C21_unrecognized_nesting_is_ignored (env : Env) (renv : RecordEnv) (venv : ValueEnv)
    (st : SheetDataContext) :
    (∀ (nCurrElement nElement : Token) (rAttribs : AttributeList),
      ¬ (nCurrElement = .XLS_sheetData ∧ nElement = .XLS_row) →
      ¬ (nCurrElement = .XLS_row ∧ nElement = .XLS_c) →
      ¬ (nCurrElement = .XLS_c ∧ (nElement = .XLS_is ∨ nElement = .XLS_v ∨ nElement = .XLS_f)) →
        st.onCreateContext env nCurrElement nElement rAttribs = (.null, st)) ∧
    (∀ (nCurrRecId nRecId : Biff12RecId) (rStrm : BinaryInputStream),
      ¬ (nCurrRecId = .BIFF12_ID_SHEETDATA ∧ nRecId = .BIFF12_ID_ROW) →
      ¬ (nCurrRecId = .BIFF12_ID_ROW ∧ nRecId.isRowChild = true) →
        st.onCreateRecordContext env renv venv nCurrRecId nRecId rStrm = (.null, rStrm, st)) ∧
    (∀ (nRecId : Biff12RecId) (rStrm : BinaryInputStream),
      (st.importRowChild env renv venv nRecId rStrm).isSome = nRecId.isRowChild) := by
  refine ⟨?_, ?_, importRowChild_isSome env renv venv st⟩
  · intro nCurrElement nElement rAttribs h1 h2 h3
    unfold SheetDataContext.onCreateContext
    split
    · simp only [true_and] at h1
      simp [h1]
    · simp only [true_and] at h2
      simp [h2]
    · simp only [true_and, not_or] at h3
      split
      · exact absurd rfl h3.1
      · exact absurd rfl h3.2.1
      · exact absurd rfl h3.2.2
      · rfl
    · rfl
  · intro nCurrRecId nRecId rStrm h1 h2
    unfold SheetDataContext.onCreateRecordContext
    split
    · simp only [true_and] at h1
      simp [h1]
    · simp only [true_and] at h2
      have h := importRowChild_isSome env renv venv st nRecId rStrm
      cases hr : st.importRowChild env renv venv nRecId rStrm with
      | none => rfl
      | some r =>
        rw [hr] at h
        exact absurd h.symm h2
    · rfl

/-- C21 on the new context of sheet 0: a `row` element below a `c` element, and a record
with the unknown identifier 77 below a row record. -/
theorem C21_witness :
    (SheetDataContext.new 0).onCreateContext sampleEnv .XLS_c .XLS_row (rowAttribs 1) =
        (.null, SheetDataContext.new 0) ∧
    (SheetDataContext.new 0).onCreateRecordContext sampleEnv sampleRecordEnv sampleValueEnv
        .BIFF12_ID_ROW (.other 77) { maData := [1, 0, 0, 0, 0, 0, 0, 0], mbEof := false } =
      (.null, { maData := [1, 0, 0, 0, 0, 0, 0, 0], mbEof := false }, SheetDataContext.new 0) :=
  ⟨(C21_unrecognized_nesting_is_ignored sampleEnv sampleRecordEnv sampleValueEnv
      (SheetDataContext.new 0)).1 .XLS_c .XLS_row (rowAttribs 1)
      (by decide) (by decide) (by decide),
   (C21_unrecognized_nesting_is_ignored sampleEnv sampleRecordEnv sampleValueEnv
      (SheetDataContext.new 0)).2.1 .BIFF12_ID_ROW (.other 77)
      { maData := [1, 0, 0, 0, 0, 0, 0, 0], mbEof := false } (by decide) (by decide)⟩

/-! ## The set-up of the legacy context -/

theorem sameSetup_refl (a : BiffSheetDataContext) : a.SameSetup a :=
  ⟨rfl, rfl, rfl, rfl, rfl, fun _ h => h⟩

theorem sameSetup_trans {a b c : BiffSheetDataContext} (h1 : a.SameSetup b)
    (h2 : b.SameSetup c) : a.SameSetup c :=
  ⟨h2.1.trans h1.1, h2.2.1.trans h1.2.1, h2.2.2.1.trans h1.2.2.1,
   h2.2.2.2.1.trans h1.2.2.2.1, h2.2.2.2.2.1.trans h1.2.2.2.2.1,
   fun x hx => h2.2.2.2.2.2 x (h1.2.2.2.2.2 x hx)⟩

theorem sameSetup_call {a b : BiffSheetDataContext} (h : a.SameSetup b) (c : SinkCall) :
    a.SameSetup (b.call c) := h

theorem sameSetup_setCellType {a b : BiffSheetDataContext} (h : a.SameSetup b) (t : Token) :
    a.SameSetup (b.setCellType t) := h

theorem readCellXfId_sameSetup (env : Env) (st : BiffSheetDataContext)
    (rStrm : BinaryInputStream) (rAddr : BinAddress) (bBiff2 : Bool) :
    st.SameSetup (st.readCellXfId env rStrm rAddr bBiff2).2.2 := by
  unfold BiffSheetDataContext.readCellXfId
  split
  · simp only [BiffSheetDataContext.call]
    split
    · split
      · refine ⟨rfl, rfl, rfl, rfl, rfl, ?_⟩
        intro x hx
        simp [hx]
      · refine ⟨rfl, rfl, rfl, rfl, rfl, ?_⟩
        intro x hx
        simp [hx]
    · exact ⟨rfl, rfl, rfl, rfl, rfl, fun _ h => h⟩
  · exact sameSetup_refl st

theorem readCellHeader_sameSetup (env : Env) (st : BiffSheetDataContext)
    (rStrm : BinaryInputStream) (bBiff2 : Bool) :
    st.SameSetup (st.readCellHeader env rStrm bBiff2).2.2 :=
  readCellXfId_sameSetup env st _ _ bBiff2

theorem readFormulaRef_sameSetup (env : Env) (st : BiffSheetDataContext)
    (rStrm : BinaryInputStream) : st.SameSetup (st.readFormulaRef env rStrm).2.2 :=
  ⟨rfl, rfl, rfl, rfl, rfl, fun _ h => h⟩

theorem importArray_sameSetup (env : Env) (renv : RecordEnv) (st : BiffSheetDataContext)
    (rStrm : BinaryInputStream) (r : BinaryInputStream × BiffSheetDataContext)
    (h : st.importArray env renv rStrm = some r) : st.SameSetup r.2 := by
  unfold BiffSheetDataContext.importArray at h
  simp only at h
  split at h
  · split at h
    · cases h
      exact sameSetup_call (readFormulaRef_sameSetup env st rStrm) _
    · cases h
  · cases h
    exact readFormulaRef_sameSetup env st rStrm

theorem importBlank_sameSetup (env : Env) (st : BiffSheetDataContext)
    (rStrm : BinaryInputStream) (nRecId : Nat) :
    st.SameSetup (st.importBlank env rStrm nRecId).2 := by
  unfold BiffSheetDataContext.importBlank
  simp only
  split
  · exact sameSetup_call (readCellHeader_sameSetup env st rStrm _) _
  · exact readCellHeader_sameSetup env st rStrm _

theorem importBoolErr_sameSetup (env : Env) (st : BiffSheetDataContext)
    (rStrm : BinaryInputStream) (nRecId : Nat) :
    st.SameSetup (st.importBoolErr env rStrm nRecId).2 := by
  unfold BiffSheetDataContext.importBoolErr
  simp only
  split
  · split
    · exact sameSetup_call (sameSetup_setCellType (readCellHeader_sameSetup env st rStrm _) _) _
    · split
      · exact sameSetup_call (sameSetup_setCellType (readCellHeader_sameSetup env st rStrm _) _) _
      · exact sameSetup_call (sameSetup_setCellType (readCellHeader_sameSetup env st rStrm _) _) _
  · exact readCellHeader_sameSetup env st rStrm _

theorem importFormula_sameSetup (env : Env) (renv : RecordEnv) (st : BiffSheetDataContext)
    (rStrm : BinaryInputStream) (r : BinaryInputStream × BiffSheetDataContext)
    (h : st.importFormula env renv rStrm = some r) : st.SameSetup r.2 := by
  unfold BiffSheetDataContext.importFormula at h
  simp only at h
  split at h
  · split at h
    · cases h
      exact sameSetup_call (sameSetup_setCellType (readCellHeader_sameSetup env st rStrm _) _) _
    · cases h
  · cases h
    exact readCellHeader_sameSetup env st rStrm _

theorem importInteger_sameSetup (env : Env) (st : BiffSheetDataContext)
    (rStrm : BinaryInputStream) : st.SameSetup (st.importInteger env rStrm).2 := by
  unfold BiffSheetDataContext.importInteger
  simp only
  split
  · exact sameSetup_call (sameSetup_setCellType (readCellHeader_sameSetup env st rStrm _) _) _
  · exact readCellHeader_sameSetup env st rStrm _

theorem importLabel_sameSetup (env : Env) (venv : ValueEnv) (st : BiffSheetDataContext)
    (rStrm : BinaryInputStream) (nRecId : Nat) :
    st.SameSetup (st.importLabel env venv rStrm nRecId).2 := by
  unfold BiffSheetDataContext.importLabel
  simp only
  split
  · split
    · exact sameSetup_call (sameSetup_setCellType (readCellHeader_sameSetup env st rStrm _) _) _
    · split
      · exact sameSetup_call (sameSetup_setCellType (readCellHeader_sameSetup env st rStrm _) _) _
      · exact sameSetup_call (sameSetup_setCellType (readCellHeader_sameSetup env st rStrm _) _) _
  · exact readCellHeader_sameSetup env st rStrm _

theorem importLabelSst_sameSetup (env : Env) (st : BiffSheetDataContext)
    (rStrm : BinaryInputStream) : st.SameSetup (st.importLabelSst env rStrm).2 := by
  unfold BiffSheetDataContext.importLabelSst
  simp only
  split
  · exact sameSetup_call (sameSetup_setCellType (readCellHeader_sameSetup env st rStrm _) _) _
  · exact readCellHeader_sameSetup env st rStrm _

theorem importNumber_sameSetup (env : Env) (venv : ValueEnv) (st : BiffSheetDataContext)
    (rStrm : BinaryInputStream) (nRecId : Nat) :
    st.SameSetup (st.importNumber env venv rStrm nRecId).2 := by
  unfold BiffSheetDataContext.importNumber
  simp only
  split
  · exact sameSetup_call (sameSetup_setCellType (readCellHeader_sameSetup env st rStrm _) _) _
  · exact readCellHeader_sameSetup env st rStrm _

theorem importRk_sameSetup (env : Env) (venv : ValueEnv) (st : BiffSheetDataContext)
    (rStrm : BinaryInputStream) : st.SameSetup (st.importRk env venv rStrm).2 := by
  unfold BiffSheetDataContext.importRk
  simp only
  split
  · exact sameSetup_call (sameSetup_setCellType (readCellHeader_sameSetup env st rStrm _) _) _
  · exact readCellHeader_sameSetup env st rStrm _

theorem importMultBlankLoop_sameSetup (env : Env) (nPasses : Nat) :
    ∀ (aAddr : BinAddress) (bValidAddr : Bool) (rStrm : BinaryInputStream)
      (st : BiffSheetDataContext),
      st.SameSetup
        (BiffSheetDataContext.importMultBlankLoop env nPasses aAddr bValidAddr rStrm st).2.2 := by
  induction nPasses with
  | zero => intro aAddr bValidAddr rStrm st; exact sameSetup_refl st
  | succ n ih =>
    intro aAddr bValidAddr rStrm st
    rw [BiffSheetDataContext.importMultBlankLoop]
    split
    · refine sameSetup_trans ?_ (ih _ _ _ _)
      split
      · exact sameSetup_call (readCellXfId_sameSetup env st rStrm aAddr false) _
      · exact readCellXfId_sameSetup env st rStrm aAddr false
    · exact sameSetup_refl st

theorem importMultRkLoop_sameSetup (env : Env) (venv : ValueEnv) (nPasses : Nat) :
    ∀ (aAddr : BinAddress) (bValidAddr : Bool) (rStrm : BinaryInputStream)
      (st : BiffSheetDataContext),
      st.SameSetup
        (BiffSheetDataContext.importMultRkLoop env venv nPasses aAddr bValidAddr rStrm st).2.2 := by
  induction nPasses with
  | zero => intro aAddr bValidAddr rStrm st; exact sameSetup_refl st
  | succ n ih =>
    intro aAddr bValidAddr rStrm st
    rw [BiffSheetDataContext.importMultRkLoop]
    split
    · simp only
      split
      · refine sameSetup_trans ?_ (ih _ _ _ _)
        exact sameSetup_call
          (sameSetup_setCellType (readCellXfId_sameSetup env st rStrm aAddr false) _) _
      · exact sameSetup_trans (readCellXfId_sameSetup env st rStrm aAddr false) (ih _ _ _ _)
    · exact sameSetup_refl st

theorem importDataTable_sameSetup (env : Env) (renv : RecordEnv) (st : BiffSheetDataContext)
    (rStrm : BinaryInputStream) (nRecId : Nat) :
    st.SameSetup (st.importDataTable env renv rStrm nRecId).2 := by
  unfold BiffSheetDataContext.importDataTable
  simp only
  split
  · exact sameSetup_call (readFormulaRef_sameSetup env st rStrm) _
  · exact readFormulaRef_sameSetup env st rStrm

theorem importSharedFmla_sameSetup (env : Env) (renv : RecordEnv) (st : BiffSheetDataContext)
    (rStrm : BinaryInputStream) : st.SameSetup (st.importSharedFmla env renv rStrm).2 := by
  unfold BiffSheetDataContext.importSharedFmla
  simp only
  split
  · exact sameSetup_call (readFormulaRef_sameSetup env st rStrm) _
  · exact readFormulaRef_sameSetup env st rStrm

theorem importRow_sameSetup (env : Env) (st : BiffSheetDataContext)
    (rStrm : BinaryInputStream) : st.SameSetup (st.importRow env rStrm).2 :=
  sameSetup_call (sameSetup_refl st) _

theorem importRecord5_sameSetup (env : Env) (renv : RecordEnv) (venv : ValueEnv)
    (st : BiffSheetDataContext) (nRecId : Nat) (rStrm : BinaryInputStream)
    (r : BinaryInputStream × BiffSheetDataContext)
    (h : st.importRecord5 env renv venv nRecId rStrm = some r) : st.SameSetup r.2 := by
  unfold BiffSheetDataContext.importRecord5 at h
  split at h
  · cases h; exact importDataTable_sameSetup env renv st rStrm nRecId
  split at h
  · exact importFormula_sameSetup env renv st rStrm r h
  split at h
  · cases h; exact importMultBlankLoop_sameSetup env _ _ _ _ st
  split at h
  · cases h; exact importMultRkLoop_sameSetup env venv _ _ _ _ st
  split at h
  · cases h; exact importRow_sameSetup env st rStrm
  split at h
  · cases h; exact importLabel_sameSetup env venv st rStrm nRecId
  split at h
  · cases h; exact importSharedFmla_sameSetup env renv st rStrm
  · cases h; exact sameSetup_refl st

/-- A record other than IXFE leaves the set-up of the context as it was. -/
theorem importRecord_sameSetup (env : Env) (renv : RecordEnv) (venv : ValueEnv)
    (st : BiffSheetDataContext) (nRecId : Nat) (rStrm : BinaryInputStream)
    (r : BinaryInputStream × BiffSheetDataContext) (hid : nRecId ≠ BIFF_ID_IXFE)
    (h : st.importRecord env renv venv nRecId rStrm = some r) : st.SameSetup r.2 := by
  unfold BiffSheetDataContext.importRecord at h
  by_cases c1 : nRecId = BIFF2_ID_ARRAY ∨ nRecId = BIFF3_ID_ARRAY
  · rw [if_pos c1] at h
    exact importArray_sameSetup env renv st rStrm r h
  rw [if_neg c1] at h
  by_cases c2 : nRecId = BIFF2_ID_BLANK ∨ nRecId = BIFF3_ID_BLANK
  · rw [if_pos c2] at h
    cases h; exact importBlank_sameSetup env st rStrm nRecId
  rw [if_neg c2] at h
  by_cases c3 : nRecId = BIFF2_ID_BOOLERR ∨ nRecId = BIFF3_ID_BOOLERR
  · rw [if_pos c3] at h
    cases h; exact importBoolErr_sameSetup env st rStrm nRecId
  rw [if_neg c3] at h
  by_cases c4 : nRecId = BIFF2_ID_INTEGER
  · rw [if_pos c4] at h
    cases h; exact importInteger_sameSetup env st rStrm
  rw [if_neg c4, if_neg hid] at h
  by_cases c5 : nRecId = BIFF2_ID_LABEL ∨ nRecId = BIFF3_ID_LABEL
  · rw [if_pos c5] at h
    cases h; exact importLabel_sameSetup env venv st rStrm nRecId
  rw [if_neg c5] at h
  by_cases c6 : nRecId = BIFF2_ID_NUMBER ∨ nRecId = BIFF3_ID_NUMBER
  · rw [if_pos c6] at h
    cases h; exact importNumber_sameSetup env venv st rStrm nRecId
  rw [if_neg c6] at h
  by_cases c7 : nRecId = BIFF_ID_RK
  · rw [if_pos c7] at h
    cases h; exact importRk_sameSetup env venv st rStrm
  rw [if_neg c7] at h
  cases hb : st.getBiff <;> rw [hb] at h <;> simp only at h
  · split at h
    · cases h; exact importDataTable_sameSetup env renv st rStrm nRecId
    split at h
    · cases h; exact importDataTable_sameSetup env renv st rStrm nRecId
    split at h
    · exact importFormula_sameSetup env renv st rStrm r h
    split at h
    · cases h; exact importRow_sameSetup env st rStrm
    · cases h; exact sameSetup_refl st
  · split at h
    · cases h; exact importDataTable_sameSetup env renv st rStrm nRecId
    split at h
    · exact importFormula_sameSetup env renv st rStrm r h
    split at h
    · cases h; exact importRow_sameSetup env st rStrm
    · cases h; exact sameSetup_refl st
  · split at h
    · cases h; exact importDataTable_sameSetup env renv st rStrm nRecId
    split at h
    · exact importFormula_sameSetup env renv st rStrm r h
    split at h
    · cases h; exact importRow_sameSetup env st rStrm
    · cases h; exact sameSetup_refl st
  · exact importRecord5_sameSetup env renv venv st nRecId rStrm r h
  · split at h
    · cases h; exact importLabelSst_sameSetup env st rStrm
    · exact importRecord5_sameSetup env renv venv st nRecId rStrm r h
  · cases h; exact sameSetup_refl st

theorem importArray_isSome (env : Env) (renv : RecordEnv) (st : BiffSheetDataContext)
    (rStrm : BinaryInputStream) (ha : st.mnArraySkipSize.isSome = true) :
    (st.importArray env renv rStrm).isSome = true := by
  obtain ⟨n, hn⟩ := Option.isSome_iff_exists.mp ha
  have h : (st.readFormulaRef env rStrm).2.2.mnArraySkipSize = some n := hn
  unfold BiffSheetDataContext.importArray
  simp only [h]
  split <;> rfl

theorem importFormula_isSome (env : Env) (renv : RecordEnv) (st : BiffSheetDataContext)
    (rStrm : BinaryInputStream) (hf : st.mnFormulaSkipSize.isSome = true) :
    (st.importFormula env renv rStrm).isSome = true := by
  obtain ⟨n, hn⟩ := Option.isSome_iff_exists.mp hf
  have h : ((st.readCellHeader env rStrm (decide (st.getBiff = .BIFF2))).2.2.setCellType
      .XML_n).mnFormulaSkipSize = some n :=
    (readCellHeader_sameSetup env st rStrm _).2.2.1.trans hn
  unfold BiffSheetDataContext.importFormula
  simp only [h]
  split <;> rfl

theorem importRecord5_isSome (env : Env) (renv : RecordEnv) (venv : ValueEnv)
    (st : BiffSheetDataContext) (nRecId : Nat) (rStrm : BinaryInputStream)
    (hf : st.mnFormulaSkipSize.isSome = true) :
    (st.importRecord5 env renv venv nRecId rStrm).isSome = true := by
  unfold BiffSheetDataContext.importRecord5
  split
  · rfl
  split
  · exact importFormula_isSome env renv st rStrm hf
  split
  · rfl
  split
  · rfl
  split
  · rfl
  split
  · rfl
  split <;> rfl

/-- A context with assigned skip sizes decodes every record. -/
theorem importRecord_isSome (env : Env) (renv : RecordEnv) (venv : ValueEnv)
    (st : BiffSheetDataContext) (nRecId : Nat) (rStrm : BinaryInputStream)
    (hf : st.mnFormulaSkipSize.isSome = true) (ha : st.mnArraySkipSize.isSome = true) :
    (st.importRecord env renv venv nRecId rStrm).isSome = true := by
  unfold BiffSheetDataContext.importRecord
  by_cases c1 : nRecId = BIFF2_ID_ARRAY ∨ nRecId = BIFF3_ID_ARRAY
  · rw [if_pos c1]
    exact importArray_isSome env renv st rStrm ha
  rw [if_neg c1]
  by_cases c2 : nRecId = BIFF2_ID_BLANK ∨ nRecId = BIFF3_ID_BLANK
  · rw [if_pos c2]; rfl
  rw [if_neg c2]
  by_cases c3 : nRecId = BIFF2_ID_BOOLERR ∨ nRecId = BIFF3_ID_BOOLERR
  · rw [if_pos c3]; rfl
  rw [if_neg c3]
  by_cases c4 : nRecId = BIFF2_ID_INTEGER
  · rw [if_pos c4]; rfl
  rw [if_neg c4]
  by_cases c4' : nRecId = BIFF_ID_IXFE
  · rw [if_pos c4']; rfl
  rw [if_neg c4']
  by_cases c5 : nRecId = BIFF2_ID_LABEL ∨ nRecId = BIFF3_ID_LABEL
  · rw [if_pos c5]; rfl
  rw [if_neg c5]
  by_cases c6 : nRecId = BIFF2_ID_NUMBER ∨ nRecId = BIFF3_ID_NUMBER
  · rw [if_pos c6]; rfl
  rw [if_neg c6]
  by_cases c7 : nRecId = BIFF_ID_RK
  · rw [if_pos c7]; rfl
  rw [if_neg c7]
  cases hb : st.getBiff <;> simp only
  · split
    · rfl
    split
    · rfl
    split
    · exact importFormula_isSome env renv st rStrm hf
    split <;> rfl
  · split
    · rfl
    split
    · exact importFormula_isSome env renv st rStrm hf
    split <;> rfl
  · split
    · rfl
    split
    · exact importFormula_isSome env renv st rStrm hf
    split <;> rfl
  · exact importRecord5_isSome env renv venv st nRecId rStrm hf
  · split
    · rfl
    · exact importRecord5_isSome env renv venv st nRecId rStrm hf
  · rfl

/-- In a context of an unknown version every record but an array record is decoded
without a skip size. -/
theorem importRecord_unknown_isSome (env : Env) (renv : RecordEnv) (venv : ValueEnv)
    (st : BiffSheetDataContext) (nRecId : Nat) (rStrm : BinaryInputStream)
    (hb : st.getBiff = .BIFF_UNKNOWN)
    (c1 : ¬ (nRecId = BIFF2_ID_ARRAY ∨ nRecId = BIFF3_ID_ARRAY)) :
    (st.importRecord env renv venv nRecId rStrm).isSome = true := by
  unfold BiffSheetDataContext.importRecord
  rw [if_neg c1]
  by_cases c2 : nRecId = BIFF2_ID_BLANK ∨ nRecId = BIFF3_ID_BLANK
  · rw [if_pos c2]; rfl
  rw [if_neg c2]
  by_cases c3 : nRecId = BIFF2_ID_BOOLERR ∨ nRecId = BIFF3_ID_BOOLERR
  · rw [if_pos c3]; rfl
  rw [if_neg c3]
  by_cases c4 : nRecId = BIFF2_ID_INTEGER
  · rw [if_pos c4]; rfl
  rw [if_neg c4]
  by_cases c4' : nRecId = BIFF_ID_IXFE
  · rw [if_pos c4']; rfl
  rw [if_neg c4']
  by_cases c5 : nRecId = BIFF2_ID_LABEL ∨ nRecId = BIFF3_ID_LABEL
  · rw [if_pos c5]; rfl
  rw [if_neg c5]
  by_cases c6 : nRecId = BIFF2_ID_NUMBER ∨ nRecId = BIFF3_ID_NUMBER
  · rw [if_pos c6]; rfl
  rw [if_neg c6]
  by_cases c7 : nRecId = BIFF_ID_RK
  · rw [if_pos c7]; rfl
  rw [if_neg c7, hb]
  rfl

theorem importRecord_ixfe (env : Env) (renv : RecordEnv) (venv : ValueEnv)
    (st : BiffSheetDataContext) (rStrm : BinaryInputStream) :
    st.importRecord env renv venv BIFF_ID_IXFE rStrm =
      some (rStrm.readuInt16.2, { st with mnBiff2XfId := rStrm.readuInt16.1 }) := by
  unfold BiffSheetDataContext.importRecord
  rw [if_neg (by decide), if_neg (by decide), if_neg (by decide), if_neg (by decide),
    if_pos rfl]

/-! ## Claims on the legacy set-up and the format of a cell -/

/-- C22, counterexample: the context constructed for an unknown version has no skip
sizes, decodes a blank record for `A1` like a context of a known version, and the array
record that follows for the range `A1:A1` reads the array skip size that was never
assigned. -/
theorem C22_counterexample :
    (BiffSheetDataContext.new .BIFF_UNKNOWN 0).mnFormulaSkipSize = none ∧
    (BiffSheetDataContext.new .BIFF_UNKNOWN 0).mnArraySkipSize = none ∧
    sampleUnknownBiff.mrSheetData =
      [.extendUsedArea { Sheet := 0, Column := 0, Row := 0 },
       .setBlankCell { maCellAddr := { Sheet := 0, Column := 0, Row := 0 },
                       mnCellType := .XML_TOKEN_INVALID, mnXfId := 15,
                       mbShowPhonetic := false }] ∧
    (sampleUnknownBiff.importRecord sampleEnv sampleRecordEnv sampleValueEnv BIFF3_ID_ARRAY
      { maData := [0, 0, 0, 0, 0, 0, 0, 0, 1, 2], mbEof := false }).isSome = false := by
  decide

/-- C22, amended: the constructor assigns both skip sizes exactly for the versions BIFF2
to BIFF8 and leaves them unassigned for an unknown version, for which it still returns a
context; a context with both sizes assigned decodes every record with them, and in a
context of an unknown version no record but an array record reaches a function that
reads a skip size. -/
theorem C22_skip_sizes_assigned_for_known_versions (env : Env) (renv : RecordEnv)
    (venv : ValueEnv) :
    (∀ (eBiff : BiffType) (nSheet : Int),
      (BiffSheetDataContext.new eBiff nSheet).mnFormulaSkipSize.isSome =
          decide (eBiff ≠ .BIFF_UNKNOWN) ∧
        (BiffSheetDataContext.new eBiff nSheet).mnArraySkipSize.isSome =
          decide (eBiff ≠ .BIFF_UNKNOWN)) ∧
    (∀ (st : BiffSheetDataContext) (nRecId : Nat) (rStrm : BinaryInputStream),
      st.mnFormulaSkipSize.isSome = true → st.mnArraySkipSize.isSome = true →
        (st.importRecord env renv venv nRecId rStrm).isSome = true) ∧
    (∀ (st : BiffSheetDataContext) (nRecId : Nat) (rStrm : BinaryInputStream),
      st.getBiff = .BIFF_UNKNOWN → nRecId ≠ BIFF2_ID_ARRAY → nRecId ≠ BIFF3_ID_ARRAY →
        (st.importRecord env renv venv nRecId rStrm).isSome = true) := by
  refine ⟨?_, ?_, ?_⟩
  · intro eBiff nSheet
    cases eBiff <;> exact ⟨rfl, rfl⟩
  · intro st nRecId rStrm hf ha
    exact importRecord_isSome env renv venv st nRecId rStrm hf ha
  · intro st nRecId rStrm hb h2 h3
    exact importRecord_unknown_isSome env renv venv st nRecId rStrm hb
      (fun h => h.elim h2 h3)

/-- C22, the amended statement on a formula record in a BIFF5 context and on a formula
record in the context of an unknown version. -/
theorem C22_witness :
    ((BiffSheetDataContext.new .BIFF5 0).importRecord sampleEnv sampleRecordEnv sampleValueEnv
        BIFF3_ID_FORMULA { maData := [0, 0, 0, 0, 15, 0], mbEof := false }).isSome = true ∧
    (sampleUnknownBiff.importRecord sampleEnv sampleRecordEnv sampleValueEnv
        BIFF3_ID_FORMULA { maData := [0, 0, 0, 0, 15, 0], mbEof := false }).isSome = true :=
  ⟨(C22_skip_sizes_assigned_for_known_versions sampleEnv sampleRecordEnv sampleValueEnv).2.1
      (BiffSheetDataContext.new .BIFF5 0) BIFF3_ID_FORMULA
      { maData := [0, 0, 0, 0, 15, 0], mbEof := false } (by decide) (by decide),
   (C22_skip_sizes_assigned_for_known_versions sampleEnv sampleRecordEnv sampleValueEnv).2.2
      sampleUnknownBiff BIFF3_ID_FORMULA
      { maData := [0, 0, 0, 0, 15, 0], mbEof := false } (by decide) (by decide) (by decide)⟩

/-- C23: the constructor assigns the skip sizes 9 and 1 for BIFF2, 10 and 2 for BIFF3 and
BIFF4, 14 and 6 for BIFF5 and BIFF8; whenever both are assigned the formula skip size is
the array skip size plus 8; `importRecord` returns for every record in a context with
both sizes assigned, and whenever it returns both sizes are what they were before. -/
theorem C23_skip_size_table_fixed (env : Env) (renv : RecordEnv) (venv : ValueEnv) :
    (∀ nSheet : Int,
      ((BiffSheetDataContext.new .BIFF2 nSheet).mnFormulaSkipSize = some 9 ∧
        (BiffSheetDataContext.new .BIFF2 nSheet).mnArraySkipSize = some 1) ∧
      ((BiffSheetDataContext.new .BIFF3 nSheet).mnFormulaSkipSize = some 10 ∧
        (BiffSheetDataContext.new .BIFF3 nSheet).mnArraySkipSize = some 2) ∧
      ((BiffSheetDataContext.new .BIFF4 nSheet).mnFormulaSkipSize = some 10 ∧
        (BiffSheetDataContext.new .BIFF4 nSheet).mnArraySkipSize = some 2) ∧
      ((BiffSheetDataContext.new .BIFF5 nSheet).mnFormulaSkipSize = some 14 ∧
        (BiffSheetDataContext.new .BIFF5 nSheet).mnArraySkipSize = some 6) ∧
      ((BiffSheetDataContext.new .BIFF8 nSheet).mnFormulaSkipSize = some 14 ∧
        (BiffSheetDataContext.new .BIFF8 nSheet).mnArraySkipSize = some 6)) ∧
    (∀ (eBiff : BiffType) (nSheet : Int) (nFormula nArray : Nat),
      (BiffSheetDataContext.new eBiff nSheet).mnFormulaSkipSize = some nFormula →
      (BiffSheetDataContext.new eBiff nSheet).mnArraySkipSize = some nArray →
        nFormula = nArray + 8) ∧
    (∀ (st : BiffSheetDataContext) (nRecId : Nat) (rStrm : BinaryInputStream),
      st.mnFormulaSkipSize.isSome = true → st.mnArraySkipSize.isSome = true →
        (st.importRecord env renv venv nRecId rStrm).isSome = true) ∧
    (∀ (st : BiffSheetDataContext) (nRecId : Nat) (rStrm : BinaryInputStream)
      (r : BinaryInputStream × BiffSheetDataContext),
      st.importRecord env renv venv nRecId rStrm = some r →
        r.2.mnFormulaSkipSize = st.mnFormulaSkipSize ∧
          r.2.mnArraySkipSize = st.mnArraySkipSize) := by
  refine ⟨fun _ => ⟨⟨rfl, rfl⟩, ⟨rfl, rfl⟩, ⟨rfl, rfl⟩, ⟨rfl, rfl⟩, ⟨rfl, rfl⟩⟩, ?_, ?_, ?_⟩
  · intro eBiff nSheet nFormula nArray hf ha
    cases eBiff <;> simp [BiffSheetDataContext.new] at hf ha <;> omega
  · intro st nRecId rStrm hf ha
    exact importRecord_isSome env renv venv st nRecId rStrm hf ha
  · intro st nRecId rStrm r h
    by_cases hid : nRecId = BIFF_ID_IXFE
    · subst hid
      rw [importRecord_ixfe] at h
      cases h
      exact ⟨rfl, rfl⟩
    · have hs := importRecord_sameSetup env renv venv st nRecId rStrm r hid h
      exact ⟨hs.2.2.1, hs.2.2.2.1⟩

/-- C23 on the BIFF5 context of sheet 0 and a formula record for the cell `A1`. -/
theorem C23_witness :
    (14 : Nat) = 6 + 8 ∧
    ((BiffSheetDataContext.new .BIFF5 0).importRecord sampleEnv sampleRecordEnv sampleValueEnv
        BIFF3_ID_FORMULA { maData := [0, 0, 0, 0, 15, 0], mbEof := false }).isSome = true ∧
    (((BiffSheetDataContext.new .BIFF5 0).readCellXfId sampleEnv
          { maData := [15, 0], mbEof := false } { mnCol := 0, mnRow := 0 } false).2.2.call
        (.setBlankCell { maCellAddr := { Sheet := 0, Column := 0, Row := 0 },
                         mnCellType := .XML_TOKEN_INVALID, mnXfId := 15,
                         mbShowPhonetic := false })).mnFormulaSkipSize =
        (BiffSheetDataContext.new .BIFF5 0).mnFormulaSkipSize ∧
    (((BiffSheetDataContext.new .BIFF5 0).readCellXfId sampleEnv
          { maData := [15, 0], mbEof := false } { mnCol := 0, mnRow := 0 } false).2.2.call
        (.setBlankCell { maCellAddr := { Sheet := 0, Column := 0, Row := 0 },
                         mnCellType := .XML_TOKEN_INVALID, mnXfId := 15,
                         mbShowPhonetic := false })).mnArraySkipSize =
        (BiffSheetDataContext.new .BIFF5 0).mnArraySkipSize :=
  ⟨(C23_skip_size_table_fixed sampleEnv sampleRecordEnv sampleValueEnv).2.1 .BIFF5 0 14 6
      rfl rfl,
   (C23_skip_size_table_fixed sampleEnv sampleRecordEnv sampleValueEnv).2.2.1
      (BiffSheetDataContext.new .BIFF5 0) BIFF3_ID_FORMULA
      { maData := [0, 0, 0, 0, 15, 0], mbEof := false } (by decide) (by decide),
   (C23_skip_size_table_fixed sampleEnv sampleRecordEnv sampleValueEnv).2.2.2
      (BiffSheetDataContext.new .BIFF5 0) BIFF3_ID_BLANK
      { maData := [0, 0, 0, 0, 15, 0], mbEof := false }
      ({ maData := [], mbEof := false },
       ((BiffSheetDataContext.new .BIFF5 0).readCellXfId sampleEnv
          { maData := [15, 0], mbEof := false } { mnCol := 0, mnRow := 0 } false).2.2.call
        (.setBlankCell { maCellAddr := { Sheet := 0, Column := 0, Row := 0 },
                         mnCellType := .XML_TOKEN_INVALID, mnXfId := 15,
                         mbShowPhonetic := false }))
      rfl⟩

theorem extractValue_low6 (n : Nat) : extractValue n 0 6 = ((n % 64 : Nat) : Int) := by
  simp [extractValue]

/-- C27: for a valid address, a BIFF2 cell in a file with cell formats takes the low 6
bits of the first formatting byte as format id, and the value of the last IXFE record (0
without one) when these bits are 63; in a file without cell formats the format id of the
cell data stays as it was and the three formatting bytes go to the inline formatting; a
BIFF3 to BIFF8 cell takes the 16-bit field.  Whether the file has cell formats is asked
on the first BIFF2 cell only: the answer is stored, and no record changes a stored
answer or, except for an IXFE record, the stored IXFE value. -/
theorem C27_legacy_format_id_resolution (env : Env) (renv : RecordEnv) (venv : ValueEnv)
    (st : BiffSheetDataContext) (rStrm : BinaryInputStream) (rAddr : BinAddress)
    (aAddr : CellAddress)
    (hAddr : env.mrAddressConv.convertBinToCellAddress rAddr st.mnSheet = some aAddr) :
    (st.mobBiff2HasXfs.getD env.mbHasCellXf0 = true →
      (st.readCellXfId env rStrm rAddr true).1 = true ∧
      (st.readCellXfId env rStrm rAddr true).2.2.maCellData.mnXfId =
        (if rStrm.readuInt8.1 % 64 = 63 then (st.mnBiff2XfId : Int)
         else ((rStrm.readuInt8.1 % 64 : Nat) : Int)) ∧
      (st.readCellXfId env rStrm rAddr true).2.2.mrSheetData =
        st.mrSheetData ++ [.extendUsedArea aAddr]) ∧
    (st.mobBiff2HasXfs.getD env.mbHasCellXf0 = false →
      (st.readCellXfId env rStrm rAddr true).1 = true ∧
      (st.readCellXfId env rStrm rAddr true).2.2.maCellData.mnXfId = st.maCellData.mnXfId ∧
      (st.readCellXfId env rStrm rAddr true).2.2.mrSheetData =
        st.mrSheetData ++
          [.extendUsedArea aAddr,
           .writeBiff2CellFormat aAddr rStrm.readuInt8.1 rStrm.readuInt8.2.readuInt8.1
             rStrm.readuInt8.2.readuInt8.2.readuInt8.1]) ∧
    ((st.readCellXfId env rStrm rAddr false).1 = true ∧
      (st.readCellXfId env rStrm rAddr false).2.2.maCellData.mnXfId =
        (rStrm.readuInt16.1 : Int) ∧
      rStrm.readuInt16.1 < 65536 ∧
      (st.readCellXfId env rStrm rAddr false).2.2.mrSheetData =
        st.mrSheetData ++ [.extendUsedArea aAddr]) ∧
    (st.readCellXfId env rStrm rAddr true).2.2.mobBiff2HasXfs =
      some (st.mobBiff2HasXfs.getD env.mbHasCellXf0) ∧
    (st.readCellXfId env rStrm rAddr false).2.2.mobBiff2HasXfs = st.mobBiff2HasXfs ∧
    st.importRecord env renv venv BIFF_ID_IXFE rStrm =
      some (rStrm.readuInt16.2, { st with mnBiff2XfId := rStrm.readuInt16.1 }) ∧
    (∀ (eBiff : BiffType) (nSheet : Int),
      (BiffSheetDataContext.new eBiff nSheet).mnBiff2XfId = 0 ∧
        (BiffSheetDataContext.new eBiff nSheet).mobBiff2HasXfs = none) ∧
    (∀ (nRecId : Nat) (rRec : BinaryInputStream) (r : BinaryInputStream × BiffSheetDataContext),
      st.importRecord env renv venv nRecId rRec = some r →
        (nRecId ≠ BIFF_ID_IXFE → r.2.mnBiff2XfId = st.mnBiff2XfId) ∧
          ∀ x : Bool, st.mobBiff2HasXfs = some x → r.2.mobBiff2HasXfs = some x) := by
  refine ⟨?_, ?_, ?_, ?_, ?_, importRecord_ixfe env renv venv st rStrm, fun _ _ => ⟨rfl, rfl⟩, ?_⟩
  · intro hx
    unfold BiffSheetDataContext.readCellXfId
    simp only [hAddr, BiffSheetDataContext.call, if_true, hx, extractValue_low6,
      BIFF2_CELL_USEIXFE]
    refine ⟨trivial, ?_, trivial⟩
    by_cases h63 : rStrm.readuInt8.1 % 64 = 63
    · simp [h63]
    · have h63' : ¬ (((rStrm.readuInt8.1 % 64 : Nat) : Int) = 63) := by
        intro h
        apply h63
        exact_mod_cast h
      rw [if_neg h63, if_neg h63']
  · intro hx
    unfold BiffSheetDataContext.readCellXfId
    simp [hAddr, BiffSheetDataContext.call, hx]
  · refine ⟨?_, ?_, readValue_lt rStrm 2, ?_⟩ <;>
      simp [BiffSheetDataContext.readCellXfId, hAddr, BiffSheetDataContext.call]
  · unfold BiffSheetDataContext.readCellXfId
    simp only [hAddr, BiffSheetDataContext.call, if_true]
    split <;> rfl
  · unfold BiffSheetDataContext.readCellXfId
    simp [hAddr, BiffSheetDataContext.call]
  · intro nRecId rRec r h
    by_cases hid : nRecId = BIFF_ID_IXFE
    · subst hid
      rw [importRecord_ixfe] at h
      cases h
      exact ⟨fun hn => absurd rfl hn, fun _ hx => hx⟩
    · have hs := importRecord_sameSetup env renv venv st nRecId rRec r hid h
      exact ⟨fun _ => hs.2.2.2.2.1, hs.2.2.2.2.2⟩

/-- C27 on the first cell `A1` of a BIFF2 sheet in a file with cell formats, with the
formatting bytes 127, 0, 0: the low 6 bits are 63 and no IXFE record came before, so the
format id is 0. -/
theorem C27_witness :
    sampleEnv.mrAddressConv.convertBinToCellAddress { mnCol := 0, mnRow := 0 }
        (BiffSheetDataContext.new .BIFF2 0).mnSheet =
      some { Sheet := 0, Column := 0, Row := 0 } ∧
    ((BiffSheetDataContext.new .BIFF2 0).readCellXfId sampleEnv
        { maData := [127, 0, 0], mbEof := false } { mnCol := 0, mnRow := 0 }
        true).2.2.maCellData.mnXfId = 0 ∧
    ((BiffSheetDataContext.new .BIFF2 0).readCellXfId sampleEnv
        { maData := [127, 0, 0], mbEof := false } { mnCol := 0, mnRow := 0 }
        true).2.2.mobBiff2HasXfs = some true := by
  have h := C27_legacy_format_id_resolution sampleEnv sampleRecordEnv sampleValueEnv
    (BiffSheetDataContext.new .BIFF2 0) { maData := [127, 0, 0], mbEof := false }
    { mnCol := 0, mnRow := 0 } { Sheet := 0, Column := 0, Row := 0 } (by decide)
  refine ⟨by decide, ?_, h.2.2.2.1⟩
  have h1 := (h.1 (by decide)).2.1
  rw [h1]
  decide

/-! ## Rejected cell records of the BIFF12 format -/

theorem readCellHeader_rejected (env : Env) (st : SheetDataContext)
    (rStrm : BinaryInputStream) (eCellType : CellType)
    (h : env.mrAddressConv.convertBinToCellAddress (st.readCellPos rStrm eCellType).2
      st.mnSheet = none) :
    st.readCellHeader env rStrm eCellType =
      (false, (st.readCellPos rStrm eCellType).1.readuInt32.2,
       { st with
         maCurrPos := (st.readCellPos rStrm eCellType).2
         maCellData :=
           { st.maCellData with
             mnXfId := extractValue (st.readCellPos rStrm eCellType).1.readuInt32.1 0 24
             mbShowPhonetic :=
               getFlag (st.readCellPos rStrm eCellType).1.readuInt32.1
                 BIFF12_CELL_SHOWPHONETIC } }) := by
  cases eCellType <;>
    simp only [SheetDataContext.readCellPos] at h <;>
    simp [SheetDataContext.readCellHeader, SheetDataContext.readCellPos, h]

/-- C29: a blank cell record for column 5000 in a sheet with 1024 columns is rejected by
`readCellHeader` without a sink call, but the format id and the phonetic flag of the cell
data, -1 and off before the record, are 7 and on behind it; the claim has them keep their
values, as they do in the element format and in the legacy format. -/
theorem C29_rejected_record_overwrites_format_id :
    (sampleRecCell.readCellHeader sampleEnv sampleFarCellRecord .CELLTYPE_VALUE).1 = false ∧
    (sampleRecCell.importCellBlank sampleEnv sampleFarCellRecord .CELLTYPE_VALUE).2.mrSheetData =
      sampleRecCell.mrSheetData ∧
    sampleRecCell.maCellData.mnXfId = -1 ∧
    sampleRecCell.maCellData.mbShowPhonetic = false ∧
    (sampleRecCell.importCellBlank sampleEnv sampleFarCellRecord
      .CELLTYPE_VALUE).2.maCellData.mnXfId = 7 ∧
    (sampleRecCell.importCellBlank sampleEnv sampleFarCellRecord
      .CELLTYPE_VALUE).2.maCellData.mbShowPhonetic = true := by
  decide

/-- When the address of a BIFF12 cell record is invalid, `readCellHeader` returns false
and every import function of a cell record returns without a sink call; the address and
the type of the cell data and all other members stay as they were, but the format id and
the phonetic flag of the cell data are those of the rejected record, and the column of
the current position is the one of the rejected record. -/
theorem rejected_record_state (env : Env) (renv : RecordEnv)
    (venv : ValueEnv) (st : SheetDataContext) (rStrm : BinaryInputStream)
    (eCellType : CellType)
    (h : env.mrAddressConv.convertBinToCellAddress (st.readCellPos rStrm eCellType).2
      st.mnSheet = none) :
    st.readCellHeader env rStrm eCellType =
      (false, (st.readCellPos rStrm eCellType).1.readuInt32.2,
       { st with
         maCurrPos := (st.readCellPos rStrm eCellType).2
         maCellData :=
           { st.maCellData with
             mnXfId := extractValue (st.readCellPos rStrm eCellType).1.readuInt32.1 0 24
             mbShowPhonetic :=
               getFlag (st.readCellPos rStrm eCellType).1.readuInt32.1
                 BIFF12_CELL_SHOWPHONETIC } }) ∧
    st.importCellBool env renv rStrm eCellType =
      ((st.readCellHeader env rStrm eCellType).2.1, (st.readCellHeader env rStrm eCellType).2.2) ∧
    st.importCellBlank env rStrm eCellType =
      ((st.readCellHeader env rStrm eCellType).2.1, (st.readCellHeader env rStrm eCellType).2.2) ∧
    st.importCellDouble env renv venv rStrm eCellType =
      ((st.readCellHeader env rStrm eCellType).2.1, (st.readCellHeader env rStrm eCellType).2.2) ∧
    st.importCellError env renv rStrm eCellType =
      ((st.readCellHeader env rStrm eCellType).2.1, (st.readCellHeader env rStrm eCellType).2.2) ∧
    st.importCellRk env venv rStrm eCellType =
      ((st.readCellHeader env rStrm eCellType).2.1, (st.readCellHeader env rStrm eCellType).2.2) ∧
    st.importCellRString env venv rStrm eCellType =
      ((st.readCellHeader env rStrm eCellType).2.1, (st.readCellHeader env rStrm eCellType).2.2) ∧
    st.importCellSi env rStrm eCellType =
      ((st.readCellHeader env rStrm eCellType).2.1, (st.readCellHeader env rStrm eCellType).2.2) ∧
    st.importCellString env renv venv rStrm eCellType =
      ((st.readCellHeader env rStrm eCellType).2.1, (st.readCellHeader env rStrm eCellType).2.2) := by
  have hr := readCellHeader_rejected env st rStrm eCellType h
  refine ⟨hr, ?_, ?_, ?_, ?_, ?_, ?_, ?_, ?_⟩
  · simp [SheetDataContext.importCellBool, hr]
  · simp [SheetDataContext.importCellBlank, hr]
  · simp [SheetDataContext.importCellDouble, hr]
  · simp [SheetDataContext.importCellError, hr]
  · simp [SheetDataContext.importCellRk, hr]
  · simp [SheetDataContext.importCellRString, hr]
  · simp [SheetDataContext.importCellSi, hr]
  · simp [SheetDataContext.importCellString, hr]

/-! ## Bit fields of the row records -/

theorem getFlag_two_pow (n j : Nat) : getFlag n (2 ^ j) = n.testBit j := by
  have h : getFlag n (2 ^ j) = (n &&& 2 ^ j != 0) := rfl
  rw [h, Nat.and_two_pow]
  cases n.testBit j <;> simp

theorem getFlag_flip (n k j : Nat) (h : k ≠ j) :
    getFlag (n ^^^ 2 ^ k) (2 ^ j) = getFlag n (2 ^ j) := by
  rw [getFlag_two_pow, getFlag_two_pow, Nat.testBit_xor, Nat.testBit_two_pow]
  simp [h]

theorem extractValue_flip (n k s c : Nat) (h : k < s ∨ s + c ≤ k) :
    extractValue (n ^^^ 2 ^ k) s c = extractValue n s c := by
  unfold extractValue
  congr 1
  apply Nat.eq_of_testBit_eq
  intro i
  rw [← Nat.shiftRight_eq_div_pow, ← Nat.shiftRight_eq_div_pow, Nat.testBit_mod_two_pow,
    Nat.testBit_mod_two_pow, Nat.testBit_shiftRight, Nat.testBit_shiftRight, Nat.testBit_xor,
    Nat.testBit_two_pow]
  by_cases hi : i < c
  · have hk : ¬ (k = s + i) := by omega
    simp [hk]
  · simp [hi]

/-- A flag changes with bit `k` of the word only when `k` is the bit of the flag. -/
theorem flag_changed (n k j nMask : Nat) (hMask : nMask = 2 ^ j) :
    (if getFlag n nMask = getFlag (n ^^^ 2 ^ k) nMask then 0 else 1 : Nat) = 0 ∨
      ((if getFlag n nMask = getFlag (n ^^^ 2 ^ k) nMask then 0 else 1 : Nat) = 1 ∧ k = j) := by
  subst hMask
  by_cases hk : k = j
  · by_cases he : getFlag n (2 ^ j) = getFlag (n ^^^ 2 ^ k) (2 ^ j)
    · left; rw [if_pos he]
    · right; rw [if_neg he]; exact ⟨rfl, hk⟩
  · left
    rw [if_pos (getFlag_flip n k j hk).symm]

/-- A value changes with bit `k` of the word only when `k` is one of the bits of the
value. -/
theorem value_changed (n k s c : Nat) :
    (if extractValue n s c = extractValue (n ^^^ 2 ^ k) s c then 0 else 1 : Nat) = 0 ∨
      ((if extractValue n s c = extractValue (n ^^^ 2 ^ k) s c then 0 else 1 : Nat) = 1 ∧
        s ≤ k ∧ k < s + c) := by
  by_cases hk : k < s ∨ s + c ≤ k
  · left
    rw [if_pos (extractValue_flip n k s c hk).symm]
  · by_cases he : extractValue n s c = extractValue (n ^^^ 2 ^ k) s c
    · left; rw [if_pos he]
    · right; rw [if_neg he]; exact ⟨rfl, by omega, by omega⟩

theorem insertColSpan_flags (m : RowModel) (s : ValueRange) :
    ((m.insertColSpan s).mnXfId, (m.insertColSpan s).mnLevel, (m.insertColSpan s).mbCustomHeight,
      (m.insertColSpan s).mbCustomFormat, (m.insertColSpan s).mbShowPhonetic,
      (m.insertColSpan s).mbHidden, (m.insertColSpan s).mbCollapsed,
      (m.insertColSpan s).mbThickTop, (m.insertColSpan s).mbThickBottom) =
    (m.mnXfId, m.mnLevel, m.mbCustomHeight, m.mbCustomFormat, m.mbShowPhonetic, m.mbHidden,
      m.mbCollapsed, m.mbThickTop, m.mbThickBottom) := by
  unfold RowModel.insertColSpan
  split <;> rfl

/-- The members of the BIFF12 row model that come from the flags. -/
theorem importRowRecModel_flags (env : Env) (rStrm : BinaryInputStream) :
    (SheetDataContext.importRowRecModel env rStrm).mnXfId =
        (SheetDataContext.readRowHeader rStrm).mnXfId ∧
    (SheetDataContext.importRowRecModel env rStrm).mnLevel =
        extractValue (SheetDataContext.readRowHeader rStrm).nFlags1 8 3 ∧
    (SheetDataContext.importRowRecModel env rStrm).mbCustomHeight =
        getFlag (SheetDataContext.readRowHeader rStrm).nFlags1 BIFF12_ROW_CUSTOMHEIGHT ∧
    (SheetDataContext.importRowRecModel env rStrm).mbCustomFormat =
        getFlag (SheetDataContext.readRowHeader rStrm).nFlags1 BIFF12_ROW_CUSTOMFORMAT ∧
    (SheetDataContext.importRowRecModel env rStrm).mbShowPhonetic =
        getFlag (SheetDataContext.readRowHeader rStrm).nFlags2 BIFF12_ROW_SHOWPHONETIC ∧
    (SheetDataContext.importRowRecModel env rStrm).mbHidden =
        getFlag (SheetDataContext.readRowHeader rStrm).nFlags1 BIFF12_ROW_HIDDEN ∧
    (SheetDataContext.importRowRecModel env rStrm).mbCollapsed =
        getFlag (SheetDataContext.readRowHeader rStrm).nFlags1 BIFF12_ROW_COLLAPSED ∧
    (SheetDataContext.importRowRecModel env rStrm).mbThickTop =
        getFlag (SheetDataContext.readRowHeader rStrm).nFlags1 BIFF12_ROW_THICKTOP ∧
    (SheetDataContext.importRowRecModel env rStrm).mbThickBottom =
        getFlag (SheetDataContext.readRowHeader rStrm).nFlags1 BIFF12_ROW_THICKBOTTOM := by
  have h := foldl_insertColSpan_inv
    (fun m => (m.mnXfId, m.mnLevel, m.mbCustomHeight, m.mbCustomFormat, m.mbShowPhonetic,
      m.mbHidden, m.mbCollapsed, m.mbThickTop, m.mbThickBottom)) insertColSpan_flags
  unfold SheetDataContext.importRowRecModel
  simp only [Prod.mk.injEq] at h
  simp only
  exact h _ _

/-- The members of the row model of BIFF3 to BIFF8 that come from the flags. -/
theorem biff_importRowModel_flags (env : Env) (st : BiffSheetDataContext)
    (rStrm : BinaryInputStream) (hb : st.getBiff ≠ .BIFF2) :
    (st.importRowModel env rStrm).mnXfId =
        extractValue (BiffSheetDataContext.rowFlags rStrm) 16 12 ∧
    (st.importRowModel env rStrm).mnLevel =
        extractValue (BiffSheetDataContext.rowFlags rStrm) 0 3 ∧
    (st.importRowModel env rStrm).mbCustomHeight =
        getFlag (BiffSheetDataContext.rowFlags rStrm) BIFF_ROW_CUSTOMHEIGHT ∧
    (st.importRowModel env rStrm).mbCustomFormat =
        getFlag (BiffSheetDataContext.rowFlags rStrm) BIFF_ROW_CUSTOMFORMAT ∧
    (st.importRowModel env rStrm).mbShowPhonetic =
        getFlag (BiffSheetDataContext.rowFlags rStrm) BIFF_ROW_SHOWPHONETIC ∧
    (st.importRowModel env rStrm).mbHidden =
        getFlag (BiffSheetDataContext.rowFlags rStrm) BIFF_ROW_HIDDEN ∧
    (st.importRowModel env rStrm).mbCollapsed =
        getFlag (BiffSheetDataContext.rowFlags rStrm) BIFF_ROW_COLLAPSED ∧
    (st.importRowModel env rStrm).mbThickTop =
        getFlag (BiffSheetDataContext.rowFlags rStrm) BIFF_ROW_THICKTOP ∧
    (st.importRowModel env rStrm).mbThickBottom =
        getFlag (BiffSheetDataContext.rowFlags rStrm) BIFF_ROW_THICKBOTTOM := by
  have h := foldl_insertColSpan_inv
    (fun m => (m.mnXfId, m.mnLevel, m.mbCustomHeight, m.mbCustomFormat, m.mbShowPhonetic,
      m.mbHidden, m.mbCollapsed, m.mbThickTop, m.mbThickBottom)) insertColSpan_flags
  simp only [Prod.mk.injEq] at h
  have hh : (st.readRowHeader rStrm).aModel =
      { RowModel.new with
        mnXfId := extractValue (BiffSheetDataContext.rowFlags rStrm) 16 12
        mnLevel := extractValue (BiffSheetDataContext.rowFlags rStrm) 0 3
        mbCustomFormat := getFlag (BiffSheetDataContext.rowFlags rStrm) BIFF_ROW_CUSTOMFORMAT
        mbCustomHeight := getFlag (BiffSheetDataContext.rowFlags rStrm) BIFF_ROW_CUSTOMHEIGHT
        mbShowPhonetic := getFlag (BiffSheetDataContext.rowFlags rStrm) BIFF_ROW_SHOWPHONETIC
        mbHidden := getFlag (BiffSheetDataContext.rowFlags rStrm) BIFF_ROW_HIDDEN
        mbCollapsed := getFlag (BiffSheetDataContext.rowFlags rStrm) BIFF_ROW_COLLAPSED
        mbThickTop := getFlag (BiffSheetDataContext.rowFlags rStrm) BIFF_ROW_THICKTOP
        mbThickBottom := getFlag (BiffSheetDataContext.rowFlags rStrm) BIFF_ROW_THICKBOTTOM } := by
    simp only [BiffSheetDataContext.readRowHeader, if_neg hb, BiffSheetDataContext.rowFlags]
  unfold BiffSheetDataContext.importRowModel
  simp only
  have h2 := h (st.rowColSpans env rStrm)
    { (st.readRowHeader rStrm).aModel with
      mnRow := ((st.readRowHeader rStrm).nRow : Int) + 1
      mfHeight := divDouble20 (Nat.land (st.readRowHeader rStrm).nHeight BIFF_ROW_HEIGHTMASK) }
  simp only [hh] at h2 ⊢
  exact h2

/-- C24: in a BIFF12 row record the outline level is bits 8 to 10 of the first flags
field, and thick top, thick bottom, collapsed, hidden, custom height and custom format
are its bits 0, 1, 11, 12, 13 and 14 (the masks 0x0001, 0x0002, 0x0800, 0x1000, 0x2000,
0x4000); show phonetic is bit 0 of the second flags field.  In a row record of BIFF3 to
BIFF8 the outline level is bits 0 to 2 of the flags field, the format id bits 16 to 27,
and collapsed, hidden, custom height, custom format, thick top, thick bottom and show
phonetic are bits 4, 5, 6, 7, 28, 29 and 30 (the masks 0x10, 0x20, 0x40, 0x80,
0x10000000, 0x20000000, 0x40000000).  Two records whose flags field differs in one bit
`k`, all else equal, give row models that differ in at most one of these members. -/
theorem C24_row_flags_bit_fields (env : Env) (st : BiffSheetDataContext)
    (rStrm rOther : BinaryInputStream) (k : Nat) :
    ((SheetDataContext.importRowRecModel env rStrm).mnLevel =
        (((SheetDataContext.readRowHeader rStrm).nFlags1 / 2 ^ 8 % 2 ^ 3 : Nat) : Int) ∧
      (SheetDataContext.importRowRecModel env rStrm).mbThickTop =
        (SheetDataContext.readRowHeader rStrm).nFlags1.testBit 0 ∧
      (SheetDataContext.importRowRecModel env rStrm).mbThickBottom =
        (SheetDataContext.readRowHeader rStrm).nFlags1.testBit 1 ∧
      (SheetDataContext.importRowRecModel env rStrm).mbCollapsed =
        (SheetDataContext.readRowHeader rStrm).nFlags1.testBit 11 ∧
      (SheetDataContext.importRowRecModel env rStrm).mbHidden =
        (SheetDataContext.readRowHeader rStrm).nFlags1.testBit 12 ∧
      (SheetDataContext.importRowRecModel env rStrm).mbCustomHeight =
        (SheetDataContext.readRowHeader rStrm).nFlags1.testBit 13 ∧
      (SheetDataContext.importRowRecModel env rStrm).mbCustomFormat =
        (SheetDataContext.readRowHeader rStrm).nFlags1.testBit 14 ∧
      (SheetDataContext.importRowRecModel env rStrm).mbShowPhonetic =
        (SheetDataContext.readRowHeader rStrm).nFlags2.testBit 0) ∧
    (st.getBiff ≠ .BIFF2 →
      (st.importRowModel env rStrm).mnLevel =
        ((BiffSheetDataContext.rowFlags rStrm / 2 ^ 0 % 2 ^ 3 : Nat) : Int) ∧
      (st.importRowModel env rStrm).mnXfId =
        ((BiffSheetDataContext.rowFlags rStrm / 2 ^ 16 % 2 ^ 12 : Nat) : Int) ∧
      (st.importRowModel env rStrm).mbCollapsed =
        (BiffSheetDataContext.rowFlags rStrm).testBit 4 ∧
      (st.importRowModel env rStrm).mbHidden =
        (BiffSheetDataContext.rowFlags rStrm).testBit 5 ∧
      (st.importRowModel env rStrm).mbCustomHeight =
        (BiffSheetDataContext.rowFlags rStrm).testBit 6 ∧
      (st.importRowModel env rStrm).mbCustomFormat =
        (BiffSheetDataContext.rowFlags rStrm).testBit 7 ∧
      (st.importRowModel env rStrm).mbThickTop =
        (BiffSheetDataContext.rowFlags rStrm).testBit 28 ∧
      (st.importRowModel env rStrm).mbThickBottom =
        (BiffSheetDataContext.rowFlags rStrm).testBit 29 ∧
      (st.importRowModel env rStrm).mbShowPhonetic =
        (BiffSheetDataContext.rowFlags rStrm).testBit 30) ∧
    ((SheetDataContext.readRowHeader rOther).nFlags1 =
        (SheetDataContext.readRowHeader rStrm).nFlags1 ^^^ 2 ^ k →
      (SheetDataContext.readRowHeader rOther).nFlags2 =
        (SheetDataContext.readRowHeader rStrm).nFlags2 →
      (SheetDataContext.readRowHeader rOther).mnXfId =
        (SheetDataContext.readRowHeader rStrm).mnXfId →
      (SheetDataContext.importRowRecModel env rStrm).flagFieldsChanged
        (SheetDataContext.importRowRecModel env rOther) ≤ 1) ∧
    ((SheetDataContext.readRowHeader rOther).nFlags2 =
        (SheetDataContext.readRowHeader rStrm).nFlags2 ^^^ 2 ^ k →
      (SheetDataContext.readRowHeader rOther).nFlags1 =
        (SheetDataContext.readRowHeader rStrm).nFlags1 →
      (SheetDataContext.readRowHeader rOther).mnXfId =
        (SheetDataContext.readRowHeader rStrm).mnXfId →
      (SheetDataContext.importRowRecModel env rStrm).flagFieldsChanged
        (SheetDataContext.importRowRecModel env rOther) ≤ 1) ∧
    (st.getBiff ≠ .BIFF2 →
      BiffSheetDataContext.rowFlags rOther = BiffSheetDataContext.rowFlags rStrm ^^^ 2 ^ k →
      (st.importRowModel env rStrm).flagFieldsChanged (st.importRowModel env rOther) ≤ 1) := by
  obtain ⟨a1, a2, a3, a4, a5, a6, a7, a8, a9⟩ := importRowRecModel_flags env rStrm
  obtain ⟨b1, b2, b3, b4, b5, b6, b7, b8, b9⟩ := importRowRecModel_flags env rOther
  refine ⟨?_, ?_, ?_, ?_, ?_⟩
  · refine ⟨a2, ?_, ?_, ?_, ?_, ?_, ?_, ?_⟩
    · rw [a8]; exact getFlag_two_pow _ 0
    · rw [a9]; exact getFlag_two_pow _ 1
    · rw [a7]; exact getFlag_two_pow _ 11
    · rw [a6]; exact getFlag_two_pow _ 12
    · rw [a3]; exact getFlag_two_pow _ 13
    · rw [a4]; exact getFlag_two_pow _ 14
    · rw [a5]; exact getFlag_two_pow _ 0
  · intro hb
    obtain ⟨c1, c2, c3, c4, c5, c6, c7, c8, c9⟩ := biff_importRowModel_flags env st rStrm hb
    refine ⟨c2, c1, ?_, ?_, ?_, ?_, ?_, ?_, ?_⟩
    · rw [c7]; exact getFlag_two_pow _ 4
    · rw [c6]; exact getFlag_two_pow _ 5
    · rw [c3]; exact getFlag_two_pow _ 6
    · rw [c4]; exact getFlag_two_pow _ 7
    · rw [c8]; exact getFlag_two_pow _ 28
    · rw [c9]; exact getFlag_two_pow _ 29
    · rw [c5]; exact getFlag_two_pow _ 30
  · intro h1 h2 hx
    unfold RowModel.flagFieldsChanged
    rw [a1, a2, a3, a4, a5, a6, a7, a8, a9, b1, b2, b3, b4, b5, b6, b7, b8, b9, h1, h2, hx]
    have e2 := value_changed (SheetDataContext.readRowHeader rStrm).nFlags1 k 8 3
    have e3 := flag_changed (SheetDataContext.readRowHeader rStrm).nFlags1 k 13
      BIFF12_ROW_CUSTOMHEIGHT rfl
    have e4 := flag_changed (SheetDataContext.readRowHeader rStrm).nFlags1 k 14
      BIFF12_ROW_CUSTOMFORMAT rfl
    have e6 := flag_changed (SheetDataContext.readRowHeader rStrm).nFlags1 k 12
      BIFF12_ROW_HIDDEN rfl
    have e7 := flag_changed (SheetDataContext.readRowHeader rStrm).nFlags1 k 11
      BIFF12_ROW_COLLAPSED rfl
    have e8 := flag_changed (SheetDataContext.readRowHeader rStrm).nFlags1 k 0
      BIFF12_ROW_THICKTOP rfl
    have e9 := flag_changed (SheetDataContext.readRowHeader rStrm).nFlags1 k 1
      BIFF12_ROW_THICKBOTTOM rfl
    simp only [if_true]
    omega
  · intro h2 h1 hx
    unfold RowModel.flagFieldsChanged
    rw [a1, a2, a3, a4, a5, a6, a7, a8, a9, b1, b2, b3, b4, b5, b6, b7, b8, b9, h1, h2, hx]
    simp only [if_true]
    split <;> omega
  · intro hb hf
    obtain ⟨c1, c2, c3, c4, c5, c6, c7, c8, c9⟩ := biff_importRowModel_flags env st rStrm hb
    obtain ⟨d1, d2, d3, d4, d5, d6, d7, d8, d9⟩ := biff_importRowModel_flags env st rOther hb
    unfold RowModel.flagFieldsChanged
    rw [c1, c2, c3, c4, c5, c6, c7, c8, c9, d1, d2, d3, d4, d5, d6, d7, d8, d9, hf]
    have e1 := value_changed (BiffSheetDataContext.rowFlags rStrm) k 16 12
    have e2 := value_changed (BiffSheetDataContext.rowFlags rStrm) k 0 3
    have e3 := flag_changed (BiffSheetDataContext.rowFlags rStrm) k 6 BIFF_ROW_CUSTOMHEIGHT rfl
    have e4 := flag_changed (BiffSheetDataContext.rowFlags rStrm) k 7 BIFF_ROW_CUSTOMFORMAT rfl
    have e5 := flag_changed (BiffSheetDataContext.rowFlags rStrm) k 30 BIFF_ROW_SHOWPHONETIC rfl
    have e6 := flag_changed (BiffSheetDataContext.rowFlags rStrm) k 5 BIFF_ROW_HIDDEN rfl
    have e7 := flag_changed (BiffSheetDataContext.rowFlags rStrm) k 4 BIFF_ROW_COLLAPSED rfl
    have e8 := flag_changed (BiffSheetDataContext.rowFlags rStrm) k 28 BIFF_ROW_THICKTOP rfl
    have e9 := flag_changed (BiffSheetDataContext.rowFlags rStrm) k 29 BIFF_ROW_THICKBOTTOM rfl
    omega

/-- C24 on two BIFF12 row records that differ in bit 11 of the first flags field, on two
that differ in bit 0 of the second flags field, and on two BIFF5 row records that differ
in bit 17 of the flags field. -/
theorem C24_witness :
    (SheetDataContext.importRowRecModel sampleEnv
        { maData := [0, 0, 0, 0, 0, 0, 0, 0, 0, 1, 0, 3, 0, 0, 0, 0, 0], mbEof := false }
      ).flagFieldsChanged
      (SheetDataContext.importRowRecModel sampleEnv
        { maData := [0, 0, 0, 0, 0, 0, 0, 0, 0, 1, 0, 11, 0, 0, 0, 0, 0], mbEof := false }) ≤ 1 ∧
    (SheetDataContext.importRowRecModel sampleEnv
        { maData := [0, 0, 0, 0, 0, 0, 0, 0, 0, 1, 0, 3, 0, 0, 0, 0, 0], mbEof := false }
      ).flagFieldsChanged
      (SheetDataContext.importRowRecModel sampleEnv
        { maData := [0, 0, 0, 0, 0, 0, 0, 0, 0, 1, 0, 3, 1, 0, 0, 0, 0], mbEof := false }) ≤ 1 ∧
    ((BiffSheetDataContext.new .BIFF5 0).importRowModel sampleEnv
        { maData := [0, 0, 1, 0, 4, 0, 0, 0, 0, 0, 0, 0, 19, 0, 1, 0], mbEof := false }
      ).flagFieldsChanged
      ((BiffSheetDataContext.new .BIFF5 0).importRowModel sampleEnv
        { maData := [0, 0, 1, 0, 4, 0, 0, 0, 0, 0, 0, 0, 19, 0, 3, 0], mbEof := false }) ≤ 1 :=
  ⟨(C24_row_flags_bit_fields sampleEnv (BiffSheetDataContext.new .BIFF5 0)
      { maData := [0, 0, 0, 0, 0, 0, 0, 0, 0, 1, 0, 3, 0, 0, 0, 0, 0], mbEof := false }
      { maData := [0, 0, 0, 0, 0, 0, 0, 0, 0, 1, 0, 11, 0, 0, 0, 0, 0], mbEof := false }
      11).2.2.1 (by decide) (by decide) (by decide),
   (C24_row_flags_bit_fields sampleEnv (BiffSheetDataContext.new .BIFF5 0)
      { maData := [0, 0, 0, 0, 0, 0, 0, 0, 0, 1, 0, 3, 0, 0, 0, 0, 0], mbEof := false }
      { maData := [0, 0, 0, 0, 0, 0, 0, 0, 0, 1, 0, 3, 1, 0, 0, 0, 0], mbEof := false }
      0).2.2.2.1 (by decide) (by decide) (by decide),
   (C24_row_flags_bit_fields sampleEnv (BiffSheetDataContext.new .BIFF5 0)
      { maData := [0, 0, 1, 0, 4, 0, 0, 0, 0, 0, 0, 0, 19, 0, 1, 0], mbEof := false }
      { maData := [0, 0, 1, 0, 4, 0, 0, 0, 0, 0, 0, 0, 19, 0, 3, 0], mbEof := false }
      17).2.2.2.2 (by decide) (by decide)⟩

/-! ## Records for several cells -/

theorem leValue_le16 (n : Nat) (h : n < 65536) : leValue (le16 n) = n := by
  simp only [le16, leValue]
  omega

theorem leValue_le32 (n : Nat) (h : n < 4294967296) : leValue (le32 n) = n := by
  simp only [le32, leValue]
  omega

theorem readuInt16_le16 (n : Nat) (rest : List Nat) (h : n < 65536) :
    ({ maData := le16 n ++ rest, mbEof := false } : BinaryInputStream).readuInt16 =
      (n, { maData := rest, mbEof := false }) := by
  have h1 : (le16 n ++ rest).take 2 = le16 n := by simp [le16]
  have h2 : (le16 n ++ rest).drop 2 = rest := by simp [le16]
  have h3 : 2 ≤ (le16 n ++ rest).length := by simp [le16]
  simp only [BinaryInputStream.readuInt16, BinaryInputStream.readValue, h1, h2, h3,
    leValue_le16 n h, if_true, Bool.false_eq_true, if_false]

theorem readInt32_le32 (n : Nat) (rest : List Nat) (h : n < 4294967296) :
    ({ maData := le32 n ++ rest, mbEof := false } : BinaryInputStream).readInt32 =
      (toSalInt32 n, { maData := rest, mbEof := false }) := by
  have h1 : (le32 n ++ rest).take 4 = le32 n := by simp [le32]
  have h2 : (le32 n ++ rest).drop 4 = rest := by simp [le32]
  have h3 : 4 ≤ (le32 n ++ rest).length := by simp [le32]
  simp only [BinaryInputStream.readInt32, BinaryInputStream.readValue, h1, h2, h3,
    leValue_le32 n h, if_true, Bool.false_eq_true, if_false]

theorem readBinAddressBiff_multRecord (nRow nCol : Nat) (entries : List (List Nat))
    (aLast : List Nat) (hr : nRow < 65536) (hc : nCol < 65536) :
    (multRecord nRow nCol entries aLast).readBinAddressBiff =
      ({ mnCol := (nCol : Int), mnRow := (nRow : Int) },
       { maData := entries.flatten ++ aLast, mbEof := false }) := by
  unfold BinaryInputStream.readBinAddressBiff multRecord
  simp only [List.append_assoc]
  rw [readuInt16_le16 nRow _ hr]
  simp only
  rw [readuInt16_le16 nCol _ hc]

theorem importMultBlankLoop_invalid (env : Env) (nPasses : Nat) (aAddr : BinAddress)
    (rStrm : BinaryInputStream) (st : BiffSheetDataContext) :
    BiffSheetDataContext.importMultBlankLoop env nPasses aAddr false rStrm st =
      (false, rStrm, st) := by
  cases nPasses <;> simp [BiffSheetDataContext.importMultBlankLoop]

theorem importMultRkLoop_invalid (env : Env) (venv : ValueEnv) (nPasses : Nat)
    (aAddr : BinAddress) (rStrm : BinaryInputStream) (st : BiffSheetDataContext) :
    BiffSheetDataContext.importMultRkLoop env venv nPasses aAddr false rStrm st =
      (false, rStrm, st) := by
  cases nPasses <;> simp [BiffSheetDataContext.importMultRkLoop]

/-- The loop of `importMultBlank` on the format ids `xfs` and a trailing field. -/
theorem importMultBlankLoop_spec (env : Env) (aLast : List Nat) (hLast : aLast.length = 2)
    (xfs : List Nat) :
    ∀ (nPasses : Nat) (aAddr : BinAddress) (st : BiffSheetDataContext),
      (∀ x ∈ xfs, x < 65536) → xfs.length ≤ nPasses →
      ∃ (b : Bool) (aRest : List Nat) (st1 : BiffSheetDataContext),
        BiffSheetDataContext.importMultBlankLoop env nPasses aAddr true
            { maData := (xfs.map le16).flatten ++ aLast, mbEof := false } st =
          (b, { maData := aRest ++ aLast, mbEof := false }, st1) ∧
        (b = true → aRest = []) ∧
        ((∀ i : Nat, i < xfs.length →
          (env.mrAddressConv.convertBinToCellAddress
            { aAddr with mnCol := aAddr.mnCol + (i : Int) } st.mnSheet).isSome = true) →
          b = true) ∧
        st1.mrSheetData = st.mrSheetData ++
          multBlankCalls env st.mnSheet st.maCellData.mnCellType st.maCellData.mbShowPhonetic
            aAddr xfs := by
  induction xfs with
  | nil =>
    intro nPasses aAddr st _ _
    refine ⟨true, [], st, ?_, fun _ => rfl, fun _ => rfl, by simp [multBlankCalls]⟩
    cases nPasses with
    | zero => simp [BiffSheetDataContext.importMultBlankLoop]
    | succ n =>
      simp [BiffSheetDataContext.importMultBlankLoop, BinaryInputStream.getRemaining, hLast]
  | cons x rest ih =>
    intro nPasses aAddr st hx hn
    cases nPasses with
    | zero => simp at hn
    | succ n =>
      have hx0 : x < 65536 := hx x (List.mem_cons_self _ _)
      have hrest : ∀ y ∈ rest, y < 65536 := fun y hy => hx y (List.mem_cons_of_mem _ hy)
      have hn' : rest.length ≤ n := by simpa using hn
      have hlen : 2 < (((x :: rest).map le16).flatten ++ aLast).length := by
        rw [List.map_cons, List.flatten_cons, List.append_assoc, List.length_append,
          List.length_append, hLast]
        have h2 : (le16 x).length = 2 := rfl
        omega
      have hrem : decide ((BinaryInputStream.mk (((x :: rest).map le16).flatten ++ aLast)
          false).getRemaining > 2) = true := by
        simp only [BinaryInputStream.getRemaining, Bool.false_eq_true, if_false,
          decide_eq_true_eq]
        exact_mod_cast hlen
      rw [BiffSheetDataContext.importMultBlankLoop]
      simp only [hrem, Bool.and_self, if_true]
      cases hconv : env.mrAddressConv.convertBinToCellAddress aAddr st.mnSheet with
      | none =>
        have hr : st.readCellXfId env
            (BinaryInputStream.mk (((x :: rest).map le16).flatten ++ aLast) false) aAddr false =
            (false, { maData := ((x :: rest).map le16).flatten ++ aLast, mbEof := false }, st) := by
          simp [BiffSheetDataContext.readCellXfId, hconv]
        rw [hr]
        simp only [Bool.false_eq_true, if_false]
        rw [importMultBlankLoop_invalid]
        refine ⟨false, ((x :: rest).map le16).flatten, st, rfl, fun h => Bool.noConfusion h,
          ?_, ?_⟩
        · intro hall
          have h0 := hall 0 (by simp)
          simp only [Nat.cast_zero, add_zero] at h0
          rw [hconv] at h0
          exact Bool.noConfusion h0
        · simp [multBlankCalls, hconv]
      | some a =>
        have hr : st.readCellXfId env
            (BinaryInputStream.mk (((x :: rest).map le16).flatten ++ aLast) false) aAddr false =
            (true, { maData := (rest.map le16).flatten ++ aLast, mbEof := false },
             { st with
               mrSheetData := st.mrSheetData ++ [.extendUsedArea a]
               maCellData := { st.maCellData with maCellAddr := a, mnXfId := (x : Int) } }) := by
          simp [BiffSheetDataContext.readCellXfId, hconv, readuInt16_le16 _ _ hx0,
            BiffSheetDataContext.call]
        rw [hr]
        simp only [if_true]
        obtain ⟨b, aRest, st1, h1, h2, h4, h3⟩ := ih n { aAddr with mnCol := aAddr.mnCol + 1 }
          (({ st with
               mrSheetData := st.mrSheetData ++ [.extendUsedArea a]
               maCellData := { st.maCellData with maCellAddr := a, mnXfId := (x : Int) } } :
             BiffSheetDataContext).call
            (.setBlankCell { st.maCellData with maCellAddr := a, mnXfId := (x : Int) }))
          hrest hn'
        refine ⟨b, aRest, st1, h1, h2, ?_, ?_⟩
        · intro hall
          apply h4
          intro i hi
          have := hall (i + 1) (by simpa using hi)
          simpa [BiffSheetDataContext.call, BiffSheetDataContext.setCellType, add_assoc,
            add_comm 1 (i : Int)] using this
        rw [h3]
        simp [multBlankCalls, hconv, BiffSheetDataContext.call]

/-- The loop of `importMultRk` on pairs of format id and RK value and a trailing field. -/
theorem importMultRkLoop_spec (env : Env) (venv : ValueEnv) (aLast : List Nat)
    (hLast : aLast.length = 2) (entries : List (Nat × Nat)) :
    ∀ (nPasses : Nat) (aAddr : BinAddress) (st : BiffSheetDataContext),
      (∀ e ∈ entries, e.1 < 65536 ∧ e.2 < 4294967296) → entries.length ≤ nPasses →
      ∃ (b : Bool) (aRest : List Nat) (st1 : BiffSheetDataContext),
        BiffSheetDataContext.importMultRkLoop env venv nPasses aAddr true
            (BinaryInputStream.mk
              ((entries.map (fun e => le16 e.1 ++ le32 e.2)).flatten ++ aLast) false) st =
          (b, { maData := aRest ++ aLast, mbEof := false }, st1) ∧
        (b = true → aRest = []) ∧
        ((∀ i : Nat, i < entries.length →
          (env.mrAddressConv.convertBinToCellAddress
            { aAddr with mnCol := aAddr.mnCol + (i : Int) } st.mnSheet).isSome = true) →
          b = true) ∧
        st1.mrSheetData = st.mrSheetData ++
          multRkCalls env venv st.mnSheet st.maCellData.mbShowPhonetic aAddr entries := by
  induction entries with
  | nil =>
    intro nPasses aAddr st _ _
    refine ⟨true, [], st, ?_, fun _ => rfl, fun _ => rfl, by simp [multRkCalls]⟩
    cases nPasses with
    | zero => simp [BiffSheetDataContext.importMultRkLoop]
    | succ n =>
      simp [BiffSheetDataContext.importMultRkLoop, BinaryInputStream.getRemaining, hLast]
  | cons e rest ih =>
    intro nPasses aAddr st hx hn
    cases nPasses with
    | zero => simp at hn
    | succ n =>
      have hx0 := hx e (List.mem_cons_self _ _)
      have hrest : ∀ y ∈ rest, y.1 < 65536 ∧ y.2 < 4294967296 :=
        fun y hy => hx y (List.mem_cons_of_mem _ hy)
      have hn' : rest.length ≤ n := by simpa using hn
      have hlen : 2 < (((e :: rest).map (fun e => le16 e.1 ++ le32 e.2)).flatten ++
          aLast).length := by
        rw [List.map_cons, List.flatten_cons, List.append_assoc, List.length_append,
          List.length_append, List.length_append, hLast]
        have h2 : (le16 e.1).length = 2 := rfl
        omega
      have hrem : decide ((BinaryInputStream.mk
          (((e :: rest).map (fun e => le16 e.1 ++ le32 e.2)).flatten ++ aLast)
          false).getRemaining > 2) = true := by
        simp only [BinaryInputStream.getRemaining, Bool.false_eq_true, if_false,
          decide_eq_true_eq]
        exact_mod_cast hlen
      have hread2 := readInt32_le32 e.2
        ((rest.map (fun e => le16 e.1 ++ le32 e.2)).flatten ++ aLast) hx0.2
      rw [BiffSheetDataContext.importMultRkLoop]
      simp only [hrem, Bool.and_self, if_true]
      cases hconv : env.mrAddressConv.convertBinToCellAddress aAddr st.mnSheet with
      | none =>
        have hr : st.readCellXfId env
            (BinaryInputStream.mk
              (((e :: rest).map (fun e => le16 e.1 ++ le32 e.2)).flatten ++ aLast) false)
            aAddr false =
            (false, BinaryInputStream.mk
              (((e :: rest).map (fun e => le16 e.1 ++ le32 e.2)).flatten ++ aLast) false,
             st) := by
          simp [BiffSheetDataContext.readCellXfId, hconv]
        rw [hr]
        simp only [Bool.false_eq_true, if_false]
        rw [importMultRkLoop_invalid]
        refine ⟨false, ((e :: rest).map (fun e => le16 e.1 ++ le32 e.2)).flatten, st, rfl,
          fun h => Bool.noConfusion h, ?_, ?_⟩
        · intro hall
          have h0 := hall 0 (by simp)
          simp only [Nat.cast_zero, add_zero] at h0
          rw [hconv] at h0
          exact Bool.noConfusion h0
        · simp [multRkCalls, hconv]
      | some a =>
        have hr : st.readCellXfId env
            (BinaryInputStream.mk
              (((e :: rest).map (fun e => le16 e.1 ++ le32 e.2)).flatten ++ aLast) false)
            aAddr false =
            (true, BinaryInputStream.mk
              (le32 e.2 ++ ((rest.map (fun e => le16 e.1 ++ le32 e.2)).flatten ++ aLast))
              false,
             { st with
               mrSheetData := st.mrSheetData ++ [.extendUsedArea a]
               maCellData := { st.maCellData with maCellAddr := a, mnXfId := (e.1 : Int) } }) := by
          simp [BiffSheetDataContext.readCellXfId, hconv, readuInt16_le16 _ _ hx0.1,
            BiffSheetDataContext.call]
        rw [hr]
        simp only [if_true, hread2]
        obtain ⟨b, aRest, st1, h1, h2, h4, h3⟩ := ih n { aAddr with mnCol := aAddr.mnCol + 1 }
          ((({ st with
               mrSheetData := st.mrSheetData ++ [.extendUsedArea a]
               maCellData := { st.maCellData with maCellAddr := a, mnXfId := (e.1 : Int) } } :
             BiffSheetDataContext).setCellType .XML_n).call
            (.setValueCell
              { st.maCellData with maCellAddr := a, mnXfId := (e.1 : Int), mnCellType := .XML_n }
              (venv.calcDoubleFromRk (toSalInt32 e.2))))
          hrest hn'
        refine ⟨b, aRest, st1, h1, h2, ?_, ?_⟩
        · intro hall
          apply h4
          intro i hi
          have := hall (i + 1) (by simpa using hi)
          simpa [BiffSheetDataContext.call, BiffSheetDataContext.setCellType, add_assoc,
            add_comm 1 (i : Int)] using this
        rw [h3]
        simp [multRkCalls, hconv, BiffSheetDataContext.call, BiffSheetDataContext.setCellType]

theorem multBlankCalls_count (env : Env) (nSheet : Int) (nCellType : Token)
    (bShowPhonetic : Bool) (xfs : List Nat) :
    ∀ aAddr : BinAddress,
      (∀ i : Nat, i < xfs.length →
        (env.mrAddressConv.convertBinToCellAddress
          { aAddr with mnCol := aAddr.mnCol + (i : Int) } nSheet).isSome = true) →
      setterCount (multBlankCalls env nSheet nCellType bShowPhonetic aAddr xfs) = xfs.length := by
  induction xfs with
  | nil => intro aAddr _; rfl
  | cons x rest ih =>
    intro aAddr h
    have h0 := h 0 (by simp)
    simp only [Nat.cast_zero, add_zero] at h0
    obtain ⟨a, ha⟩ := Option.isSome_iff_exists.mp h0
    have hrest := ih { aAddr with mnCol := aAddr.mnCol + 1 } (by
      intro i hi
      have := h (i + 1) (by simpa using hi)
      simpa [add_assoc, add_comm 1 (i : Int)] using this)
    simp only [multBlankCalls, ha, setterCount, List.filter, SinkCall.isCellSetter,
      List.length_cons] at hrest ⊢
    rw [hrest]

theorem multRkCalls_count (env : Env) (venv : ValueEnv) (nSheet : Int)
    (bShowPhonetic : Bool) (entries : List (Nat × Nat)) :
    ∀ aAddr : BinAddress,
      (∀ i : Nat, i < entries.length →
        (env.mrAddressConv.convertBinToCellAddress
          { aAddr with mnCol := aAddr.mnCol + (i : Int) } nSheet).isSome = true) →
      setterCount (multRkCalls env venv nSheet bShowPhonetic aAddr entries) = entries.length := by
  induction entries with
  | nil => intro aAddr _; rfl
  | cons x rest ih =>
    intro aAddr h
    have h0 := h 0 (by simp)
    simp only [Nat.cast_zero, add_zero] at h0
    obtain ⟨a, ha⟩ := Option.isSome_iff_exists.mp h0
    have hrest := ih { aAddr with mnCol := aAddr.mnCol + 1 } (by
      intro i hi
      have := h (i + 1) (by simpa using hi)
      simpa [add_assoc, add_comm 1 (i : Int)] using this)
    simp only [multRkCalls, ha, setterCount, List.filter, SinkCall.isCellSetter,
      List.length_cons] at hrest ⊢
    rw [hrest]

theorem readCellXfId_stream (env : Env) (st : BiffSheetDataContext) (rStrm : BinaryInputStream)
    (rAddr : BinAddress) :
    (st.readCellXfId env rStrm rAddr false).1 = true →
      (st.readCellXfId env rStrm rAddr false).2.1 = rStrm.readuInt16.2 := by
  unfold BiffSheetDataContext.readCellXfId
  split
  · intro _; rfl
  · intro h; exact Bool.noConfusion h

theorem readValue_rest (s : BinaryInputStream) (n : Nat) :
    (s.readValue n).2.mbEof = true ∨
      ((s.readValue n).2.mbEof = false ∧ (s.readValue n).2.maData.length + n = s.maData.length) := by
  unfold BinaryInputStream.readValue
  split
  · left; assumption
  · split
    · right
      rename_i h1 h2
      refine ⟨by simpa using h1, ?_⟩
      simp only [List.length_drop]
      omega
    · left; rfl

theorem readValue_eof (s : BinaryInputStream) (n : Nat) (h : s.mbEof = true) :
    (s.readValue n).2 = s := by
  simp [BinaryInputStream.readValue, h]

/-- The loop of `importMultBlank` ends by its own condition within the passes allowed
whenever the stream has at most two bytes per pass and two more. -/
theorem importMultBlankLoop_done (env : Env) (nPasses : Nat) :
    ∀ (aAddr : BinAddress) (bValidAddr : Bool) (rStrm : BinaryInputStream)
      (st : BiffSheetDataContext),
      (rStrm.mbEof = true ∨ rStrm.maData.length ≤ 2 * nPasses + 2) →
      ¬ ((BiffSheetDataContext.importMultBlankLoop env nPasses aAddr bValidAddr rStrm st).1 =
            true ∧
          (BiffSheetDataContext.importMultBlankLoop env nPasses aAddr bValidAddr rStrm
            st).2.1.getRemaining > 2) := by
  induction nPasses with
  | zero =>
    intro aAddr bValidAddr rStrm st h
    simp only [BiffSheetDataContext.importMultBlankLoop, BinaryInputStream.getRemaining]
    rintro ⟨_, h2⟩
    rcases h with h | h
    · simp [h] at h2
    · split at h2
      · omega
      · omega
  | succ n ih =>
    intro aAddr bValidAddr rStrm st h
    rw [BiffSheetDataContext.importMultBlankLoop]
    split
    · rename_i hc
      simp only [Bool.and_eq_true, decide_eq_true_eq] at hc
      by_cases hv : (st.readCellXfId env rStrm aAddr false).1 = true
      · apply ih
        rw [readCellXfId_stream env st rStrm aAddr hv]
        rcases readValue_rest rStrm 2 with h2 | h2
        · left; exact h2
        · right
          have hne : rStrm.mbEof = false := by
            cases he : rStrm.mbEof
            · rfl
            · simp [BinaryInputStream.getRemaining, he] at hc
          rcases h with h | h
          · rw [hne] at h; exact Bool.noConfusion h
          · have := h2.2
            simp only [BinaryInputStream.readuInt16]
            omega
      · have hf : (st.readCellXfId env rStrm aAddr false).1 = false := by
          simpa using hv
        simp only [hf, importMultBlankLoop_invalid]
        rintro ⟨h1, _⟩
        exact Bool.noConfusion h1
    · rename_i hc
      rintro ⟨h1, h2⟩
      apply hc
      simp only [Bool.and_eq_true, decide_eq_true_eq]
      exact ⟨h1, h2⟩

/-- The loop of `importMultRk` ends by its own condition within the passes allowed
whenever the stream has at most two bytes per pass and two more. -/
theorem importMultRkLoop_done (env : Env) (venv : ValueEnv) (nPasses : Nat) :
    ∀ (aAddr : BinAddress) (bValidAddr : Bool) (rStrm : BinaryInputStream)
      (st : BiffSheetDataContext),
      (rStrm.mbEof = true ∨ rStrm.maData.length ≤ 2 * nPasses + 2) →
      ¬ ((BiffSheetDataContext.importMultRkLoop env venv nPasses aAddr bValidAddr rStrm st).1 =
            true ∧
          (BiffSheetDataContext.importMultRkLoop env venv nPasses aAddr bValidAddr rStrm
            st).2.1.getRemaining > 2) := by
  induction nPasses with
  | zero =>
    intro aAddr bValidAddr rStrm st h
    simp only [BiffSheetDataContext.importMultRkLoop, BinaryInputStream.getRemaining]
    rintro ⟨_, h2⟩
    rcases h with h | h
    · simp [h] at h2
    · split at h2
      · omega
      · omega
  | succ n ih =>
    intro aAddr bValidAddr rStrm st h
    rw [BiffSheetDataContext.importMultRkLoop]
    split
    · rename_i hc
      simp only [Bool.and_eq_true, decide_eq_true_eq] at hc
      have hne : rStrm.mbEof = false := by
        cases he : rStrm.mbEof
        · rfl
        · simp [BinaryInputStream.getRemaining, he] at hc
      simp only
      split
      · rename_i hv
        apply ih
        rw [readCellXfId_stream env st rStrm aAddr hv]
        rcases readValue_rest rStrm 2 with h2 | h2
        · left
          show ((rStrm.readValue 2).2.readValue 4).2.mbEof = true
          rw [readValue_eof _ 4 h2]
          exact h2
        · rcases readValue_rest (rStrm.readValue 2).2 4 with h4 | h4
          · left; exact h4
          · right
            rcases h with h | h
            · rw [hne] at h; exact Bool.noConfusion h
            · have := h2.2
              have := h4.2
              simp only [BinaryInputStream.readInt32, BinaryInputStream.readuInt16]
              omega
      · rw [importMultRkLoop_invalid]
        rintro ⟨h1, _⟩
        exact Bool.noConfusion h1
    · rename_i hc
      rintro ⟨h1, h2⟩
      apply hc
      simp only [Bool.and_eq_true, decide_eq_true_eq]
      exact ⟨h1, h2⟩

/-- For every record the loops of `importMultBlank` and `importMultRk` end by their own
condition: the passes allowed are never used up. -/
theorem importMult_done (env : Env) (venv : ValueEnv) (st : BiffSheetDataContext)
    (rStrm : BinaryInputStream) :
    ¬ ((st.importMultBlank env rStrm).1 = true ∧
        (st.importMultBlank env rStrm).2.1.getRemaining > 2) ∧
    ¬ ((st.importMultRk env venv rStrm).1 = true ∧
        (st.importMultRk env venv rStrm).2.1.getRemaining > 2) :=
  ⟨importMultBlankLoop_done env _ _ _ _ _ (Or.inr (by omega)),
   importMultRkLoop_done env venv _ _ _ _ _ (Or.inr (by omega))⟩

theorem length_le_flatten (f : Nat → List Nat) (hf : ∀ x, 0 < (f x).length) (l : List Nat) :
    l.length ≤ (l.map f).flatten.length := by
  induction l with
  | nil => simp
  | cons x rest ih =>
    have := hf x
    simp only [List.map_cons, List.flatten_cons, List.length_append, List.length_cons]
    omega

theorem length_le_flatten_pairs (f : Nat × Nat → List Nat) (hf : ∀ x, 0 < (f x).length)
    (l : List (Nat × Nat)) : l.length ≤ (l.map f).flatten.length := by
  induction l with
  | nil => simp
  | cons x rest ih =>
    have := hf x
    simp only [List.map_cons, List.flatten_cons, List.length_append, List.length_cons]
    omega

/-- C30: for a MULTBLANK record at row `nRow`, column `nCol` with the format ids `xfs`
and a trailing field of two bytes, and for a MULTRK record with pairs of format id and RK
value, the loop ends by its own condition within the passes allowed, and the calls added
to the log are those of the reference: per entry, in order, one `setBlankCell` (one
`setValueCell`) for the columns from `nCol` on with the format id of the entry, up to the
first column whose address is invalid.  The trailing field is still unread at the end,
and when all addresses are valid it is all that is left and the number of cell setter
calls is the number of entries. -/
theorem C30_records_for_several_cells (env : Env) (venv : ValueEnv) (st : BiffSheetDataContext)
    (nRow nCol : Nat) (xfs : List Nat) (entries : List (Nat × Nat)) (aLast : List Nat)
    (hRow : nRow < 65536) (hCol : nCol < 65536) (hLast : aLast.length = 2)
    (hXfs : ∀ x ∈ xfs, x < 65536)
    (hEntries : ∀ e ∈ entries, e.1 < 65536 ∧ e.2 < 4294967296) :
    (¬ ((st.importMultBlank env (multRecord nRow nCol (xfs.map le16) aLast)).1 = true ∧
        (st.importMultBlank env
          (multRecord nRow nCol (xfs.map le16) aLast)).2.1.getRemaining > 2) ∧
      (st.importMultBlank env (multRecord nRow nCol (xfs.map le16) aLast)).2.2.mrSheetData =
        st.mrSheetData ++
          multBlankCalls env st.mnSheet st.maCellData.mnCellType st.maCellData.mbShowPhonetic
            { mnCol := (nCol : Int), mnRow := (nRow : Int) } xfs ∧
      aLast <:+ (st.importMultBlank env
        (multRecord nRow nCol (xfs.map le16) aLast)).2.1.maData ∧
      (st.importMultBlank env (multRecord nRow nCol (xfs.map le16) aLast)).2.1.mbEof = false ∧
      ((∀ i : Nat, i < xfs.length →
          (env.mrAddressConv.convertBinToCellAddress
            { mnCol := (nCol : Int) + (i : Int), mnRow := (nRow : Int) } st.mnSheet).isSome =
              true) →
        (st.importMultBlank env (multRecord nRow nCol (xfs.map le16) aLast)).2.1.maData =
            aLast ∧
          setterCount (multBlankCalls env st.mnSheet st.maCellData.mnCellType
            st.maCellData.mbShowPhonetic { mnCol := (nCol : Int), mnRow := (nRow : Int) } xfs) =
              xfs.length)) ∧
    (¬ ((st.importMultRk env venv
          (multRecord nRow nCol (entries.map (fun e => le16 e.1 ++ le32 e.2)) aLast)).1 = true ∧
        (st.importMultRk env venv
          (multRecord nRow nCol (entries.map (fun e => le16 e.1 ++ le32 e.2))
            aLast)).2.1.getRemaining > 2) ∧
      (st.importMultRk env venv
          (multRecord nRow nCol (entries.map (fun e => le16 e.1 ++ le32 e.2))
            aLast)).2.2.mrSheetData =
        st.mrSheetData ++
          multRkCalls env venv st.mnSheet st.maCellData.mbShowPhonetic
            { mnCol := (nCol : Int), mnRow := (nRow : Int) } entries ∧
      aLast <:+ (st.importMultRk env venv
        (multRecord nRow nCol (entries.map (fun e => le16 e.1 ++ le32 e.2)) aLast)).2.1.maData ∧
      (st.importMultRk env venv
        (multRecord nRow nCol (entries.map (fun e => le16 e.1 ++ le32 e.2))
          aLast)).2.1.mbEof = false ∧
      ((∀ i : Nat, i < entries.length →
          (env.mrAddressConv.convertBinToCellAddress
            { mnCol := (nCol : Int) + (i : Int), mnRow := (nRow : Int) } st.mnSheet).isSome =
              true) →
        (st.importMultRk env venv
          (multRecord nRow nCol (entries.map (fun e => le16 e.1 ++ le32 e.2))
            aLast)).2.1.maData = aLast ∧
          setterCount (multRkCalls env venv st.mnSheet st.maCellData.mbShowPhonetic
            { mnCol := (nCol : Int), mnRow := (nRow : Int) } entries) = entries.length)) := by
  constructor
  · have hfuel : xfs.length ≤ ((xfs.map le16).flatten ++ aLast).length := by
      have := length_le_flatten le16 (fun _ => by simp [le16]) xfs
      rw [List.length_append]
      omega
    obtain ⟨b, aRest, st1, h1, h2, h4, h3⟩ := importMultBlankLoop_spec env aLast hLast xfs
      ((xfs.map le16).flatten ++ aLast).length { mnCol := (nCol : Int), mnRow := (nRow : Int) }
      st hXfs hfuel
    have hres : st.importMultBlank env (multRecord nRow nCol (xfs.map le16) aLast) =
        (b, { maData := aRest ++ aLast, mbEof := false }, st1) := by
      unfold BiffSheetDataContext.importMultBlank
      rw [readBinAddressBiff_multRecord nRow nCol _ aLast hRow hCol]
      exact h1
    rw [hres]
    refine ⟨?_, h3, List.suffix_append _ _, rfl, ?_⟩
    · rintro ⟨hb, hrem⟩
      have := h2 hb
      subst this
      simp [BinaryInputStream.getRemaining, hLast] at hrem
    · intro hall
      have hb := h4 hall
      have := h2 hb
      subst this
      exact ⟨rfl, multBlankCalls_count env _ _ _ xfs _ hall⟩
  · have hfuel : entries.length ≤
        ((entries.map (fun e => le16 e.1 ++ le32 e.2)).flatten ++ aLast).length := by
      have := length_le_flatten_pairs (fun e => le16 e.1 ++ le32 e.2)
        (fun _ => by simp [le16]) entries
      rw [List.length_append]
      omega
    obtain ⟨b, aRest, st1, h1, h2, h4, h3⟩ := importMultRkLoop_spec env venv aLast hLast entries
      ((entries.map (fun e => le16 e.1 ++ le32 e.2)).flatten ++ aLast).length
      { mnCol := (nCol : Int), mnRow := (nRow : Int) } st hEntries hfuel
    have hres : st.importMultRk env venv
        (multRecord nRow nCol (entries.map (fun e => le16 e.1 ++ le32 e.2)) aLast) =
        (b, { maData := aRest ++ aLast, mbEof := false }, st1) := by
      unfold BiffSheetDataContext.importMultRk
      rw [readBinAddressBiff_multRecord nRow nCol _ aLast hRow hCol]
      exact h1
    rw [hres]
    refine ⟨?_, h3, List.suffix_append _ _, rfl, ?_⟩
    · rintro ⟨hb, hrem⟩
      have := h2 hb
      subst this
      simp [BinaryInputStream.getRemaining, hLast] at hrem
    · intro hall
      have hb := h4 hall
      have := h2 hb
      subst this
      exact ⟨rfl, multRkCalls_count env venv _ _ entries _ hall⟩

/-- C30 on a BIFF5 sheet with 1024 columns: a MULTBLANK record at row 1, column 1022 with
three format ids sets the two cells of the columns 1022 and 1023 and stops before column
1024; a MULTRK record there with two entries sets two cells and leaves the trailing
field. -/
theorem C30_witness :
    ((BiffSheetDataContext.new .BIFF5 0).importMultBlank sampleEnv
        (multRecord 1 1022 ([15, 16, 17].map le16) [0, 4])).2.2.mrSheetData =
      (BiffSheetDataContext.new .BIFF5 0).mrSheetData ++
        multBlankCalls sampleEnv (BiffSheetDataContext.new .BIFF5 0).mnSheet
          (BiffSheetDataContext.new .BIFF5 0).maCellData.mnCellType
          (BiffSheetDataContext.new .BIFF5 0).maCellData.mbShowPhonetic
          { mnCol := ((1022 : Nat) : Int), mnRow := ((1 : Nat) : Int) } [15, 16, 17] ∧
    multBlankCalls sampleEnv 0 .XML_TOKEN_INVALID false { mnCol := 1022, mnRow := 1 }
        [15, 16, 17] =
      [.extendUsedArea { Sheet := 0, Column := 1022, Row := 1 },
       .setBlankCell { maCellAddr := { Sheet := 0, Column := 1022, Row := 1 },
                       mnCellType := .XML_TOKEN_INVALID, mnXfId := 15, mbShowPhonetic := false },
       .extendUsedArea { Sheet := 0, Column := 1023, Row := 1 },
       .setBlankCell { maCellAddr := { Sheet := 0, Column := 1023, Row := 1 },
                       mnCellType := .XML_TOKEN_INVALID, mnXfId := 16,
                       mbShowPhonetic := false }] ∧
    ((BiffSheetDataContext.new .BIFF5 0).importMultRk sampleEnv sampleValueEnv
        (multRecord 1 1022 ([(15, 1), (16, 2)].map (fun e => le16 e.1 ++ le32 e.2))
          [0, 4])).2.1.maData = [0, 4] ∧
    setterCount (multRkCalls sampleEnv sampleValueEnv (BiffSheetDataContext.new .BIFF5 0).mnSheet
        (BiffSheetDataContext.new .BIFF5 0).maCellData.mbShowPhonetic
        { mnCol := ((1022 : Nat) : Int), mnRow := ((1 : Nat) : Int) } [(15, 1), (16, 2)]) =
      [(15, 1), (16, 2)].length :=
  ⟨(C30_records_for_several_cells sampleEnv sampleValueEnv (BiffSheetDataContext.new .BIFF5 0)
      1 1022 [15, 16, 17] [(15, 1), (16, 2)] [0, 4] (by decide) (by decide) rfl (by decide)
      (by decide)).1.2.1,
   by decide,
   (C30_records_for_several_cells sampleEnv sampleValueEnv (BiffSheetDataContext.new .BIFF5 0)
      1 1022 [15, 16, 17] [(15, 1), (16, 2)] [0, 4] (by decide) (by decide) rfl (by decide)
      (by decide)).2.2.2.2.2 (by decide)⟩

end Oox
